import Mathlib

/-!
Verification development for the S1-SEE repository.

This file gives a shallow embedding, in Lean 4, of the parts of the code that
the specification claims talk about:

* the UE correlator subscriber store (`src/s1ap_ue_correlator.cpp`),
* the rule engine (`src/rules/rule_engine.cc`),
* the write-ahead log (`wal_log.cc`),
* the S1AP codec entry points (`src/s1ap_parser.cpp`).

C++ `std::unordered_map`/`std::map` values are modelled as association lists
with last-write-wins update; machine integers are modelled as `Nat`/`Int`
(no claim depends on wrap-around); C++ `double` timestamps are modelled as `ℚ`
(only compared with `0` and stored); fallible paths return `Option`.
-/

namespace S1SEE

/-! ### Association-list maps

`afind`, `aset`, `aerase` model `std::unordered_map` lookup, `operator[]`
assignment and `erase`.  Iteration order of an `unordered_map` is unspecified
in C++; the model iterates in list order where the source iterates a map.
-/

def afind {K V : Type} [DecidableEq K] : List (K × V) → K → Option V
  | [], _ => none
  | p :: t, x => if x = p.1 then some p.2 else afind t x

def aerase {K V : Type} [DecidableEq K] : List (K × V) → K → List (K × V)
  | [], _ => []
  | p :: t, x => if p.1 = x then aerase t x else p :: aerase t x

def aset {K V : Type} [DecidableEq K] (m : List (K × V)) (x : K) (v : V) : List (K × V) :=
  (x, v) :: aerase m x

/-- Insertion into an `std::unordered_set` modelled as a duplicate-free list. -/
def tinsert (l : List Nat) (t : Nat) : List Nat :=
  if t ∈ l then l else t :: l

/-- Erasure from an `std::unordered_set` modelled as a list. -/
def tremove : List Nat → Nat → List Nat
  | [], _ => []
  | a :: t, x => if a = x then tremove t x else a :: tremove t x

/-! ### UE correlator subscriber store (`src/s1ap_ue_correlator.cpp`)

`SubscriberRecord` keeps the identifier fields and timestamps; the
drone-protocol/GPS fields of the C++ struct are never touched by the
operations modelled here and are omitted.  Subscriber ids (`uint64_t`) and
S1AP ids / TEIDs (`uint32_t`) are modelled as `Nat`; `double` timestamps as
`ℚ`.  The store's auxiliary write-only caches (`imsi_to_teids_`,
`teid_to_imsi_`, `s1ap_ids_to_teids_`, ...) are not read by any modelled
operation and are omitted from the state.
-/

inductive S1apPduType where
  | initiatingMessage
  | successfulOutcome
  | unsuccessfulOutcome
deriving DecidableEq

structure SubscriberRecord where
  imsi : Option String := none
  tmsi : Option String := none
  enb_ue_s1ap_id : Option Nat := none
  mme_ue_s1ap_id : Option Nat := none
  teids : List Nat := []
  imeisv : Option String := none
  first_seen_timestamp : Option ℚ := none
  last_seen_timestamp : Option ℚ := none
deriving DecidableEq

instance : Inhabited SubscriberRecord := ⟨{}⟩

/-- State of `S1apUeCorrelator`: the record table and the six secondary
indexes, plus the id counter (constructor initialises it to 1). -/
structure CorrState where
  subscriber_records : List (Nat × SubscriberRecord) := []
  imsi_to_subscriber_id : List (String × Nat) := []
  tmsi_to_subscriber_id : List (String × Nat) := []
  enb_ue_s1ap_id_to_subscriber_id : List (Nat × Nat) := []
  mme_ue_s1ap_id_to_subscriber_id : List (Nat × Nat) := []
  teid_to_subscriber_id : List (Nat × Nat) := []
  imeisv_to_subscriber_id : List (String × Nat) := []
  next_subscriber_id : Nat := 1
deriving DecidableEq

/-- The state after `S1apUeCorrelator()` (all maps empty, `next_subscriber_id_ = 1`). -/
def corrInit : CorrState := {}

/-- Dereference of a `SubscriberRecord*` obtained from `subscriber_records_[id]`;
call sites guarantee the id is present, so the default is never observed
through the public operations. -/
def getRecord (s : CorrState) (i : Nat) : SubscriberRecord :=
  (afind s.subscriber_records i).getD {}

def isXDigit (c : Char) : Bool :=
  c.isDigit || (('a' ≤ c) && (c ≤ 'f')) || (('A' ≤ c) && (c ≤ 'F'))

/-- `normalizeImsi`: keep the decimal digits. -/
def normalizeImsi (s : String) : String :=
  String.mk (s.data.filter Char.isDigit)

/-- `normalizeTmsi`: keep hex digits lowercased, then strip a leading `0x`
(the strip can never fire because `x` is not a hex digit; kept for fidelity). -/
def normalizeTmsi (s : String) : String :=
  let n := String.mk ((s.data.filter isXDigit).map Char.toLower)
  if 2 < n.length ∧ n.take 2 = "0x" then n.drop 2 else n

def normalizeImeisv (s : String) : String :=
  normalizeImsi s

/-- `associateImsi`: drop the record's previous IMSI from the index, then set
field and index.  Bails out when `subscriber_id == 0`.  (The null-pointer
guard of the C++ cannot fire: every call site passes `&subscriber_records_[id]`.) -/
def associateImsi (s : CorrState) (recId subId : Nat) (imsi : String) : CorrState :=
  if subId = 0 then s
  else
    let r := getRecord s recId
    let s1 :=
      match r.imsi with
      | some old => { s with imsi_to_subscriber_id := aerase s.imsi_to_subscriber_id old }
      | none => s
    { s1 with
      subscriber_records := aset s1.subscriber_records recId ({ r with imsi := some imsi }),
      imsi_to_subscriber_id := aset s1.imsi_to_subscriber_id imsi subId }

/-- `associateTmsi` (no `subscriber_id == 0` guard in the source). -/
def associateTmsi (s : CorrState) (recId subId : Nat) (tmsi : String) : CorrState :=
  let r := getRecord s recId
  let s1 :=
    match r.tmsi with
    | some old => { s with tmsi_to_subscriber_id := aerase s.tmsi_to_subscriber_id old }
    | none => s
  { s1 with
    subscriber_records := aset s1.subscriber_records recId ({ r with tmsi := some tmsi }),
    tmsi_to_subscriber_id := aset s1.tmsi_to_subscriber_id tmsi subId }

/-- `associateImeisv` (no zero guard). -/
def associateImeisv (s : CorrState) (recId subId : Nat) (imeisv : String) : CorrState :=
  let r := getRecord s recId
  let s1 :=
    match r.imeisv with
    | some old => { s with imeisv_to_subscriber_id := aerase s.imeisv_to_subscriber_id old }
    | none => s
  { s1 with
    subscriber_records := aset s1.subscriber_records recId ({ r with imeisv := some imeisv }),
    imeisv_to_subscriber_id := aset s1.imeisv_to_subscriber_id imeisv subId }

/-- The conflict step of `associateEnbUeS1apId`: when the id is indexed to a
different subscriber, that subscriber's field is cleared. -/
def conflictClearEnb (s : CorrState) (subId enb : Nat) : CorrState :=
  match afind s.enb_ue_s1ap_id_to_subscriber_id enb with
  | some other =>
    if other ≠ subId then
      match afind s.subscriber_records other with
      | some o =>
        { s with
            subscriber_records :=
              aset s.subscriber_records other ({ o with enb_ue_s1ap_id := none }) }
      | none => s
    else s
  | none => s

/-- `associateEnbUeS1apId`: on conflict the previous owner's field is cleared;
then the record's old value (if different) is dropped from the index; then
field and index are set. -/
def associateEnbUeS1apId (s : CorrState) (recId subId : Nat) (enb : Nat) : CorrState :=
  let s1 := conflictClearEnb s subId enb
  let r := getRecord s1 recId
  let s2 :=
    match r.enb_ue_s1ap_id with
    | some old =>
      if old ≠ enb then
        { s1 with enb_ue_s1ap_id_to_subscriber_id :=
            aerase s1.enb_ue_s1ap_id_to_subscriber_id old }
      else s1
    | none => s1
  { s2 with
    subscriber_records := aset s2.subscriber_records recId ({ r with enb_ue_s1ap_id := some enb }),
    enb_ue_s1ap_id_to_subscriber_id := aset s2.enb_ue_s1ap_id_to_subscriber_id enb subId }

/-- The conflict step of `associateMmeUeS1apId`. -/
def conflictClearMme (s : CorrState) (subId mme : Nat) : CorrState :=
  match afind s.mme_ue_s1ap_id_to_subscriber_id mme with
  | some other =>
    if other ≠ subId then
      match afind s.subscriber_records other with
      | some o =>
        { s with
            subscriber_records :=
              aset s.subscriber_records other ({ o with mme_ue_s1ap_id := none }) }
      | none => s
    else s
  | none => s

/-- `associateMmeUeS1apId`: same shape as the eNB variant. -/
def associateMmeUeS1apId (s : CorrState) (recId subId : Nat) (mme : Nat) : CorrState :=
  let s1 := conflictClearMme s subId mme
  let r := getRecord s1 recId
  let s2 :=
    match r.mme_ue_s1ap_id with
    | some old =>
      if old ≠ mme then
        { s1 with mme_ue_s1ap_id_to_subscriber_id :=
            aerase s1.mme_ue_s1ap_id_to_subscriber_id old }
      else s1
    | none => s1
  { s2 with
    subscriber_records := aset s2.subscriber_records recId ({ r with mme_ue_s1ap_id := some mme }),
    mme_ue_s1ap_id_to_subscriber_id := aset s2.mme_ue_s1ap_id_to_subscriber_id mme subId }

/-- The conflict step of `associateTeid`: the TEID is removed from the
previous owner's set when the old owner id is neither 0 nor the current
subscriber. -/
def conflictClearTeid (s : CorrState) (subId teid : Nat) : CorrState :=
  match afind s.teid_to_subscriber_id teid with
  | some old =>
    if old ≠ 0 ∧ old ≠ subId then
      match afind s.subscriber_records old with
      | some o =>
        { s with
            subscriber_records :=
              aset s.subscriber_records old ({ o with teids := tremove o.teids teid }) }
      | none => s
    else s
  | none => s

def associateTeid (s : CorrState) (recId subId : Nat) (teid : Nat) : CorrState :=
  if subId = 0 then s
  else
    let s1 := conflictClearTeid s subId teid
    let r := getRecord s1 recId
    { s1 with
      subscriber_records := aset s1.subscriber_records recId ({ r with teids := tinsert r.teids teid }),
      teid_to_subscriber_id := aset s1.teid_to_subscriber_id teid subId }

/-- `removeImsiAssociation`: clears record field and index entry when the
index maps the value to a nonzero id. -/
def removeImsiAssociation (s : CorrState) (imsi : String) : CorrState :=
  match afind s.imsi_to_subscriber_id imsi with
  | some sid =>
    if sid ≠ 0 then
      let s1 :=
        match afind s.subscriber_records sid with
        | some r =>
          { s with subscriber_records := aset s.subscriber_records sid ({ r with imsi := none }) }
        | none => s
      { s1 with imsi_to_subscriber_id := aerase s1.imsi_to_subscriber_id imsi }
    else s
  | none => s

def removeTmsiAssociation (s : CorrState) (tmsi : String) : CorrState :=
  match afind s.tmsi_to_subscriber_id tmsi with
  | some sid =>
    if sid ≠ 0 then
      let s1 :=
        match afind s.subscriber_records sid with
        | some r =>
          { s with subscriber_records := aset s.subscriber_records sid ({ r with tmsi := none }) }
        | none => s
      { s1 with tmsi_to_subscriber_id := aerase s1.tmsi_to_subscriber_id tmsi }
    else s
  | none => s

def removeEnbUeS1apIdAssociation (s : CorrState) (enb : Nat) : CorrState :=
  match afind s.enb_ue_s1ap_id_to_subscriber_id enb with
  | some sid =>
    if sid ≠ 0 then
      let s1 :=
        match afind s.subscriber_records sid with
        | some r =>
          { s with
              subscriber_records :=
                aset s.subscriber_records sid ({ r with enb_ue_s1ap_id := none }) }
        | none => s
      { s1 with enb_ue_s1ap_id_to_subscriber_id :=
          aerase s1.enb_ue_s1ap_id_to_subscriber_id enb }
    else s
  | none => s

def removeMmeUeS1apIdAssociation (s : CorrState) (mme : Nat) : CorrState :=
  match afind s.mme_ue_s1ap_id_to_subscriber_id mme with
  | some sid =>
    if sid ≠ 0 then
      let s1 :=
        match afind s.subscriber_records sid with
        | some r =>
          { s with
              subscriber_records :=
                aset s.subscriber_records sid ({ r with mme_ue_s1ap_id := none }) }
        | none => s
      { s1 with mme_ue_s1ap_id_to_subscriber_id :=
          aerase s1.mme_ue_s1ap_id_to_subscriber_id mme }
    else s
  | none => s

def removeTeidAssociation (s : CorrState) (teid : Nat) : CorrState :=
  match afind s.teid_to_subscriber_id teid with
  | some sid =>
    if sid ≠ 0 then
      let s1 :=
        match afind s.subscriber_records sid with
        | some r =>
          { s with
              subscriber_records :=
                aset s.subscriber_records sid ({ r with teids := tremove r.teids teid }) }
        | none => s
      { s1 with teid_to_subscriber_id := aerase s1.teid_to_subscriber_id teid }
    else s
  | none => s

def removeImeisvAssociation (s : CorrState) (imeisv : String) : CorrState :=
  match afind s.imeisv_to_subscriber_id imeisv with
  | some sid =>
    if sid ≠ 0 then
      let s1 :=
        match afind s.subscriber_records sid with
        | some r =>
          { s with subscriber_records := aset s.subscriber_records sid ({ r with imeisv := none }) }
        | none => s
      { s1 with imeisv_to_subscriber_id := aerase s1.imeisv_to_subscriber_id imeisv }
    else s
  | none => s

/-- First fallback scan of `getOrCreateSubscriber`: look for the unique record
whose stored S1AP-id fields match the requested ids (`candidate_by_s1ap_id`);
two matches reset the candidate to 0 and stop.  The C++ iterates an
`unordered_map` in unspecified order; the model iterates in list order. -/
def scanByS1apIds (mme enb : Option Nat) : List (Nat × SubscriberRecord) → Nat → Nat
  | [], acc => acc
  | (i, r) :: t, acc =>
    if (mme.isNone ∨ r.mme_ue_s1ap_id = mme) ∧ (enb.isNone ∨ r.enb_ue_s1ap_id = enb) ∧
        (r.mme_ue_s1ap_id.isSome ∨ r.enb_ue_s1ap_id.isSome) then
      if acc = 0 then scanByS1apIds mme enb t i else 0
    else scanByS1apIds mme enb t acc

/-- A record holding a stable identifier (IMSI or TMSI), as tested by the
second fallback scan. -/
def hasStable (r : SubscriberRecord) : Bool :=
  r.imsi.isSome || r.tmsi.isSome

def countStable : List (Nat × SubscriberRecord) → Nat
  | [] => 0
  | (_, r) :: t => (if hasStable r then 1 else 0) + countStable t

def firstStable : List (Nat × SubscriberRecord) → Nat
  | [] => 0
  | (i, r) :: t => if hasStable r then i else firstStable t

def maxStable : List (Nat × SubscriberRecord) → Nat → Nat
  | [], acc => acc
  | (i, r) :: t, acc => maxStable t (if hasStable r ∧ acc < i then i else acc)

/-- Index lookup used by the matching phase: value stored for the key, or 0
when the identifier is not provided or not indexed. -/
def lookupOr0 {K : Type} [DecidableEq K] (m : List (K × Nat)) : Option K → Nat
  | some x => (afind m x).getD 0
  | none => 0

/-- First nonzero of the two (the C++ `if (subscriber_id == 0 && ...)` chain). -/
def pick (a b : Nat) : Nat :=
  if a = 0 then b else a

/-- The both-S1AP-ids step: a match only when both ids are indexed to the same
subscriber. -/
def bothS1apMatch (s : CorrState) (mme enb : Option Nat) : Nat :=
  match mme, enb with
  | some mv, some ev =>
    match afind s.mme_ue_s1ap_id_to_subscriber_id mv,
          afind s.enb_ue_s1ap_id_to_subscriber_id ev with
    | some a, some b => if a = b then a else 0
    | _, _ => 0
  | _, _ => 0

/-- The fallback of `getOrCreateSubscriber` for S1AP-id-only lookups. -/
def gocFallback (s : CorrState) (mme enb : Option Nat) : Nat :=
  let c1 := scanByS1apIds mme enb s.subscriber_records 0
  if c1 ≠ 0 then c1
  else
    let cnt := countStable s.subscriber_records
    let cand := firstStable s.subscriber_records
    if cnt = 1 ∧ cand ≠ 0 then cand
    else if 1 < cnt ∧ cand ≠ 0 then maxStable s.subscriber_records cand
    else 0

/-- The matching phase of `getOrCreateSubscriber` (priority IMSI, TMSI,
IMEISV, both S1AP ids, MME alone, eNB alone, TEID, then the two fallback
scans); 0 means no match.  A stored index value of 0 behaves like the C++
where `subscriber_id` stays 0 and matching continues. -/
def gocMatch (s : CorrState) (imsi tmsi : Option String) (enb mme teid : Option Nat)
    (imeisv : Option String) : Nat :=
  let sid7 :=
    pick (pick (pick (pick (pick (pick
      (lookupOr0 s.imsi_to_subscriber_id imsi)
      (lookupOr0 s.tmsi_to_subscriber_id tmsi))
      (lookupOr0 s.imeisv_to_subscriber_id imeisv))
      (bothS1apMatch s mme enb))
      (lookupOr0 s.mme_ue_s1ap_id_to_subscriber_id mme))
      (lookupOr0 s.enb_ue_s1ap_id_to_subscriber_id enb))
      (lookupOr0 s.teid_to_subscriber_id teid)
  if sid7 = 0 ∧ imsi = none ∧ tmsi = none ∧ imeisv = none ∧ (mme.isSome ∨ enb.isSome) then
    gocFallback s mme enb
  else sid7

/-- `subscriber_records_[subscriber_id]` on the matched branch: `operator[]`
inserts a default-constructed record when the id is missing. -/
def materialize (s : CorrState) (sid0 : Nat) : CorrState :=
  match afind s.subscriber_records sid0 with
  | some _ => s
  | none => { s with subscriber_records := aset s.subscriber_records sid0 ({}) }

/-- `getOrCreateSubscriber` (argument order as in the source:
imsi, tmsi, enb, mme, teid, imeisv).  Returns the new state together with the
id of the record the returned `SubscriberRecord*` points to. -/
def getOrCreateSubscriber (s : CorrState) (imsi tmsi : Option String)
    (enb mme teid : Option Nat) (imeisv : Option String) : CorrState × Nat :=
  let sid0 := gocMatch s imsi tmsi enb mme teid imeisv
  let p :=
    if sid0 = 0 then
      ({ s with
          subscriber_records := aset s.subscriber_records s.next_subscriber_id ({}),
          next_subscriber_id := s.next_subscriber_id + 1 }, s.next_subscriber_id)
    else
      (materialize s sid0, sid0)
  let s1 := p.1
  let sid := p.2
  let s2 := match imsi with | some x => associateImsi s1 sid sid x | none => s1
  let s3 := match tmsi with | some x => associateTmsi s2 sid sid x | none => s2
  let s4 := match enb with | some v => associateEnbUeS1apId s3 sid sid v | none => s3
  let s5 := match mme with | some v => associateMmeUeS1apId s4 sid sid v | none => s4
  let s6 := match teid with | some v => associateTeid s5 sid sid v | none => s5
  let s7 := match imeisv with | some x => associateImeisv s6 sid sid x | none => s6
  (s7, sid)

/-- Identifier material of one decoded frame, as produced by the extractor
calls at the top of `processS1apFrame` (`extractImsisFromS1ap`,
`extractTmsisFromS1ap`, `extractImeisvsFromS1ap`, `extractS1apIds`; `teids`
is the concatenation of `extractTeidsFromS1ap` with the TEIDs found by the
TMSI extraction). -/
structure Frame where
  procedure_code : Nat
  pdu_type : S1apPduType
  imsis : List String
  tmsis : List String
  imeisvs : List String
  mme_id : Option Nat
  enb_id : Option Nat
  teids : List Nat
deriving DecidableEq

/-- The `subscriber_id` re-lookup of `processS1apFrame` (priority IMSI, TMSI,
IMEISV, MME id, eNB id; each lookup requires a nonzero stored id). -/
def recomputeSubscriberId (s : CorrState) (imsiN tmsiN imeisvN : Option String)
    (mme enb : Option Nat) : Nat :=
  let v1 :=
    match imsiN with
    | some x => (afind s.imsi_to_subscriber_id x).getD 0
    | none => 0
  let v2 :=
    if v1 = 0 then
      match tmsiN with
      | some x => (afind s.tmsi_to_subscriber_id x).getD 0
      | none => 0
    else v1
  let v3 :=
    if v2 = 0 then
      match imeisvN with
      | some x => (afind s.imeisv_to_subscriber_id x).getD 0
      | none => 0
    else v2
  let v4 :=
    if v3 = 0 then
      match mme with
      | some y => (afind s.mme_ue_s1ap_id_to_subscriber_id y).getD 0
      | none => 0
    else v3
  if v4 = 0 then
    match enb with
    | some z => (afind s.enb_ue_s1ap_id_to_subscriber_id z).getD 0
    | none => 0
  else v4

/-- The first-seen/last-seen update of `processS1apFrame` (only for a
positive timestamp). -/
def updateSeenTimestamps (s : CorrState) (g : Nat) (timestamp : ℚ) : CorrState :=
  if 0 < timestamp then
    let r := getRecord s g
    let r1 := { r with
      first_seen_timestamp :=
        if r.first_seen_timestamp.isNone then some timestamp else r.first_seen_timestamp,
      last_seen_timestamp := some timestamp }
    { s with subscriber_records := aset s.subscriber_records g r1 }
  else s

/-- `processS1apFrame`, starting from the normalization of the extracted
identifiers (the preceding block of the source only fills the write-only
auxiliary caches).  Returns the id of the returned record, or 0 for the
`nullptr` return when no identifier is present. -/
def processS1apFrame (s : CorrState) (f : Frame) (timestamp : ℚ) : CorrState × Nat :=
  let imsiN := f.imsis.head?.map normalizeImsi
  let tmsiN := f.tmsis.head?.map normalizeTmsi
  let imeisvN := f.imeisvs.head?.map normalizeImeisv
  if imsiN.isSome ∨ tmsiN.isSome ∨ imeisvN.isSome ∨ f.mme_id.isSome ∨ f.enb_id.isSome then
    let p := getOrCreateSubscriber s imsiN tmsiN f.enb_id f.mme_id none imeisvN
    let s1 := p.1
    let g := p.2
    let sid := recomputeSubscriberId s1 imsiN tmsiN imeisvN f.mme_id f.enb_id
    let s2 :=
      if sid ≠ 0 then
        let sa := match f.mme_id with | some y => associateMmeUeS1apId s1 g sid y | none => s1
        let sb := match f.enb_id with | some z => associateEnbUeS1apId sa g sid z | none => sa
        f.teids.foldl (fun st t => associateTeid st g sid t) sb
      else s1
    let s3 := updateSeenTimestamps s2 g timestamp
    let s4 :=
      if f.procedure_code = 23 ∧ f.pdu_type = S1apPduType.successfulOutcome then
        let sr := match f.mme_id with | some y => removeMmeUeS1apIdAssociation s3 y | none => s3
        match f.enb_id with | some z => removeEnbUeS1apIdAssociation sr z | none => sr
      else s3
    (s4, g)
  else (s, 0)

/-- The subscriber-store operations named by the invariant claims. The
`assoc*` operations carry the id whose record pointer the C++ caller passes
together with the same id as `subscriber_id`; a call is only meaningful when
the record exists (the pointer is obtained from the table), hence the guard. -/
inductive CorrOp where
  | getOrCreate (imsi tmsi : Option String) (enb mme teid : Option Nat) (imeisv : Option String)
  | assocImsi (i : Nat) (x : String)
  | assocTmsi (i : Nat) (x : String)
  | assocImeisv (i : Nat) (x : String)
  | assocEnb (i : Nat) (v : Nat)
  | assocMme (i : Nat) (v : Nat)
  | assocTeid (i : Nat) (v : Nat)
  | removeImsi (x : String)
  | removeTmsi (x : String)
  | removeImeisv (x : String)
  | removeEnb (v : Nat)
  | removeMme (v : Nat)
  | removeTeid (v : Nat)
  | processFrame (f : Frame) (ts : ℚ)

def applyCorrOp (op : CorrOp) (s : CorrState) : CorrState :=
  match op with
  | .getOrCreate imsi tmsi enb mme teid imeisv =>
    (getOrCreateSubscriber s imsi tmsi enb mme teid imeisv).1
  | .assocImsi i x => if (afind s.subscriber_records i).isSome then associateImsi s i i x else s
  | .assocTmsi i x => if (afind s.subscriber_records i).isSome then associateTmsi s i i x else s
  | .assocImeisv i x =>
    if (afind s.subscriber_records i).isSome then associateImeisv s i i x else s
  | .assocEnb i v =>
    if (afind s.subscriber_records i).isSome then associateEnbUeS1apId s i i v else s
  | .assocMme i v =>
    if (afind s.subscriber_records i).isSome then associateMmeUeS1apId s i i v else s
  | .assocTeid i v =>
    if (afind s.subscriber_records i).isSome then associateTeid s i i v else s
  | .removeImsi x => removeImsiAssociation s x
  | .removeTmsi x => removeTmsiAssociation s x
  | .removeImeisv x => removeImeisvAssociation s x
  | .removeEnb v => removeEnbUeS1apIdAssociation s v
  | .removeMme v => removeMmeUeS1apIdAssociation s v
  | .removeTeid v => removeTeidAssociation s v
  | .processFrame f ts => (processS1apFrame s f ts).1

def applyCorrOps (ops : List CorrOp) (s : CorrState) : CorrState :=
  ops.foldl (fun st op => applyCorrOp op st) s

/-- Well-formedness of ids: the counter is positive and every record key and
every index value lies strictly between 0 and the counter.  This holds in the
initial state and is preserved by every operation. -/
def IdxBounded {K : Type} (m : List (K × Nat)) (n : Nat) : Prop :=
  ∀ p ∈ m, 0 < p.2 ∧ p.2 < n

def WFids (s : CorrState) : Prop :=
  0 < s.next_subscriber_id ∧
  (∀ p ∈ s.subscriber_records, 0 < p.1 ∧ p.1 < s.next_subscriber_id) ∧
  IdxBounded s.imsi_to_subscriber_id s.next_subscriber_id ∧
  IdxBounded s.tmsi_to_subscriber_id s.next_subscriber_id ∧
  IdxBounded s.enb_ue_s1ap_id_to_subscriber_id s.next_subscriber_id ∧
  IdxBounded s.mme_ue_s1ap_id_to_subscriber_id s.next_subscriber_id ∧
  IdxBounded s.teid_to_subscriber_id s.next_subscriber_id ∧
  IdxBounded s.imeisv_to_subscriber_id s.next_subscriber_id

/-- Field-to-index consistency for the MME-UE-S1AP-ID, eNB-UE-S1AP-ID and
TEID identifier kinds: a record holding the identifier is the record its
index entry points to. -/
def FieldIdxOk (s : CorrState) : Prop :=
  ∀ i r, afind s.subscriber_records i = some r →
    (∀ y, r.mme_ue_s1ap_id = some y → afind s.mme_ue_s1ap_id_to_subscriber_id y = some i) ∧
    (∀ z, r.enb_ue_s1ap_id = some z → afind s.enb_ue_s1ap_id_to_subscriber_id z = some i) ∧
    (∀ t, t ∈ r.teids → afind s.teid_to_subscriber_id t = some i)

/-- Full field-to-index consistency, additionally covering IMSI, TMSI and
IMEISV — the property asserted by the specification for all six kinds. -/
def FieldIdxOkAll (s : CorrState) : Prop :=
  FieldIdxOk s ∧
  ∀ i r, afind s.subscriber_records i = some r →
    (∀ x, r.imsi = some x → afind s.imsi_to_subscriber_id x = some i) ∧
    (∀ x, r.tmsi = some x → afind s.tmsi_to_subscriber_id x = some i) ∧
    (∀ x, r.imeisv = some x → afind s.imeisv_to_subscriber_id x = some i)

/-! ### Write-ahead log (`wal_log.cc`)

The model covers one partition of `WALLog` (the claims are per-partition;
`partition_for_message` with `num_partitions = 1` always selects partition 0).
`dir` is the set of segment base offsets whose `.log` files exist on disk for
the partition; `active` is the in-memory `active_segments_` entry.  Offsets
and sizes (`int64_t`) stay nonnegative in every modelled run and are `Nat`.
-/

structure SegmentInfo where
  base_offset : Nat
  current_offset : Nat
  file_size : Nat
deriving DecidableEq

structure WalState where
  dir : List Nat := []
  active : Option SegmentInfo := none
deriving DecidableEq

def walInit : WalState := {}

/-- The directory scan of `get_or_create_segment`: `base_offset` starts at 0
and every existing segment base `b ≥ base_offset` bumps it to `b + 1`. -/
def newBase (dir : List Nat) : Nat :=
  dir.foldl (fun b off => if b ≤ off then off + 1 else b) 0

/-- `get_or_create_segment` for the single modelled partition.  When the
active segment reaches `max_segment_size` the source calls `rotate_segment`
(which flushes, closes and erases the `active_segments_` entry, leaving the
files on disk) and then dereferences the just-erased map entry — undefined
behaviour; the model continues with the creation path that the same function
executes for a missing entry, which recreates a segment with
`base_offset = newBase dir`.  The freshly computed base never names an
existing file, so the `fs::exists` branch that would re-derive
`current_offset` from the index cannot fire and is omitted
(see `newBase_not_mem`). -/
def getOrCreateSegment (maxSegmentSize : Nat) (s : WalState) : WalState × SegmentInfo :=
  match s.active with
  | some seg =>
    if maxSegmentSize ≤ seg.file_size then
      let base := newBase s.dir
      let fresh : SegmentInfo := ⟨base, base, 0⟩
      (⟨base :: s.dir, some fresh⟩, fresh)
    else (s, seg)
  | none =>
    let base := newBase s.dir
    let fresh : SegmentInfo := ⟨base, base, 0⟩
    (⟨base :: s.dir, some fresh⟩, fresh)

/-- `WALLog::append` for one partition and one message whose serialized
`SpoolRecord` occupies `serSize` bytes.  `serOk = false` models
`SerializeToString` failing: the source then throws
`std::runtime_error` — but only after `seg->current_offset++` has already
executed, so the incremented offset persists in the state; the model returns
`none` for the thrown exception.  A successful append writes a 4-byte length
prefix plus the record and returns the assigned offset. -/
def walAppend (maxSegmentSize serSize : Nat) (serOk : Bool) (s : WalState) :
    WalState × Option Nat :=
  let p := getOrCreateSegment maxSegmentSize s
  let s1 := p.1
  let seg := p.2
  let off := seg.current_offset
  let seg1 : SegmentInfo := { seg with current_offset := off + 1 }
  if serOk then
    let seg2 : SegmentInfo := { seg1 with file_size := seg1.file_size + (4 + serSize) }
    ({ s1 with active := some seg2 }, some off)
  else
    ({ s1 with active := some seg1 }, none)

/-- Run a sequence of appends, collecting the returned offsets (`none` for an
append that threw). -/
def walRun (maxSegmentSize : Nat) : List (Nat × Bool) → WalState → WalState × List (Option Nat)
  | [], s => (s, [])
  | (sz, ok) :: rest, s =>
    let p := walAppend maxSegmentSize sz ok s
    let q := walRun maxSegmentSize rest p.1
    (q.1, p.2 :: q.2)

/-- `WALLog::prune_old_segments`: the function body only takes the mutex; the
retention logic is absent ("Simplified for prototype"), so the state is
returned unchanged. -/
def pruneOldSegments (s : WalState) : WalState :=
  s

/-! ### Rule engine (`src/rules/rule_engine.cc`)

`CanonicalMessage` is modelled with the protobuf fields the engine reads
(absent protobuf scalars read as `0` / empty).  Timestamps are nanosecond /
millisecond counts; the engine only forms `now - first_seen` differences and
compares them with the window and with the 60 s cap, so `Nat` milliseconds
model `std::chrono::system_clock` time points.  `confidence` (always set to
1.0) is not modelled.
-/

structure CanonicalMessage where
  msg_type : String := ""
  spool_partition : Int := 0
  spool_offset : Int := 0
  frame_number : Nat := 0
  ecgi : List Nat := []
  target_ecgi : List Nat := []
  mme_ue_s1ap_id : Nat := 0
  enb_ue_s1ap_id : Nat := 0
  imsi : String := ""
  tmsi : String := ""
deriving DecidableEq

structure SpoolOffsetRef where
  partition : Int
  offset : Int
  frame : Option Nat
deriving DecidableEq

structure Event where
  name : String
  ts : Nat
  subscriber_key : String
  attributes : List (String × String)
  evidence : List SpoolOffsetRef
  ruleset_id : String
  ruleset_version : String
deriving DecidableEq

structure EventDataExtraction where
  target_attribute : String
  source_expression : String
deriving DecidableEq

structure SingleMessageRule where
  event_name : String
  msg_type_pattern : String
  attributes : List (String × String)
  event_data : List EventDataExtraction
deriving DecidableEq

structure SequenceRule where
  event_name : String
  first_msg_type : String
  second_msg_type : String
  time_window : Nat
  attributes : List (String × String)
  event_data : List EventDataExtraction
deriving DecidableEq

structure Ruleset where
  id : String
  version : String
  single_message_rules : List SingleMessageRule
  sequence_rules : List SequenceRule
deriving DecidableEq

structure SequenceState where
  subscriber_key : String
  first_msg_type : String
  first_message : CanonicalMessage
  first_seen : Nat
  ruleset_id : String
  ruleset_version : String
deriving DecidableEq

/-- UE-context fields readable through `context.<field>` expressions. -/
structure UeCtxView where
  ecgi : List Nat := []
  source_ecgi : List Nat := []
  target_ecgi : List Nat := []
  imsi : Option String := none
  tmsi : Option String := none
deriving DecidableEq

structure RuleEngineState where
  rulesets : List Ruleset := []
  sequence_states : List (String × List SequenceState) := []
deriving DecidableEq

def nibbleChar (n : Nat) : Char :=
  if n < 10 then Char.ofNat (48 + n) else Char.ofNat (87 + n)

/-- `bytes_to_hex_string`: two lowercase hex digits per byte, `""` for `[]`. -/
def bytesToHexString (bytes : List Nat) : String :=
  String.mk (bytes.foldr (fun b acc => nibbleChar (b / 16 % 16) :: nibbleChar (b % 16) :: acc) [])

/-- The `(partition, offset, frame?)` evidence entry built for a message
(`frame_number` attached only when nonzero). -/
def offsetOf (m : CanonicalMessage) : SpoolOffsetRef :=
  ⟨m.spool_partition, m.spool_offset, if m.frame_number ≠ 0 then some m.frame_number else none⟩

/-- `extract_event_data_value`: split the expression at its first dot and
read the named field from the message, the first message (sequence rules) or
the UE context; empty string when the source or field is unknown or the
value is empty/zero. -/
def extractEventDataValue (expression : String) (message : CanonicalMessage)
    (first_message : Option CanonicalMessage) (ctx : Option UeCtxView) : String :=
  match expression.splitOn "." with
  | [] => ""
  | [_] => ""
  | source :: rest =>
    let field := String.intercalate "." rest
    if source = "message" then
      if field = "ecgi" ∧ message.ecgi ≠ [] then bytesToHexString message.ecgi
      else if field = "target_ecgi" ∧ message.target_ecgi ≠ [] then
        bytesToHexString message.target_ecgi
      else if field = "mme_ue_s1ap_id" ∧ message.mme_ue_s1ap_id ≠ 0 then
        toString message.mme_ue_s1ap_id
      else if field = "enb_ue_s1ap_id" ∧ message.enb_ue_s1ap_id ≠ 0 then
        toString message.enb_ue_s1ap_id
      else if field = "imsi" ∧ message.imsi ≠ "" then message.imsi
      else if field = "tmsi" ∧ message.tmsi ≠ "" then message.tmsi
      else if field = "msg_type" ∧ message.msg_type ≠ "" then message.msg_type
      else ""
    else if source = "first_message" then
      match first_message with
      | some fm =>
        if field = "ecgi" ∧ fm.ecgi ≠ [] then bytesToHexString fm.ecgi
        else if field = "target_ecgi" ∧ fm.target_ecgi ≠ [] then bytesToHexString fm.target_ecgi
        else if field = "mme_ue_s1ap_id" ∧ fm.mme_ue_s1ap_id ≠ 0 then
          toString fm.mme_ue_s1ap_id
        else if field = "enb_ue_s1ap_id" ∧ fm.enb_ue_s1ap_id ≠ 0 then
          toString fm.enb_ue_s1ap_id
        else if field = "imsi" ∧ fm.imsi ≠ "" then fm.imsi
        else if field = "tmsi" ∧ fm.tmsi ≠ "" then fm.tmsi
        else if field = "msg_type" ∧ fm.msg_type ≠ "" then fm.msg_type
        else ""
      | none => ""
    else if source = "context" then
      match ctx with
      | some c =>
        if field = "source_ecgi" ∧ c.source_ecgi ≠ [] then bytesToHexString c.source_ecgi
        else if field = "ecgi" ∧ c.ecgi ≠ [] then bytesToHexString c.ecgi
        else if field = "target_ecgi" ∧ c.target_ecgi ≠ [] then bytesToHexString c.target_ecgi
        else if field = "imsi" ∧ c.imsi.isSome then c.imsi.getD ""
        else if field = "tmsi" ∧ c.tmsi.isSome then c.tmsi.getD ""
        else ""
      | none => ""
    else ""

/-- `create_event`: name, timestamp, subscriber key, static attributes, the
derived `msg_type` and (when nonempty) `ecgi` attributes, and one evidence
entry for the message itself. -/
def createEvent (name : String) (message : CanonicalMessage)
    (attributes : List (String × String)) (ruleset_id ruleset_version : String)
    (subscriber_key : String) (now : Nat) : Event :=
  let attrs0 := attributes.foldl (fun m kv => aset m kv.1 kv.2) []
  let attrs1 := aset attrs0 "msg_type" message.msg_type
  let attrs2 :=
    if message.ecgi ≠ [] then aset attrs1 "ecgi" (bytesToHexString message.ecgi) else attrs1
  { name := name
    ts := now
    subscriber_key := subscriber_key
    attributes := attrs2
    evidence := [offsetOf message]
    ruleset_id := ruleset_id
    ruleset_version := ruleset_version }

/-- Apply the rule's `event_data` extraction specifications to an event. -/
def applyEventData (eventData : List EventDataExtraction) (message : CanonicalMessage)
    (first_message : Option CanonicalMessage) (ctx : Option UeCtxView) (e : Event) : Event :=
  eventData.foldl
    (fun ev ex =>
      let v := extractEventDataValue ex.source_expression message first_message ctx
      if v ≠ "" then { ev with attributes := aset ev.attributes ex.target_attribute v } else ev)
    e

/-- `check_single_message_rules`. -/
def checkSingleMessageRules (message : CanonicalMessage) (ruleset : Ruleset)
    (subscriber_key : String) (now : Nat) (ctx : Option UeCtxView) : List Event :=
  ruleset.single_message_rules.foldl
    (fun evs rule =>
      if message.msg_type = rule.msg_type_pattern then
        let e := createEvent rule.event_name message rule.attributes ruleset.id ruleset.version
          subscriber_key now
        evs ++ [applyEventData rule.event_data message none ctx e]
      else evs)
    []

/-- The erase-while-matching scan over the pending sequence states for one
sequence rule whose `second_msg_type` matched: states whose first type
matches and are inside the window produce an event (evidence: the current
message from `create_event`, then first message, then current message) and
are removed; others stay. -/
def scanSequences (rule : SequenceRule) (message : CanonicalMessage) (subscriber_key : String)
    (now : Nat) (ruleset : Ruleset) (ctx : Option UeCtxView) :
    List SequenceState → List SequenceState × List Event
  | [] => ([], [])
  | st :: rest =>
    if st.first_msg_type = rule.first_msg_type then
      if now - st.first_seen ≤ rule.time_window then
        let e0 := createEvent rule.event_name message rule.attributes ruleset.id ruleset.version
          subscriber_key now
        let e1 := applyEventData rule.event_data message (some st.first_message) ctx e0
        let e2 := { e1 with evidence := e1.evidence ++ [offsetOf st.first_message, offsetOf message] }
        let q := scanSequences rule message subscriber_key now ruleset ctx rest
        (q.1, e2 :: q.2)
      else
        let q := scanSequences rule message subscriber_key now ruleset ctx rest
        (st :: q.1, q.2)
    else
      let q := scanSequences rule message subscriber_key now ruleset ctx rest
      (st :: q.1, q.2)

/-- `cleanup_expired_sequences`: drop states older than the 60 s absolute cap
(`duration_cast<seconds>` truncates), then drop empty per-key entries. -/
def cleanupExpiredSequences (now : Nat) (e : RuleEngineState) : RuleEngineState :=
  { e with sequence_states :=
      ((e.sequence_states.map (fun kv =>
          (kv.1, kv.2.filter (fun st => ¬ 60 < (now - st.first_seen) / 1000)))).filter
        (fun kv => ¬ kv.2 = [])) }

/-- `check_sequence_rules`: cleanup, materialise the subscriber's state list
(`sequence_states_[subscriber_key]`), then per rule either start a new
sequence (first type matched) or complete pending ones (second type matched). -/
def checkSequenceRules (e : RuleEngineState) (message : CanonicalMessage) (ruleset : Ruleset)
    (subscriber_key : String) (now : Nat) (ctx : Option UeCtxView) :
    RuleEngineState × List Event :=
  let e1 := cleanupExpiredSequences now e
  let l0 := (afind e1.sequence_states subscriber_key).getD []
  let p := ruleset.sequence_rules.foldl
    (fun (acc : List SequenceState × List Event) rule =>
      if message.msg_type = rule.first_msg_type then
        (acc.1 ++ [⟨subscriber_key, rule.first_msg_type, message, now, ruleset.id,
          ruleset.version⟩], acc.2)
      else if message.msg_type = rule.second_msg_type then
        let q := scanSequences rule message subscriber_key now ruleset ctx acc.1
        (q.1, acc.2 ++ q.2)
      else acc)
    (l0, [])
  ({ e1 with sequence_states := aset e1.sequence_states subscriber_key p.1 }, p.2)

/-- `RuleEngine::process`: the subscriber key is obtained from the correlator
once (passed in here, together with the context view the correlator would
serve); every loaded ruleset contributes its single-message events and then
its sequence events. -/
def processMessage (e : RuleEngineState) (message : CanonicalMessage)
    (subscriber_key : String) (now : Nat) (ctx : Option UeCtxView) :
    RuleEngineState × List Event :=
  e.rulesets.foldl
    (fun (acc : RuleEngineState × List Event) rs =>
      let singles := checkSingleMessageRules message rs subscriber_key now ctx
      let q := checkSequenceRules acc.1 message rs subscriber_key now ctx
      (q.1, acc.2 ++ singles ++ q.2))
    (e, [])

/-! ### S1AP codec (`src/s1ap_parser.cpp`)

Byte buffers are `List Nat` (each element a byte value).  `bget` is used for
reads that are dominated by an explicit bounds check in the source;
`parseS1apPdu` instead performs every read through `List.get?` and returns
`none` when a read falls outside the buffer — modelling the undefined
behaviour of an out-of-bounds `s1ap_bytes[...]` access.
-/

def bget (b : List Nat) (i : Nat) : Nat :=
  (b.get? i).getD 0

/-- `getProcedureCodeName` (3GPP TS 36.413 procedure-code table). -/
def getProcedureCodeName (procedure_code : Nat) : String :=
  match procedure_code with
  | 0 => "HandoverPreparation"
  | 1 => "HandoverResourceAllocation"
  | 2 => "HandoverNotification"
  | 3 => "PathSwitchRequest"
  | 4 => "HandoverCancel"
  | 5 => "E-RABSetup"
  | 6 => "E-RABModify"
  | 7 => "E-RABRelease"
  | 8 => "E-RABReleaseIndication"
  | 9 => "InitialContextSetup"
  | 10 => "Paging"
  | 11 => "downlinkNASTransport"
  | 12 => "initialUEMessage"
  | 13 => "uplinkNASTransport"
  | 14 => "Reset"
  | 15 => "ErrorIndication"
  | 16 => "NASNonDeliveryIndication"
  | 17 => "S1Setup"
  | 18 => "UEContextReleaseRequest"
  | 19 => "DownlinkS1cdma2000tunneling"
  | 20 => "UplinkS1cdma2000tunneling"
  | 21 => "UEContextModification"
  | 22 => "UECapabilityInfoIndication"
  | 23 => "UEContextRelease"
  | 24 => "eNBStatusTransfer"
  | 25 => "MMEStatusTransfer"
  | 26 => "DeactivateTrace"
  | 27 => "TraceStart"
  | 28 => "TraceFailureIndication"
  | 29 => "ENBConfigurationUpdate"
  | 30 => "MMEConfigurationUpdate"
  | 31 => "LocationReportingControl"
  | 32 => "LocationReportingFailureIndication"
  | 33 => "LocationReport"
  | 34 => "OverloadStart"
  | 35 => "OverloadStop"
  | 36 => "WriteReplaceWarning"
  | 37 => "eNBDirectInformationTransfer"
  | 38 => "MMEDirectInformationTransfer"
  | 39 => "PrivateMessage"
  | 40 => "eNBConfigurationTransfer"
  | 41 => "MMEConfigurationTransfer"
  | 42 => "CellTrafficTrace"
  | 43 => "Kill"
  | 44 => "downlinkUEAssociatedLPPaTransport"
  | 45 => "uplinkUEAssociatedLPPaTransport"
  | 46 => "downlinkNonUEAssociatedLPPaTransport"
  | 47 => "uplinkNonUEAssociatedLPPaTransport"
  | _ => "Unknown"

/-- `getIeNameFromId` (ProtocolIE-ID table; unknown ids map to `IE_<n>`). -/
def getIeNameFromId (ie_id : Nat) : String :=
  match ie_id with
  | 0 => "MME-UE-S1AP-ID"
  | 1 => "HandoverType"
  | 2 => "Cause"
  | 3 => "SourceID"
  | 4 => "TargetID"
  | 5 => "Unknown-5"
  | 6 => "Unknown-6"
  | 7 => "Unknown-7"
  | 8 => "eNB-UE-S1AP-ID"
  | 9 => "Unknown-9"
  | 10 => "Unknown-10"
  | 11 => "Unknown-11"
  | 12 => "E-RABSubjecttoDataForwardingList"
  | 13 => "E-RABtoReleaseListHOCmd"
  | 14 => "E-RABDataForwardingItem"
  | 15 => "E-RABReleaseItemBearerRelComp"
  | 16 => "E-RABToBeSetupListBearerSUReq"
  | 17 => "E-RABToBeSetupItemBearerSUReq"
  | 18 => "E-RABAdmittedList"
  | 19 => "E-RABFailedToSetupListHOReqAck"
  | 20 => "E-RABAdmittedItem"
  | 21 => "E-RABFailedtoSetupItemHOReqAck"
  | 22 => "E-RABToBeSwitchedDLList"
  | 23 => "E-RABToBeSwitchedDLItem"
  | 24 => "E-RABToBeSetupListCtxtSUReq"
  | 25 => "TraceActivation"
  | 26 => "NAS-PDU"
  | 27 => "E-RABToBeSetupItemHOReq"
  | 28 => "E-RABSetupListBearerSURes"
  | 29 => "E-RABFailedToSetupListBearerSURes"
  | 30 => "E-RABToBeModifiedListBearerModReq"
  | 31 => "E-RABModifyListBearerModRes"
  | 32 => "E-RABFailedToModifyList"
  | 33 => "E-RABToBeReleasedList"
  | 34 => "E-RABFailedToReleaseList"
  | 35 => "E-RABItem"
  | 36 => "E-RABToBeModifiedItemBearerModReq"
  | 37 => "E-RABModifyItemBearerModRes"
  | 38 => "E-RABReleaseItem"
  | 39 => "E-RABSetupItemBearerSURes"
  | 40 => "SecurityContext"
  | 41 => "HandoverRestrictionList"
  | 42 => "Unknown-42"
  | 43 => "UEPagingID"
  | 44 => "pagingDRX"
  | 45 => "Unknown-45"
  | 46 => "TAIList"
  | 47 => "TAIItem"
  | 48 => "E-RABFailedToSetupListCtxtSURes"
  | 49 => "E-RABReleaseItemHOCmd"
  | 50 => "E-RABSetupItemCtxtSURes"
  | 51 => "E-RABSetupListCtxtSURes"
  | 52 => "E-RABToBeSetupItemCtxtSUReq"
  | 53 => "E-RABToBeSetupListHOReq"
  | 54 => "Unknown-54"
  | 55 => "GERANtoLTEHOInformationRes"
  | 56 => "Unknown-56"
  | 57 => "UTRANtoLTEHOInformationRes"
  | 58 => "CriticalityDiagnostics"
  | 59 => "Global-ENB-ID"
  | 60 => "eNBname"
  | 61 => "MMEname"
  | 62 => "Unknown-62"
  | 63 => "ServedPLMNs"
  | 64 => "SupportedTAs"
  | 65 => "TimeToWait"
  | 66 => "uEaggregateMaximumBitrate"
  | 67 => "TAI"
  | 68 => "Unknown-68"
  | 69 => "E-RABReleaseListBearerRelComp"
  | 70 => "cdma2000PDU"
  | 71 => "cdma2000RATType"
  | 72 => "cdma2000SectorID"
  | 73 => "SecurityKey"
  | 74 => "UERadioCapability"
  | 75 => "GUMMEI-ID"
  | 76 => "Unknown-76"
  | 77 => "Unknown-77"
  | 78 => "E-RABInformationListItem"
  | 79 => "Direct-Forwarding-Path-Availability"
  | 80 => "UEIdentityIndexValue"
  | 81 => "Unknown-81"
  | 82 => "Unknown-82"
  | 83 => "cdma2000HOStatus"
  | 84 => "cdma2000HORequiredIndication"
  | 85 => "Unknown-85"
  | 86 => "E-UTRAN-Trace-ID"
  | 87 => "RelativeMMECapacity"
  | 88 => "SourceMME-UE-S1AP-ID"
  | 89 => "Bearers-SubjectToStatusTransfer-Item"
  | 90 => "eNB-StatusTransfer-TransparentContainer"
  | 91 => "UE-associatedLogicalS1-ConnectionItem"
  | 92 => "ResetType"
  | 93 => "UE-associatedLogicalS1-ConnectionListResAck"
  | 94 => "E-RABToBeSwitchedULItem"
  | 95 => "E-RABToBeSwitchedULList"
  | 96 => "S-TMSI"
  | 97 => "cdma2000OneXRAND"
  | 98 => "RequestType"
  | 99 => "UE-S1AP-IDs"
  | 100 => "EUTRAN-CGI"
  | 101 => "OverloadResponse"
  | 102 => "cdma2000OneXSRVCCInfo"
  | 103 => "E-RABFailedToBeReleasedList"
  | 104 => "Source-ToTarget-TransparentContainer"
  | 105 => "ServedGUMMEIs"
  | 106 => "SubscriberProfileIDforRFP"
  | 107 => "UESecurityCapabilities"
  | 108 => "CSFallbackIndicator"
  | 109 => "CNDomain"
  | 110 => "E-RABReleasedList"
  | 111 => "MessageIdentifier"
  | 112 => "SerialNumber"
  | 113 => "WarningAreaList"
  | 114 => "RepetitionPeriod"
  | 115 => "NumberofBroadcastRequest"
  | 116 => "WarningType"
  | 117 => "WarningSecurityInfo"
  | 118 => "DataCodingScheme"
  | 119 => "WarningMessageContents"
  | 120 => "BroadcastCompletedAreaList"
  | 121 => "Inter-SystemInformationTransferTypeEDT"
  | 122 => "Inter-SystemInformationTransferTypeMDT"
  | 123 => "Target-ToSource-TransparentContainer"
  | 124 => "SRVCCOperationPossible"
  | 125 => "SRVCCHOIndication"
  | 126 => "NAS-DownlinkCount"
  | 127 => "CSG-Id"
  | 128 => "CSG-IdList"
  | 129 => "SONConfigurationTransferECT"
  | 130 => "SONConfigurationTransferMCT"
  | 131 => "TraceCollectionEntityIPAddress"
  | 132 => "MSClassmark2"
  | 133 => "MSClassmark3"
  | 134 => "RRC-Establishment-Cause"
  | 135 => "NASSecurityParametersfromE-UTRAN"
  | 136 => "NASSecurityParameterstoE-UTRAN"
  | 137 => "DefaultPagingDRX"
  | 138 => "Source-ToTarget-TransparentContainer-Secondary"
  | 139 => "Target-ToSource-TransparentContainer-Secondary"
  | 140 => "EUTRANRoundTripDelayEstimationInfo"
  | 141 => "BroadcastCancelledAreaList"
  | 142 => "ConcurrentWarningMessageIndicator"
  | 143 => "Data-Forwarding-Not-Possible"
  | 144 => "ExtendedRepetitionPeriod"
  | 145 => "CellAccessMode"
  | 146 => "CSGMembershipStatus"
  | 147 => "LPPa-PDU"
  | 148 => "Routing-ID"
  | 149 => "Time-Synchronization-Info"
  | 150 => "PS-ServiceNotAvailable"
  | 151 => "PagingPriority"
  | 152 => "x2TNLConfigurationInfo"
  | 153 => "eNBX2ExtendedTransportLayerAddresses"
  | 154 => "GUMMEIList"
  | 155 => "GW-TransportLayerAddress"
  | 156 => "Correlation-ID"
  | 157 => "SourceMME-GUMMEI"
  | 158 => "MME-UE-S1AP-ID-2"
  | 159 => "RegisteredLAI"
  | 160 => "RelayNode-Indicator"
  | 161 => "TrafficLoadReductionIndication"
  | 162 => "MDTConfiguration"
  | 163 => "MMERelaySupportIndicator"
  | 164 => "GWContextReleaseIndication"
  | 165 => "ManagementBasedMDTAllowed"
  | n => "IE_" ++ toString n

/-- IPv6 extension-header walk of `extractS1apFromSctp` (at most 8 headers;
the counter is modelled as remaining fuel).  `none` is the `return nullopt`
taken on a truncated extension header. -/
def ipv6ExtLoop (b : List Nat) : Nat → Nat → Nat → Option (Nat × Nat)
  | 0, protocol, offset => some (protocol, offset)
  | fuel + 1, protocol, offset =>
    if protocol ≠ 132 ∧ offset < b.length then
      if protocol = 0 ∨ protocol = 43 ∨ protocol = 44 ∨ protocol = 60 then
        if b.length < offset + 8 then none
        else
          let extLen := bget b (offset + 1)
          let extHeaderLen := (extLen + 1) * 8
          if b.length < offset + extHeaderLen then none
          else ipv6ExtLoop b fuel (bget b offset) (offset + extHeaderLen)
      else some (protocol, offset)
    else some (protocol, offset)

/-- SCTP chunk walk: find a DATA chunk (type 0) with payload-protocol-id 18
and return its payload slice.  Every iteration advances the offset by the
4-byte-aligned chunk length (at least 4), so `b.length + 1` units of fuel
cover every reachable iteration; the fuel-exhausted branch is unreachable. -/
def scanChunks (b : List Nat) : Nat → Nat → Option (List Nat)
  | 0, _ => none
  | fuel + 1, offset =>
    if offset + 4 ≤ b.length then
      let chunkType := bget b offset
      let chunkLen := ((bget b (offset + 2)) <<< 8) ||| bget b (offset + 3)
      if chunkLen < 4 ∨ b.length < offset + chunkLen then none
      else if chunkType = 0 ∧ 16 ≤ chunkLen then
        let ppid := ((bget b (offset + 12)) <<< 24) ||| ((bget b (offset + 13)) <<< 16) |||
          ((bget b (offset + 14)) <<< 8) ||| bget b (offset + 15)
        if ppid ≠ 18 then none
        else
          let payloadOffset := offset + 16
          let payloadLen := chunkLen - 16
          if 0 < payloadLen ∧ payloadOffset + payloadLen ≤ b.length then
            some ((b.drop payloadOffset).take payloadLen)
          else
            let pad := (4 - chunkLen % 4) % 4
            scanChunks b fuel (offset + chunkLen + pad)
      else
        let pad := (4 - chunkLen % 4) % 4
        scanChunks b fuel (offset + chunkLen + pad)
    else none

/-- `extractS1apFromSctp`: Ethernet (with optional VLAN tag), IPv4 or IPv6
(with extension headers), SCTP common header, then the chunk walk.  Every
byte access in the source is dominated by an explicit length check, so the
model reads through `bget`. -/
def extractS1apFromSctp (b : List Nat) : Option (List Nat) :=
  let len := b.length
  if len < 14 then none
  else
    let ethType0 := ((bget b 12) <<< 8) ||| bget b 13
    let afterVlan :=
      if (ethType0 = 0x8100 ∨ ethType0 = 0x88A8) ∧ 14 + 4 ≤ len then
        (((bget b 16) <<< 8) ||| bget b 17, 18)
      else (ethType0, 14)
    let ethType := afterVlan.1
    let offset := afterVlan.2
    let protoAndOffset : Option (Nat × Nat) :=
      if ethType = 0x0800 then
        if len < offset + 20 then none
        else
          let verIhl := bget b offset
          if verIhl >>> 4 ≠ 4 then none
          else
            let ipHeaderLen := (verIhl &&& 0x0F) * 4
            if len < offset + ipHeaderLen then none
            else some (bget b (offset + 9), offset + ipHeaderLen)
      else if ethType = 0x86DD then
        if len < offset + 40 then none
        else if (bget b offset) >>> 4 ≠ 6 then none
        else ipv6ExtLoop b 8 (bget b (offset + 6)) (offset + 40)
      else none
    match protoAndOffset with
    | none => none
    | some (protocol, off1) =>
      if protocol ≠ 132 then none
      else if len < off1 + 12 then none
      else scanChunks b (len + 1) (off1 + 12)

/-- Result of `parseS1apPdu`.  `pdu_type` and `procedure_code` are
uninitialized in the C++ struct until assigned and are `none` until then;
the `raw_bytes`/`s1ap_payload` copies are not modelled (the caller keeps the
input). -/
structure S1apParseResult where
  decoded : Bool := false
  pdu_type : Option S1apPduType := none
  procedure_code : Option Nat := none
  procedure_name : String := ""
  information_elements : List (String × String) := []
deriving DecidableEq

def pduTypeOfChoice (choice : Nat) : S1apPduType :=
  match choice with
  | 0 => S1apPduType.initiatingMessage
  | 1 => S1apPduType.successfulOutcome
  | _ => S1apPduType.unsuccessfulOutcome

/-- The ProtocolIE-Field loop of `parseS1apPdu`.  A `break` of the C++ loop
returns the IEs accumulated so far; a byte read at an index `≥ len` (the
source reads `s1ap_bytes[offset + 1]` for the IE id without any bounds
check) yields `none`.  IE values are stored as lowercase hex keyed by the IE
name, later entries overwriting earlier ones of the same name. -/
def parseIEs (b : List Nat) : Nat → Nat → List (String × String) → Option (List (String × String))
  | 0, _, acc => some acc
  | n + 1, offset, acc =>
    if b.length ≤ offset then some acc
    else
      match b.get? offset, b.get? (offset + 1) with
      | some hi, some lo =>
        let ieId := (hi <<< 8) ||| lo
        if b.length ≤ offset + 2 then some acc
        else if b.length ≤ offset + 3 then some acc
        else
          match b.get? (offset + 3) with
          | some vlb =>
            let off4 := offset + 4
            if vlb &&& 128 = 0 then
              let valueLength := vlb &&& 127
              if b.length < off4 + valueLength then some acc
              else
                let hex := bytesToHexString ((b.drop off4).take valueLength)
                parseIEs b n (off4 + valueLength) (aset acc (getIeNameFromId ieId) hex)
            else
              let nlb := (vlb &&& 127) + 1
              if 4 < nlb ∨ b.length < off4 + nlb then some acc
              else
                let valueLength :=
                  ((b.drop off4).take nlb).foldl (fun acc2 byte => (acc2 <<< 8) ||| byte) 0
                let off5 := off4 + nlb
                if b.length < off5 + valueLength then some acc
                else
                  let hex := bytesToHexString ((b.drop off5).take valueLength)
                  parseIEs b n (off5 + valueLength) (aset acc (getIeNameFromId ieId) hex)
          | none => none
      | _, _ => none

/-- `parseS1apPdu`.  The choice index is the top two bits after a 5-bit
shift; the procedure code is the next byte; one criticality byte is skipped.
The IE-count region then reads the byte at offset 3, skips the byte at
offset 4 (read without a bounds check), and takes the IE count from offset 6
(short form, the correct `length_byte & 0x7F` is commented out in the
source) or offset 7 (extended form; the computed extended length is only
checked and logged, never used).  `none` models an out-of-bounds read. -/
def parseS1apPdu (b : List Nat) : Option S1apParseResult :=
  let len := b.length
  if len < 1 then some {}
  else
    match b.get? 0 with
    | none => none
    | some b0 =>
      let choice := (b0 >>> 5) &&& 3
      if 2 < choice then some {}
      else
        let pt := pduTypeOfChoice choice
        if len ≤ 1 then some { pdu_type := some pt }
        else
          match b.get? 1 with
          | none => none
          | some proc =>
            let base : S1apParseResult :=
              { pdu_type := some pt, procedure_code := some proc,
                procedure_name := getProcedureCodeName proc }
            if len ≤ 2 then some { base with decoded := true }
            else if len ≤ 3 then some { base with decoded := true }
            else
              match b.get? 3 with
              | none => none
              | some lengthByte =>
                match b.get? 4 with
                | none => none
                | some _secondByte =>
                  if lengthByte &&& 128 = 0 then
                    match b.get? 6 with
                    | none => none
                    | some numIes =>
                      match parseIEs b numIes 7 [] with
                      | none => none
                      | some ies =>
                        some { base with decoded := true, information_elements := ies }
                  else
                    match b.get? 7 with
                    | none => none
                    | some numIes =>
                      match parseIEs b numIes 8 [] with
                      | none => none
                      | some ies =>
                        some { base with decoded := true, information_elements := ies }

/-- `extractTmsiFromS1apBytes`: an explicit placeholder — after the length
guard it returns the empty list unconditionally ("requires PER decoding"). -/
def extractTmsiFromS1apBytes (b : List Nat) : List String :=
  if b.length < 4 then [] else []

/-- `extractImsiFromS1apBytes`: always-empty stub. -/
def extractImsiFromS1apBytes (_b : List Nat) : List String :=
  []

/-- `extractImeisvFromS1apBytes`: always-empty stub. -/
def extractImeisvFromS1apBytes (_b : List Nat) : List String :=
  []

/-- `extractTmsiFromIEList`: the working S-TMSI path (used only via
`extractTmsisFromS1ap` by the correlator, not by `RealS1APDecoder::decode`):
take the last 8 hex characters of the S-TMSI IE value (the 4-byte m-TMSI),
normalise to uppercase hex, and require exactly 8 characters. -/
def extractTmsiFromIEList (ies : List (String × String)) : List String :=
  match afind ies "S-TMSI" with
  | none => []
  | some hexStr =>
    if hexStr = "" then []
    else if hexStr.length < 10 then []
    else
      let mTmsi := hexStr.drop (hexStr.length - 8)
      let normalized := String.mk ((mTmsi.data.filter isXDigit).map Char.toUpper)
      if normalized.length = 8 then [normalized] else []

/-- Projection of the `CanonicalMessage` fields that `RealS1APDecoder::decode`
fills and the claims read, together with the boolean return value. -/
structure DecodeOut where
  ret : Bool
  decode_failed : Bool
  raw_bytes : List Nat
  procedure_code : Option Nat
  tmsi : String
deriving DecidableEq

/-- `RealS1APDecoder::decode`: empty input sets decode-failed and preserves
the raw bytes; otherwise the S1AP payload is the SCTP extraction when it
succeeds and the raw buffer itself when it does not; a failed parse sets
decode-failed; a successful parse fills the canonical fields — the TMSI from
`extractTmsiFromS1apBytes`, whose result is always empty, so the TMSI field
keeps its protobuf default `""`.  `none` propagates an out-of-bounds read
inside `parseS1apPdu` (undefined behaviour in the source).  S1AP-id, ECGI
and decoded-tree population touch none of the projected fields and are not
modelled. -/
def decodeS1ap (raw : List Nat) : Option DecodeOut :=
  if raw = [] then some ⟨false, true, raw, none, ""⟩
  else
    let s1apBytes := (extractS1apFromSctp raw).getD raw
    match parseS1apPdu s1apBytes with
    | none => none
    | some pr =>
      if ¬ pr.decoded then some ⟨false, true, raw, none, ""⟩
      else
        let tmsis := extractTmsiFromS1apBytes s1apBytes
        some ⟨true, false, raw, pr.procedure_code, (tmsis.head?).getD ""⟩

/-- A concrete correlator state used to witness the release behaviour:
one subscriber (id 1) holding IMSI `"123456"`, TMSI `"a"`, IMEISV `"35"`,
TEID 77, MME-UE-S1AP-ID 7 and eNB-UE-S1AP-ID 9, with matching indexes. -/
def c2wRec : SubscriberRecord :=
  { imsi := some "123456"
    tmsi := some "a"
    enb_ue_s1ap_id := some 9
    mme_ue_s1ap_id := some 7
    teids := [77]
    imeisv := some "35" }

def c2wState : CorrState :=
  { subscriber_records := [(1, c2wRec)]
    imsi_to_subscriber_id := [("123456", 1)]
    tmsi_to_subscriber_id := [("a", 1)]
    enb_ue_s1ap_id_to_subscriber_id := [(9, 1)]
    mme_ue_s1ap_id_to_subscriber_id := [(7, 1)]
    teid_to_subscriber_id := [(77, 1)]
    imeisv_to_subscriber_id := [("35", 1)]
    next_subscriber_id := 2 }

/-- The associate-call sequence at the end of `getOrCreateSubscriber`
(factored; `g` is the id of the record the returned pointer designates, and
the caller passes it both as the record and as the `subscriber_id`
argument). -/
def gocChain (t : CorrState) (g : Nat) (imsi tmsi : Option String)
    (enb mme teid : Option Nat) (imeisv : Option String) : CorrState :=
  let s2 := imsi.elim t (fun x => associateImsi t g g x)
  let s3 := tmsi.elim s2 (fun x => associateTmsi s2 g g x)
  let s4 := enb.elim s3 (fun v => associateEnbUeS1apId s3 g g v)
  let s5 := mme.elim s4 (fun v => associateMmeUeS1apId s4 g g v)
  let s6 := teid.elim s5 (fun v => associateTeid s5 g g v)
  imeisv.elim s6 (fun x => associateImeisv s6 g g x)

/-- The S1AP-id/TEID association block of `processS1apFrame` (factored;
`g` is the id returned by `getOrCreateSubscriber`, `sid` the re-looked-up
`subscriber_id`). -/
def assocIds (t : CorrState) (g sid : Nat) (mme enb : Option Nat)
    (teids : List Nat) : CorrState :=
  let sa := mme.elim t (fun y => associateMmeUeS1apId t g sid y)
  let sb := enb.elim sa (fun z => associateEnbUeS1apId sa g sid z)
  teids.foldl (fun st t => associateTeid st g sid t) sb

/-- The UEContextReleaseComplete handling at the end of `processS1apFrame`
(factored). -/
def releaseStep (t : CorrState) (f : Frame) : CorrState :=
  if f.procedure_code = 23 ∧ f.pdu_type = S1apPduType.successfulOutcome then
    let sr := f.mme_id.elim t (fun y => removeMmeUeS1apIdAssociation t y)
    f.enb_id.elim sr (fun z => removeEnbUeS1apIdAssociation sr z)
  else t

theorem afind_nil {K V : Type} [DecidableEq K] (x : K) :
    afind ([] : List (K × V)) x = none := rfl

theorem afind_cons {K V : Type} [DecidableEq K] (p : K × V) (t : List (K × V)) (x : K) :
    afind (p :: t) x = if x = p.1 then some p.2 else afind t x := rfl

theorem afind_aerase_self {K V : Type} [DecidableEq K] (m : List (K × V)) (x : K) :
    afind (aerase m x) x = none := by
  induction m with
  | nil => rfl
  | cons p t ih =>
    by_cases h : p.1 = x
    · simpa [aerase, h] using ih
    · have hx : ¬ x = p.1 := fun hxx => h hxx.symm
      simp [aerase, h, afind, hx, ih]

theorem afind_aerase_of_ne {K V : Type} [DecidableEq K] (m : List (K × V)) {x y : K}
    (h : y ≠ x) : afind (aerase m x) y = afind m y := by
  induction m with
  | nil => rfl
  | cons p t ih =>
    by_cases hp : p.1 = x
    · have hy : ¬ y = p.1 := fun hy => h (hy.trans hp)
      rw [aerase, if_pos hp, ih, afind, if_neg hy]
    · rw [aerase, if_neg hp, afind, afind]
      by_cases hy : y = p.1
      · rw [if_pos hy, if_pos hy]
      · rw [if_neg hy, if_neg hy, ih]

theorem afind_aset_self {K V : Type} [DecidableEq K] (m : List (K × V)) (x : K) (v : V) :
    afind (aset m x v) x = some v := by
  simp [aset, afind]

theorem afind_aset_of_ne {K V : Type} [DecidableEq K] (m : List (K × V)) {x y : K} (v : V)
    (h : y ≠ x) : afind (aset m x v) y = afind m y := by
  simp [aset, afind, h, afind_aerase_of_ne m h]

theorem afind_aset {K V : Type} [DecidableEq K] (m : List (K × V)) (x y : K) (v : V) :
    afind (aset m x v) y = if y = x then some v else afind m y := by
  by_cases h : y = x
  · subst h; simp [afind_aset_self]
  · simp [h, afind_aset_of_ne m v h]

theorem mem_of_afind {K V : Type} [DecidableEq K] {m : List (K × V)} {x : K} {v : V}
    (h : afind m x = some v) : (x, v) ∈ m := by
  induction m with
  | nil => simp [afind] at h
  | cons p t ih =>
    rw [afind] at h
    by_cases hx : x = p.1
    · rw [if_pos hx] at h
      have hv : p.2 = v := Option.some.inj h
      have : (x, v) = p := by
        cases p
        simp at hx hv
        simp [hx, hv]
      exact this ▸ List.mem_cons_self _ _
    · rw [if_neg hx] at h
      exact List.mem_cons_of_mem _ (ih h)

theorem mem_of_mem_aerase {K V : Type} [DecidableEq K] {m : List (K × V)} {x : K} {p : K × V}
    (h : p ∈ aerase m x) : p ∈ m := by
  induction m with
  | nil => simp [aerase] at h
  | cons q t ih =>
    rw [aerase] at h
    by_cases hq : q.1 = x
    · rw [if_pos hq] at h
      exact List.mem_cons_of_mem _ (ih h)
    · rw [if_neg hq] at h
      rcases List.mem_cons.mp h with h1 | h1
      · exact h1 ▸ List.mem_cons_self _ _
      · exact List.mem_cons_of_mem _ (ih h1)

theorem mem_of_mem_aset {K V : Type} [DecidableEq K] {m : List (K × V)} {x : K} {v : V}
    {p : K × V} (h : p ∈ aset m x v) : p = (x, v) ∨ p ∈ m := by
  rcases List.mem_cons.mp h with h | h
  · exact Or.inl h
  · exact Or.inr (mem_of_mem_aerase h)

theorem isSome_afind_aset {K V : Type} [DecidableEq K] {m : List (K × V)} {y : K}
    (x : K) (v : V) (h : (afind m y).isSome) : (afind (aset m x v) y).isSome := by
  rw [afind_aset]
  by_cases hy : y = x <;> simp [hy, h]

theorem mem_tinsert {l : List Nat} {t x : Nat} (h : x ∈ tinsert l t) : x = t ∨ x ∈ l := by
  by_cases ht : t ∈ l
  · simp [tinsert, ht] at h
    exact Or.inr h
  · simp [tinsert, ht] at h
    exact h

theorem self_mem_tinsert (l : List Nat) (t : Nat) : t ∈ tinsert l t := by
  by_cases ht : t ∈ l <;> simp [tinsert, ht]

theorem mem_tinsert_of_mem {l : List Nat} {x : Nat} (t : Nat) (h : x ∈ l) :
    x ∈ tinsert l t := by
  by_cases ht : t ∈ l <;> simp [tinsert, ht, h]

theorem mem_of_mem_tremove {l : List Nat} {t x : Nat} (h : x ∈ tremove l t) : x ∈ l := by
  induction l with
  | nil => simp [tremove] at h
  | cons a u ih =>
    rw [tremove] at h
    by_cases ha : a = t
    · rw [if_pos ha] at h
      exact List.mem_cons_of_mem _ (ih h)
    · rw [if_neg ha] at h
      rcases List.mem_cons.mp h with h1 | h1
      · exact h1 ▸ List.mem_cons_self _ _
      · exact List.mem_cons_of_mem _ (ih h1)

theorem ne_of_mem_tremove {l : List Nat} {t x : Nat} (h : x ∈ tremove l t) : x ≠ t := by
  induction l with
  | nil => simp [tremove] at h
  | cons a u ih =>
    rw [tremove] at h
    by_cases ha : a = t
    · rw [if_pos ha] at h
      exact ih h
    · rw [if_neg ha] at h
      rcases List.mem_cons.mp h with h1 | h1
      · exact h1 ▸ ha
      · exact ih h1


/-! ### Claim theorems: write-ahead log -/

/-- C5: within a partition, consecutive `append` calls do NOT always return
offsets increasing by 1.  With `max_segment_size = 20` and records of
serialized size 10 (14 bytes on disk with the length prefix), the first two
appends fill segment 0 with offsets 0 and 1; the third append finds
`file_size = 28 ≥ 20`, rotates (the source erases the active-segment entry
and then dereferences the invalidated iterator — undefined behaviour; the
modelled recreation path is the creation code of the same function) and
recreates a segment with base `newBase [0] = 1`, so the third append returns
offset 1 again: the offset sequence is `[0, 1, 1]`, not `[0, 1, 2]`. -/
theorem c5_rotation_offset_regression :
    (walRun 20 [(10, true), (10, true), (10, true)] walInit).2 =
      [some 0, some 1, some 1] := by
  decide

/-- Every element of the directory scan is strictly below the computed new
base, and the accumulator never decreases. -/
theorem newBase_spec : ∀ (l : List Nat) (a : Nat),
    (∀ x ∈ l, x < List.foldl (fun b off => if b ≤ off then off + 1 else b) a l) ∧
    a ≤ List.foldl (fun b off => if b ≤ off then off + 1 else b) a l
  | [], a => ⟨by simp, le_refl a⟩
  | y :: t, a => by
    have ih := newBase_spec t (if a ≤ y then y + 1 else a)
    simp only [List.foldl]
    constructor
    · intro x hx
      rcases List.mem_cons.mp hx with rfl | hx
      · have hy : x < (if a ≤ x then x + 1 else a) := by
          by_cases hax : a ≤ x
          · simp [hax]
          · simp [hax]
            omega
        exact lt_of_lt_of_le hy ih.2
      · exact ih.1 x hx
    · have hstep : a ≤ (if a ≤ y then y + 1 else a) := by
        by_cases hay : a ≤ y
        · simp [hay]
          omega
        · simp [hay]
      exact le_trans hstep ih.2

/-- The base offset computed for a recreated segment never names an existing
file, justifying the omission of the `fs::exists` branch in
`getOrCreateSegment`. -/
theorem newBase_not_mem (dir : List Nat) : newBase dir ∉ dir := by
  intro hmem
  exact absurd ((newBase_spec dir 0).1 _ hmem) (lt_irrefl _)

/-- C6: a failed append advances `current_offset`.  The first append
succeeds with offset 0; the second fails at serialization (the
`SerializeToString` branch throws) — but only after `current_offset++` has
executed; the third append therefore returns offset 2, not the offset 1 the
failed call would have used, leaving a permanent gap at offset 1. -/
theorem c6_failed_append_advances_offset :
    (walRun 100 [(10, true), (10, false), (10, true)] walInit).2 =
      [some 0, none, some 2] := by
  decide

/-- C8: `prune_old_segments` is an empty stub ("Simplified for prototype"):
it takes the log mutex and returns, deleting no segment for any log state —
in particular for states whose closed segments exceed every retention limit. -/
theorem c8_prune_is_noop (s : WalState) :
    pruneOldSegments s = s := rfl

/-! ### Claim theorems: codec -/

/-- C9: the decode path is not out-of-bounds safe.  For the 4-byte buffer
`00 0C 00 00` (a syntactically valid initialUEMessage header), SCTP
extraction declines (length < 14), and `parseS1apPdu` reads the unchecked
`second_byte` at index 4 — one past the end of the buffer (and would next
read the IE count at index 6): the checked model reports the out-of-bounds
access as `none`. -/
theorem c9_parse_out_of_bounds :
    decodeS1ap [0x00, 0x0C, 0x00, 0x00] = none := by
  decide

/-- Supporting fact for C9: the empty-input contract does hold — decode on
the empty buffer sets decode-failed, preserves the raw bytes and returns
failure. -/
theorem decode_empty_input :
    decodeS1ap [] = some ⟨false, true, [], none, ""⟩ := by
  decide

/-- C7: decoding an initialUEMessage whose S-TMSI IE value is
`00 DE AD BE EF` leaves the canonical message's TMSI empty.  The generic IE
decode does store `"S-TMSI" ↦ "00deadbeef"`, but `decode` fills the TMSI
only from `extractTmsiFromS1apBytes`, which is a stub that always returns no
TMSIs — so the TMSI field keeps its default `""` instead of the claimed
`"deadbeef"`. -/
theorem c7_decode_leaves_tmsi_empty :
    decodeS1ap
        [0x00, 0x0C, 0x00, 0x00, 0x00, 0x00, 0x01, 0x00, 0x60, 0x00, 0x05,
         0x00, 0xDE, 0xAD, 0xBE, 0xEF] =
      some ⟨true, false,
        [0x00, 0x0C, 0x00, 0x00, 0x00, 0x00, 0x01, 0x00, 0x60, 0x00, 0x05,
         0x00, 0xDE, 0xAD, 0xBE, 0xEF], some 12, ""⟩ ∧
    (parseS1apPdu
        [0x00, 0x0C, 0x00, 0x00, 0x00, 0x00, 0x01, 0x00, 0x60, 0x00, 0x05,
         0x00, 0xDE, 0xAD, 0xBE, 0xEF]).map
      (fun r => afind r.information_elements "S-TMSI") = some (some "00deadbeef") := by
  constructor
  · decide
  · decide

/-- Supporting fact for C7: the S-TMSI extraction path that does exist
(`extractTmsiFromIEList`, reachable only through the correlator) returns the
last four bytes of the IE — as uppercase hex, not the lowercase
`"deadbeef"` of the specification scenario. -/
theorem ie_list_tmsi_uppercase :
    extractTmsiFromIEList [("S-TMSI", "00deadbeef")] = ["DEADBEEF"] := by
  decide


/-! ### Claim theorems: rule engine -/

/-- Attribute extraction only touches the attribute map; the evidence chain
of the event is unchanged. -/
theorem applyEventData_evidence (l : List EventDataExtraction) (m : CanonicalMessage)
    (fm : Option CanonicalMessage) (c : Option UeCtxView) (e : Event) :
    (applyEventData l m fm c e).evidence = e.evidence := by
  induction l generalizing e with
  | nil => rfl
  | cons ex rest ih =>
    simp only [applyEventData, List.foldl] at ih ⊢
    rw [ih]
    by_cases hv : extractEventDataValue ex.source_expression m fm c ≠ "" <;> simp [hv]

/-- C4 counterexample: with the sequence rule (A, B, 15000 ms) loaded and a
subscriber seeing A (partition 0, offset 10) then B (offset 11) 500 ms
later, exactly one event is emitted — but its evidence chain is
[(0,11), (0,10), (0,11)] (the current message's offset added by
`create_event`, then first-then-current appended by the sequence check), not
the [(0,10), (0,11)] stated by the claim. -/
theorem c4_counterexample :
    (processMessage
        (processMessage ⟨[⟨"rs", "1.0", [], [⟨"HandoverDone", "A", "B", 15000, [], []⟩]⟩], []⟩
          ({ msg_type := "A", spool_offset := 10 }) "k" 1000 none).1
        ({ msg_type := "B", spool_offset := 11 }) "k" 1500 none).2.map Event.evidence =
      [[⟨0, 11, none⟩, ⟨0, 10, none⟩, ⟨0, 11, none⟩]] ∧
    ¬ ((processMessage
        (processMessage ⟨[⟨"rs", "1.0", [], [⟨"HandoverDone", "A", "B", 15000, [], []⟩]⟩], []⟩
          ({ msg_type := "A", spool_offset := 10 }) "k" 1000 none).1
        ({ msg_type := "B", spool_offset := 11 }) "k" 1500 none).2.map Event.evidence =
      [[⟨0, 10, none⟩, ⟨0, 11, none⟩]]) := by
  constructor
  · decide
  · decide


/-- C4 amended: for a loaded sequence rule (first type A, second type B with
A ≠ B, window W) and a subscriber whose messages of types A then B are
processed d = t2 - t1 apart: if d ≤ W and d stays under the 61 s absolute
cap enforced by `cleanup_expired_sequences` (which runs before matching),
exactly one event is emitted for the pair and its evidence chain is
[offset of B, offset of A, offset of B] — `create_event` contributes the
current message's offset before the sequence check appends
first-then-current; if d > W, no event is emitted for the pair. -/
theorem c4_amended_sequence_rule
    (rule : SequenceRule) (rid rver k : String) (ctx : Option UeCtxView)
    (mA mB : CanonicalMessage) (t1 t2 : Nat)
    (hAB : rule.first_msg_type ≠ rule.second_msg_type)
    (hA : mA.msg_type = rule.first_msg_type)
    (hB : mB.msg_type = rule.second_msg_type) :
    (processMessage ⟨[⟨rid, rver, [], [rule]⟩], []⟩ mA k t1 ctx).2 = [] ∧
    (t2 - t1 ≤ rule.time_window → (t2 - t1) / 1000 ≤ 60 →
      (processMessage (processMessage ⟨[⟨rid, rver, [], [rule]⟩], []⟩ mA k t1 ctx).1
          mB k t2 ctx).2.map Event.evidence =
        [[offsetOf mB, offsetOf mA, offsetOf mB]]) ∧
    (rule.time_window < t2 - t1 →
      (processMessage (processMessage ⟨[⟨rid, rver, [], [rule]⟩], []⟩ mA k t1 ctx).1
          mB k t2 ctx).2 = []) := by
  have hBA : ¬ (rule.second_msg_type = rule.first_msg_type) := fun h => hAB h.symm
  have hP1 : processMessage ⟨[⟨rid, rver, [], [rule]⟩], []⟩ mA k t1 ctx =
      (⟨[⟨rid, rver, [], [rule]⟩],
        [(k, [⟨k, rule.first_msg_type, mA, t1, rid, rver⟩])]⟩, []) := by
    simp [processMessage, checkSingleMessageRules, checkSequenceRules,
      cleanupExpiredSequences, afind, aset, aerase, hA]
  refine ⟨by rw [hP1], ?_, ?_⟩
  · intro hwin hcap
    rw [hP1]
    simp [processMessage, checkSingleMessageRules, checkSequenceRules,
      cleanupExpiredSequences, scanSequences, List.filter, afind, aset, aerase, hB, hBA,
      hcap, hwin, applyEventData_evidence, createEvent, offsetOf]
  · intro hwin
    rw [hP1]
    have hnwin : ¬ (t2 - t1 ≤ rule.time_window) := not_le.mpr hwin
    by_cases hcap : (t2 - t1) / 1000 ≤ 60
    · simp [processMessage, checkSingleMessageRules, checkSequenceRules,
        cleanupExpiredSequences, scanSequences, List.filter, afind, aset, aerase, hB, hBA,
        hcap, hnwin]
    · simp [processMessage, checkSingleMessageRules, checkSequenceRules,
        cleanupExpiredSequences, scanSequences, List.filter, afind, aset, aerase, hB, hBA,
        hcap]


/-- Witness for the amended C4 theorem at the handover scenario of the
specification (rule (HandoverRequest, HandoverNotify, 15000 ms), messages
500 ms apart). -/
theorem c4_amended_sequence_rule_witness :
    ("HandoverRequest" : String) ≠ "HandoverNotify" ∧
    (processMessage
        (processMessage
          ⟨[⟨"r1", "1.0", [],
             [⟨"Mobility.Handover.Completed", "HandoverRequest", "HandoverNotify",
               15000, [], []⟩]⟩], []⟩
          ({ msg_type := "HandoverRequest", spool_offset := 5 }) "imsi:001" 1000 none).1
        ({ msg_type := "HandoverNotify", spool_offset := 6 }) "imsi:001" 1500 none).2.map
      Event.evidence =
      [[⟨0, 6, none⟩, ⟨0, 5, none⟩, ⟨0, 6, none⟩]] := by
  refine ⟨by decide, ?_⟩
  have h := c4_amended_sequence_rule
    ⟨"Mobility.Handover.Completed", "HandoverRequest", "HandoverNotify", 15000, [], []⟩
    "r1" "1.0" "imsi:001" none
    ({ msg_type := "HandoverRequest", spool_offset := 5 })
    ({ msg_type := "HandoverNotify", spool_offset := 6 }) 1000 1500
    (by decide) (by decide) (by decide)
  have h2 := h.2.1 (by decide) (by decide)
  simpa [offsetOf] using h2


/-! ### Characterisation lemmas for the subscriber-store operations -/

theorem materialize_afind_self (s : CorrState) (i : Nat) :
    afind (materialize s i).subscriber_records i = some (getRecord s i) := by
  simp only [materialize, getRecord]
  split
  · next r heq => simp [heq]
  · next heq => simp [heq, afind_aset_self]

theorem materialize_afind_ne (s : CorrState) {i j : Nat} (h : j ≠ i) :
    afind (materialize s i).subscriber_records j = afind s.subscriber_records j := by
  simp only [materialize]
  split
  · rfl
  · simp [afind_aset_of_ne _ _ h]

theorem materialize_proj (s : CorrState) (i : Nat) :
    (materialize s i).imsi_to_subscriber_id = s.imsi_to_subscriber_id ∧
    (materialize s i).tmsi_to_subscriber_id = s.tmsi_to_subscriber_id ∧
    (materialize s i).enb_ue_s1ap_id_to_subscriber_id = s.enb_ue_s1ap_id_to_subscriber_id ∧
    (materialize s i).mme_ue_s1ap_id_to_subscriber_id = s.mme_ue_s1ap_id_to_subscriber_id ∧
    (materialize s i).teid_to_subscriber_id = s.teid_to_subscriber_id ∧
    (materialize s i).imeisv_to_subscriber_id = s.imeisv_to_subscriber_id ∧
    (materialize s i).next_subscriber_id = s.next_subscriber_id := by
  simp only [materialize]
  split <;> simp

theorem conflictClearMme_getRecord_self (s : CorrState) (j v : Nat) :
    getRecord (conflictClearMme s j v) j = getRecord s j := by
  simp only [conflictClearMme]
  split
  · next other heq =>
    split
    · next hne =>
      split
      · next o heq2 =>
        simp only [getRecord]
        simp [afind_aset_of_ne _ _ (Ne.symm hne)]
      · rfl
    · rfl
  · rfl

theorem conflictClearMme_proj (s : CorrState) (j v : Nat) :
    (conflictClearMme s j v).imsi_to_subscriber_id = s.imsi_to_subscriber_id ∧
    (conflictClearMme s j v).tmsi_to_subscriber_id = s.tmsi_to_subscriber_id ∧
    (conflictClearMme s j v).enb_ue_s1ap_id_to_subscriber_id =
      s.enb_ue_s1ap_id_to_subscriber_id ∧
    (conflictClearMme s j v).mme_ue_s1ap_id_to_subscriber_id =
      s.mme_ue_s1ap_id_to_subscriber_id ∧
    (conflictClearMme s j v).teid_to_subscriber_id = s.teid_to_subscriber_id ∧
    (conflictClearMme s j v).imeisv_to_subscriber_id = s.imeisv_to_subscriber_id ∧
    (conflictClearMme s j v).next_subscriber_id = s.next_subscriber_id := by
  simp only [conflictClearMme]
  repeat' split
  all_goals simp

theorem conflictClearEnb_getRecord_self (s : CorrState) (j v : Nat) :
    getRecord (conflictClearEnb s j v) j = getRecord s j := by
  simp only [conflictClearEnb]
  split
  · next other heq =>
    split
    · next hne =>
      split
      · next o heq2 =>
        simp only [getRecord]
        simp [afind_aset_of_ne _ _ (Ne.symm hne)]
      · rfl
    · rfl
  · rfl

theorem conflictClearEnb_proj (s : CorrState) (j v : Nat) :
    (conflictClearEnb s j v).imsi_to_subscriber_id = s.imsi_to_subscriber_id ∧
    (conflictClearEnb s j v).tmsi_to_subscriber_id = s.tmsi_to_subscriber_id ∧
    (conflictClearEnb s j v).enb_ue_s1ap_id_to_subscriber_id =
      s.enb_ue_s1ap_id_to_subscriber_id ∧
    (conflictClearEnb s j v).mme_ue_s1ap_id_to_subscriber_id =
      s.mme_ue_s1ap_id_to_subscriber_id ∧
    (conflictClearEnb s j v).teid_to_subscriber_id = s.teid_to_subscriber_id ∧
    (conflictClearEnb s j v).imeisv_to_subscriber_id = s.imeisv_to_subscriber_id ∧
    (conflictClearEnb s j v).next_subscriber_id = s.next_subscriber_id := by
  simp only [conflictClearEnb]
  repeat' split
  all_goals simp

theorem conflictClearTeid_getRecord_self (s : CorrState) (j v : Nat) :
    getRecord (conflictClearTeid s j v) j = getRecord s j := by
  simp only [conflictClearTeid]
  split
  · next old heq =>
    split
    · next hcond =>
      split
      · next o heq2 =>
        simp only [getRecord]
        simp [afind_aset_of_ne _ _ (Ne.symm hcond.2)]
      · rfl
    · rfl
  · rfl

theorem conflictClearTeid_proj (s : CorrState) (j v : Nat) :
    (conflictClearTeid s j v).imsi_to_subscriber_id = s.imsi_to_subscriber_id ∧
    (conflictClearTeid s j v).tmsi_to_subscriber_id = s.tmsi_to_subscriber_id ∧
    (conflictClearTeid s j v).enb_ue_s1ap_id_to_subscriber_id =
      s.enb_ue_s1ap_id_to_subscriber_id ∧
    (conflictClearTeid s j v).mme_ue_s1ap_id_to_subscriber_id =
      s.mme_ue_s1ap_id_to_subscriber_id ∧
    (conflictClearTeid s j v).teid_to_subscriber_id = s.teid_to_subscriber_id ∧
    (conflictClearTeid s j v).imeisv_to_subscriber_id = s.imeisv_to_subscriber_id ∧
    (conflictClearTeid s j v).next_subscriber_id = s.next_subscriber_id := by
  simp only [conflictClearTeid]
  repeat' split
  all_goals simp

theorem associateMmeUeS1apId_proj (s : CorrState) (i j v : Nat) :
    (associateMmeUeS1apId s i j v).imsi_to_subscriber_id = s.imsi_to_subscriber_id ∧
    (associateMmeUeS1apId s i j v).tmsi_to_subscriber_id = s.tmsi_to_subscriber_id ∧
    (associateMmeUeS1apId s i j v).enb_ue_s1ap_id_to_subscriber_id =
      s.enb_ue_s1ap_id_to_subscriber_id ∧
    (associateMmeUeS1apId s i j v).teid_to_subscriber_id = s.teid_to_subscriber_id ∧
    (associateMmeUeS1apId s i j v).imeisv_to_subscriber_id = s.imeisv_to_subscriber_id ∧
    (associateMmeUeS1apId s i j v).next_subscriber_id = s.next_subscriber_id := by
  have h := conflictClearMme_proj s j v
  simp only [associateMmeUeS1apId]
  repeat' split
  all_goals simp [h.1, h.2.1, h.2.2.1, h.2.2.2.2.1, h.2.2.2.2.2.1, h.2.2.2.2.2.2]

theorem associateMmeUeS1apId_idx_self (s : CorrState) (i j v : Nat) :
    afind (associateMmeUeS1apId s i j v).mme_ue_s1ap_id_to_subscriber_id v = some j := by
  simp only [associateMmeUeS1apId]
  repeat' split
  all_goals simp [afind_aset_self]

theorem associateMmeUeS1apId_records_self (s : CorrState) (i v : Nat) :
    afind (associateMmeUeS1apId s i i v).subscriber_records i =
      some ({ getRecord s i with mme_ue_s1ap_id := some v }) := by
  simp only [associateMmeUeS1apId]
  rw [conflictClearMme_getRecord_self]
  repeat' split
  all_goals simp [afind_aset_self]

theorem associateEnbUeS1apId_proj (s : CorrState) (i j v : Nat) :
    (associateEnbUeS1apId s i j v).imsi_to_subscriber_id = s.imsi_to_subscriber_id ∧
    (associateEnbUeS1apId s i j v).tmsi_to_subscriber_id = s.tmsi_to_subscriber_id ∧
    (associateEnbUeS1apId s i j v).mme_ue_s1ap_id_to_subscriber_id =
      s.mme_ue_s1ap_id_to_subscriber_id ∧
    (associateEnbUeS1apId s i j v).teid_to_subscriber_id = s.teid_to_subscriber_id ∧
    (associateEnbUeS1apId s i j v).imeisv_to_subscriber_id = s.imeisv_to_subscriber_id ∧
    (associateEnbUeS1apId s i j v).next_subscriber_id = s.next_subscriber_id := by
  have h := conflictClearEnb_proj s j v
  simp only [associateEnbUeS1apId]
  repeat' split
  all_goals simp [h.1, h.2.1, h.2.2.2.1, h.2.2.2.2.1, h.2.2.2.2.2.1, h.2.2.2.2.2.2]

theorem associateEnbUeS1apId_idx_self (s : CorrState) (i j v : Nat) :
    afind (associateEnbUeS1apId s i j v).enb_ue_s1ap_id_to_subscriber_id v = some j := by
  simp only [associateEnbUeS1apId]
  repeat' split
  all_goals simp [afind_aset_self]

theorem associateEnbUeS1apId_records_self (s : CorrState) (i v : Nat) :
    afind (associateEnbUeS1apId s i i v).subscriber_records i =
      some ({ getRecord s i with enb_ue_s1ap_id := some v }) := by
  simp only [associateEnbUeS1apId]
  rw [conflictClearEnb_getRecord_self]
  repeat' split
  all_goals simp [afind_aset_self]

theorem associateImsi_proj (s : CorrState) (i j : Nat) (x : String) :
    (associateImsi s i j x).tmsi_to_subscriber_id = s.tmsi_to_subscriber_id ∧
    (associateImsi s i j x).enb_ue_s1ap_id_to_subscriber_id =
      s.enb_ue_s1ap_id_to_subscriber_id ∧
    (associateImsi s i j x).mme_ue_s1ap_id_to_subscriber_id =
      s.mme_ue_s1ap_id_to_subscriber_id ∧
    (associateImsi s i j x).teid_to_subscriber_id = s.teid_to_subscriber_id ∧
    (associateImsi s i j x).imeisv_to_subscriber_id = s.imeisv_to_subscriber_id ∧
    (associateImsi s i j x).next_subscriber_id = s.next_subscriber_id := by
  simp only [associateImsi]
  repeat' split
  all_goals simp

theorem associateImsi_idx_self (s : CorrState) (i j : Nat) (x : String) (hj : j ≠ 0) :
    afind (associateImsi s i j x).imsi_to_subscriber_id x = some j := by
  simp only [associateImsi]
  rw [if_neg hj]
  split
  all_goals simp [afind_aset_self]

theorem associateImsi_records_self (s : CorrState) (i : Nat) (x : String) (hi : i ≠ 0) :
    afind (associateImsi s i i x).subscriber_records i =
      some ({ getRecord s i with imsi := some x }) := by
  simp only [associateImsi]
  rw [if_neg hi]
  split
  all_goals simp [afind_aset_self]

theorem associateTmsi_proj (s : CorrState) (i j : Nat) (x : String) :
    (associateTmsi s i j x).imsi_to_subscriber_id = s.imsi_to_subscriber_id ∧
    (associateTmsi s i j x).enb_ue_s1ap_id_to_subscriber_id =
      s.enb_ue_s1ap_id_to_subscriber_id ∧
    (associateTmsi s i j x).mme_ue_s1ap_id_to_subscriber_id =
      s.mme_ue_s1ap_id_to_subscriber_id ∧
    (associateTmsi s i j x).teid_to_subscriber_id = s.teid_to_subscriber_id ∧
    (associateTmsi s i j x).imeisv_to_subscriber_id = s.imeisv_to_subscriber_id ∧
    (associateTmsi s i j x).next_subscriber_id = s.next_subscriber_id := by
  simp only [associateTmsi]
  repeat' split
  all_goals simp

theorem associateTmsi_idx_self (s : CorrState) (i j : Nat) (x : String) :
    afind (associateTmsi s i j x).tmsi_to_subscriber_id x = some j := by
  simp only [associateTmsi]
  split
  all_goals simp [afind_aset_self]

theorem associateTmsi_records_self (s : CorrState) (i : Nat) (x : String) :
    afind (associateTmsi s i i x).subscriber_records i =
      some ({ getRecord s i with tmsi := some x }) := by
  simp only [associateTmsi]
  split
  all_goals simp [afind_aset_self]

theorem associateImeisv_proj (s : CorrState) (i j : Nat) (x : String) :
    (associateImeisv s i j x).imsi_to_subscriber_id = s.imsi_to_subscriber_id ∧
    (associateImeisv s i j x).tmsi_to_subscriber_id = s.tmsi_to_subscriber_id ∧
    (associateImeisv s i j x).enb_ue_s1ap_id_to_subscriber_id =
      s.enb_ue_s1ap_id_to_subscriber_id ∧
    (associateImeisv s i j x).mme_ue_s1ap_id_to_subscriber_id =
      s.mme_ue_s1ap_id_to_subscriber_id ∧
    (associateImeisv s i j x).teid_to_subscriber_id = s.teid_to_subscriber_id ∧
    (associateImeisv s i j x).next_subscriber_id = s.next_subscriber_id := by
  simp only [associateImeisv]
  repeat' split
  all_goals simp

theorem associateImeisv_idx_self (s : CorrState) (i j : Nat) (x : String) :
    afind (associateImeisv s i j x).imeisv_to_subscriber_id x = some j := by
  simp only [associateImeisv]
  split
  all_goals simp [afind_aset_self]

theorem associateImeisv_records_self (s : CorrState) (i : Nat) (x : String) :
    afind (associateImeisv s i i x).subscriber_records i =
      some ({ getRecord s i with imeisv := some x }) := by
  simp only [associateImeisv]
  split
  all_goals simp [afind_aset_self]

theorem associateTeid_proj (s : CorrState) (i j v : Nat) :
    (associateTeid s i j v).imsi_to_subscriber_id = s.imsi_to_subscriber_id ∧
    (associateTeid s i j v).tmsi_to_subscriber_id = s.tmsi_to_subscriber_id ∧
    (associateTeid s i j v).enb_ue_s1ap_id_to_subscriber_id =
      s.enb_ue_s1ap_id_to_subscriber_id ∧
    (associateTeid s i j v).mme_ue_s1ap_id_to_subscriber_id =
      s.mme_ue_s1ap_id_to_subscriber_id ∧
    (associateTeid s i j v).imeisv_to_subscriber_id = s.imeisv_to_subscriber_id ∧
    (associateTeid s i j v).next_subscriber_id = s.next_subscriber_id := by
  have h := conflictClearTeid_proj s j v
  simp only [associateTeid]
  repeat' split
  all_goals simp [h.1, h.2.1, h.2.2.1, h.2.2.2.1, h.2.2.2.2.2.1, h.2.2.2.2.2.2]

theorem associateTeid_idx_self (s : CorrState) (i j v : Nat) (hj : j ≠ 0) :
    afind (associateTeid s i j v).teid_to_subscriber_id v = some j := by
  simp only [associateTeid]
  rw [if_neg hj]
  simp [afind_aset_self]

theorem associateTeid_records_self (s : CorrState) (i v : Nat) (hi : i ≠ 0) :
    afind (associateTeid s i i v).subscriber_records i =
      some ({ getRecord s i with teids := tinsert (getRecord s i).teids v }) := by
  simp only [associateTeid]
  rw [if_neg hi]
  rw [conflictClearTeid_getRecord_self]
  simp [afind_aset_self]


theorem updateSeenTimestamps_proj (s : CorrState) (g : Nat) (ts : ℚ) :
    (updateSeenTimestamps s g ts).imsi_to_subscriber_id = s.imsi_to_subscriber_id ∧
    (updateSeenTimestamps s g ts).tmsi_to_subscriber_id = s.tmsi_to_subscriber_id ∧
    (updateSeenTimestamps s g ts).enb_ue_s1ap_id_to_subscriber_id =
      s.enb_ue_s1ap_id_to_subscriber_id ∧
    (updateSeenTimestamps s g ts).mme_ue_s1ap_id_to_subscriber_id =
      s.mme_ue_s1ap_id_to_subscriber_id ∧
    (updateSeenTimestamps s g ts).teid_to_subscriber_id = s.teid_to_subscriber_id ∧
    (updateSeenTimestamps s g ts).imeisv_to_subscriber_id = s.imeisv_to_subscriber_id ∧
    (updateSeenTimestamps s g ts).next_subscriber_id = s.next_subscriber_id := by
  simp only [updateSeenTimestamps]
  split <;> simp

/-- The timestamp update leaves every identifier field of the subscriber's
record unchanged (it only rewrites the two timestamps). -/
theorem updateSeenTimestamps_fields (s : CorrState) (g : Nat) (ts : ℚ) :
    (getRecord (updateSeenTimestamps s g ts) g).imsi = (getRecord s g).imsi ∧
    (getRecord (updateSeenTimestamps s g ts) g).tmsi = (getRecord s g).tmsi ∧
    (getRecord (updateSeenTimestamps s g ts) g).enb_ue_s1ap_id = (getRecord s g).enb_ue_s1ap_id ∧
    (getRecord (updateSeenTimestamps s g ts) g).mme_ue_s1ap_id = (getRecord s g).mme_ue_s1ap_id ∧
    (getRecord (updateSeenTimestamps s g ts) g).teids = (getRecord s g).teids ∧
    (getRecord (updateSeenTimestamps s g ts) g).imeisv = (getRecord s g).imeisv := by
  simp only [updateSeenTimestamps]
  split
  · simp only [getRecord, afind_aset_self]
    simp
  · simp

theorem updateSeenTimestamps_isSome (s : CorrState) (g : Nat) (ts : ℚ) :
    (afind (updateSeenTimestamps s g ts).subscriber_records g).isSome ∨
      updateSeenTimestamps s g ts = s := by
  simp only [updateSeenTimestamps]
  split
  · left
    simp [afind_aset_self]
  · right
    rfl

theorem removeMmeUeS1apIdAssociation_proj (s : CorrState) (v : Nat) :
    (removeMmeUeS1apIdAssociation s v).imsi_to_subscriber_id = s.imsi_to_subscriber_id ∧
    (removeMmeUeS1apIdAssociation s v).tmsi_to_subscriber_id = s.tmsi_to_subscriber_id ∧
    (removeMmeUeS1apIdAssociation s v).enb_ue_s1ap_id_to_subscriber_id =
      s.enb_ue_s1ap_id_to_subscriber_id ∧
    (removeMmeUeS1apIdAssociation s v).teid_to_subscriber_id = s.teid_to_subscriber_id ∧
    (removeMmeUeS1apIdAssociation s v).imeisv_to_subscriber_id = s.imeisv_to_subscriber_id ∧
    (removeMmeUeS1apIdAssociation s v).next_subscriber_id = s.next_subscriber_id := by
  simp only [removeMmeUeS1apIdAssociation]
  repeat' split
  all_goals simp

/-- `removeMmeUeS1apIdAssociation` with the id indexed to a live record:
the record's field is cleared, the index entry is erased, everything else at
other keys is untouched. -/
theorem removeMmeUeS1apIdAssociation_spec (s : CorrState) (v sid : Nat) (r : SubscriberRecord)
    (h : afind s.mme_ue_s1ap_id_to_subscriber_id v = some sid) (hsid : sid ≠ 0)
    (hr : afind s.subscriber_records sid = some r) :
    afind (removeMmeUeS1apIdAssociation s v).subscriber_records sid =
      some ({ r with mme_ue_s1ap_id := none }) ∧
    afind (removeMmeUeS1apIdAssociation s v).mme_ue_s1ap_id_to_subscriber_id v = none ∧
    (∀ w, w ≠ v → afind (removeMmeUeS1apIdAssociation s v).mme_ue_s1ap_id_to_subscriber_id w =
      afind s.mme_ue_s1ap_id_to_subscriber_id w) ∧
    (∀ j, j ≠ sid → afind (removeMmeUeS1apIdAssociation s v).subscriber_records j =
      afind s.subscriber_records j) := by
  simp only [removeMmeUeS1apIdAssociation, h, hr]
  rw [if_pos hsid]
  refine ⟨?_, ?_, ?_, ?_⟩
  · simp [afind_aset_self]
  · simp [afind_aerase_self]
  · intro w hw
    simp [afind_aerase_of_ne _ hw]
  · intro j hj
    simp [afind_aset_of_ne _ _ hj]

theorem removeEnbUeS1apIdAssociation_proj (s : CorrState) (v : Nat) :
    (removeEnbUeS1apIdAssociation s v).imsi_to_subscriber_id = s.imsi_to_subscriber_id ∧
    (removeEnbUeS1apIdAssociation s v).tmsi_to_subscriber_id = s.tmsi_to_subscriber_id ∧
    (removeEnbUeS1apIdAssociation s v).mme_ue_s1ap_id_to_subscriber_id =
      s.mme_ue_s1ap_id_to_subscriber_id ∧
    (removeEnbUeS1apIdAssociation s v).teid_to_subscriber_id = s.teid_to_subscriber_id ∧
    (removeEnbUeS1apIdAssociation s v).imeisv_to_subscriber_id = s.imeisv_to_subscriber_id ∧
    (removeEnbUeS1apIdAssociation s v).next_subscriber_id = s.next_subscriber_id := by
  simp only [removeEnbUeS1apIdAssociation]
  repeat' split
  all_goals simp

theorem removeEnbUeS1apIdAssociation_spec (s : CorrState) (v sid : Nat) (r : SubscriberRecord)
    (h : afind s.enb_ue_s1ap_id_to_subscriber_id v = some sid) (hsid : sid ≠ 0)
    (hr : afind s.subscriber_records sid = some r) :
    afind (removeEnbUeS1apIdAssociation s v).subscriber_records sid =
      some ({ r with enb_ue_s1ap_id := none }) ∧
    afind (removeEnbUeS1apIdAssociation s v).enb_ue_s1ap_id_to_subscriber_id v = none ∧
    (∀ w, w ≠ v → afind (removeEnbUeS1apIdAssociation s v).enb_ue_s1ap_id_to_subscriber_id w =
      afind s.enb_ue_s1ap_id_to_subscriber_id w) ∧
    (∀ j, j ≠ sid → afind (removeEnbUeS1apIdAssociation s v).subscriber_records j =
      afind s.subscriber_records j) := by
  simp only [removeEnbUeS1apIdAssociation, h, hr]
  rw [if_pos hsid]
  refine ⟨?_, ?_, ?_, ?_⟩
  · simp [afind_aset_self]
  · simp [afind_aerase_self]
  · intro w hw
    simp [afind_aerase_of_ne _ hw]
  · intro j hj
    simp [afind_aset_of_ne _ _ hj]


theorem getRecord_eq_of_afind {s : CorrState} {i : Nat} {r : SubscriberRecord}
    (h : afind s.subscriber_records i = some r) : getRecord s i = r := by
  simp [getRecord, h]

theorem afind_eq_some_getRecord {s : CorrState} {i : Nat}
    (h : (afind s.subscriber_records i).isSome) :
    afind s.subscriber_records i = some (getRecord s i) := by
  cases hh : afind s.subscriber_records i with
  | none => rw [hh] at h; simp at h
  | some r => simp [getRecord, hh]

/-- `getOrCreateSubscriber` called with both S1AP ids indexed to the same
nonzero subscriber: the record is matched through the both-ids branch and
the only associations applied are eNB then MME. -/
theorem goc_mme_enb_match (s : CorrState) (Y Z sid : Nat)
    (hm : afind s.mme_ue_s1ap_id_to_subscriber_id Y = some sid)
    (he : afind s.enb_ue_s1ap_id_to_subscriber_id Z = some sid) (hsid : sid ≠ 0) :
    getOrCreateSubscriber s none none (some Z) (some Y) none none =
      (associateMmeUeS1apId (associateEnbUeS1apId (materialize s sid) sid sid Z) sid sid Y,
        sid) := by
  have hmatch : gocMatch s none none (some Z) (some Y) none none = sid := by
    simp [gocMatch, lookupOr0, bothS1apMatch, pick, hm, he, hsid]
  simp only [getOrCreateSubscriber, hmatch]
  rw [if_neg hsid]


/-- C2: processing a UEContextReleaseComplete (procedure 23, successful
outcome) carrying subscriber `sid`'s MME and eNB S1AP ids clears both record
fields and both index entries, while the record itself persists with its
IMSI, TMSI, IMEISV and TEIDs unchanged. -/
theorem c2_release_clears_s1ap_ids (s : CorrState) (Y Z sid : Nat) (ts : ℚ)
    (hwf : WFids s)
    (hm : afind s.mme_ue_s1ap_id_to_subscriber_id Y = some sid)
    (he : afind s.enb_ue_s1ap_id_to_subscriber_id Z = some sid) :
    (processS1apFrame s ⟨23, S1apPduType.successfulOutcome, [], [], [], some Y, some Z, []⟩
        ts).2 = sid ∧
    (∃ r, afind (processS1apFrame s
        ⟨23, S1apPduType.successfulOutcome, [], [], [], some Y, some Z, []⟩
        ts).1.subscriber_records sid = some r ∧
      r.mme_ue_s1ap_id = none ∧ r.enb_ue_s1ap_id = none ∧
      r.imsi = (getRecord s sid).imsi ∧ r.tmsi = (getRecord s sid).tmsi ∧
      r.imeisv = (getRecord s sid).imeisv ∧ r.teids = (getRecord s sid).teids) ∧
    afind (processS1apFrame s
        ⟨23, S1apPduType.successfulOutcome, [], [], [], some Y, some Z, []⟩
        ts).1.mme_ue_s1ap_id_to_subscriber_id Y = none ∧
    afind (processS1apFrame s
        ⟨23, S1apPduType.successfulOutcome, [], [], [], some Y, some Z, []⟩
        ts).1.enb_ue_s1ap_id_to_subscriber_id Z = none := by
  have hsid : sid ≠ 0 := by
    have hb := hwf.2.2.2.2.2.1 _ (mem_of_afind hm)
    omega
  have hG := goc_mme_enb_match s Y Z sid hm he hsid
  -- the state retured by getOrCreateSubscriber
  have hAidx : afind (associateMmeUeS1apId (associateEnbUeS1apId (materialize s sid) sid sid Z)
      sid sid Y).mme_ue_s1ap_id_to_subscriber_id Y = some sid :=
    associateMmeUeS1apId_idx_self _ sid sid Y
  have hrecompute : recomputeSubscriberId
      (associateMmeUeS1apId (associateEnbUeS1apId (materialize s sid) sid sid Z) sid sid Y)
      none none none (some Y) (some Z) = sid := by
    simp [recomputeSubscriberId, hAidx, hsid]
  have hstep : processS1apFrame s
      ⟨23, S1apPduType.successfulOutcome, [], [], [], some Y, some Z, []⟩ ts =
      (removeEnbUeS1apIdAssociation
        (removeMmeUeS1apIdAssociation
          (updateSeenTimestamps
            (associateEnbUeS1apId
              (associateMmeUeS1apId
                (associateMmeUeS1apId (associateEnbUeS1apId (materialize s sid) sid sid Z)
                  sid sid Y)
                sid sid Y)
              sid sid Z)
            sid ts)
          Y)
        Z, sid) := by
    simp [processS1apFrame, hG, hrecompute, hsid]
  rw [hstep]
  -- records through the association chain
  have rM : getRecord (materialize s sid) sid = getRecord s sid :=
    getRecord_eq_of_afind (materialize_afind_self s sid)
  have rE : getRecord (associateEnbUeS1apId (materialize s sid) sid sid Z) sid =
      { getRecord s sid with enb_ue_s1ap_id := some Z } := by
    rw [getRecord_eq_of_afind (associateEnbUeS1apId_records_self (materialize s sid) sid Z), rM]
  have rA : getRecord (associateMmeUeS1apId
      (associateEnbUeS1apId (materialize s sid) sid sid Z) sid sid Y) sid =
      { getRecord s sid with enb_ue_s1ap_id := some Z, mme_ue_s1ap_id := some Y } := by
    rw [getRecord_eq_of_afind (associateMmeUeS1apId_records_self _ sid Y), rE]
  have rB : getRecord (associateMmeUeS1apId (associateMmeUeS1apId
      (associateEnbUeS1apId (materialize s sid) sid sid Z) sid sid Y) sid sid Y) sid =
      { getRecord s sid with enb_ue_s1ap_id := some Z, mme_ue_s1ap_id := some Y } := by
    rw [getRecord_eq_of_afind (associateMmeUeS1apId_records_self _ sid Y), rA]
  have rC : getRecord (associateEnbUeS1apId (associateMmeUeS1apId (associateMmeUeS1apId
      (associateEnbUeS1apId (materialize s sid) sid sid Z) sid sid Y) sid sid Y) sid sid Z)
      sid =
      { getRecord s sid with mme_ue_s1ap_id := some Y, enb_ue_s1ap_id := some Z } := by
    rw [getRecord_eq_of_afind (associateEnbUeS1apId_records_self _ sid Z), rB]
  -- indexes at the point of removal
  have hCmme : afind (updateSeenTimestamps (associateEnbUeS1apId (associateMmeUeS1apId
      (associateMmeUeS1apId (associateEnbUeS1apId (materialize s sid) sid sid Z) sid sid Y)
      sid sid Y) sid sid Z) sid ts).mme_ue_s1ap_id_to_subscriber_id Y = some sid := by
    rw [(updateSeenTimestamps_proj _ _ _).2.2.2.1, (associateEnbUeS1apId_proj _ _ _ _).2.2.1]
    exact associateMmeUeS1apId_idx_self _ sid sid Y
  have hCenb : afind (updateSeenTimestamps (associateEnbUeS1apId (associateMmeUeS1apId
      (associateMmeUeS1apId (associateEnbUeS1apId (materialize s sid) sid sid Z) sid sid Y)
      sid sid Y) sid sid Z) sid ts).enb_ue_s1ap_id_to_subscriber_id Z = some sid := by
    rw [(updateSeenTimestamps_proj _ _ _).2.2.1]
    exact associateEnbUeS1apId_idx_self _ sid sid Z
  -- the record survives the timestamp update
  have hCsome : (afind ((associateEnbUeS1apId (associateMmeUeS1apId (associateMmeUeS1apId
      (associateEnbUeS1apId (materialize s sid) sid sid Z) sid sid Y) sid sid Y) sid sid
      Z).subscriber_records) sid).isSome := by
    rw [associateEnbUeS1apId_records_self _ sid Z]
    rfl
  have hDsome : (afind (updateSeenTimestamps (associateEnbUeS1apId (associateMmeUeS1apId
      (associateMmeUeS1apId (associateEnbUeS1apId (materialize s sid) sid sid Z) sid sid Y)
      sid sid Y) sid sid Z) sid ts).subscriber_records sid).isSome := by
    rcases updateSeenTimestamps_isSome (associateEnbUeS1apId (associateMmeUeS1apId
      (associateMmeUeS1apId (associateEnbUeS1apId (materialize s sid) sid sid Z) sid sid Y)
      sid sid Y) sid sid Z) sid ts with h | h
    · exact h
    · rw [h]
      exact hCsome
  have hDrec := afind_eq_some_getRecord hDsome
  have hDfields := updateSeenTimestamps_fields (associateEnbUeS1apId (associateMmeUeS1apId
    (associateMmeUeS1apId (associateEnbUeS1apId (materialize s sid) sid sid Z) sid sid Y)
    sid sid Y) sid sid Z) sid ts
  -- removal of the MME association
  have hRM := removeMmeUeS1apIdAssociation_spec _ Y sid _ hCmme hsid hDrec
  -- removal of the eNB association
  have hRMenb : afind (removeMmeUeS1apIdAssociation (updateSeenTimestamps
      (associateEnbUeS1apId (associateMmeUeS1apId (associateMmeUeS1apId
      (associateEnbUeS1apId (materialize s sid) sid sid Z) sid sid Y) sid sid Y) sid sid Z)
      sid ts) Y).enb_ue_s1ap_id_to_subscriber_id Z = some sid := by
    rw [(removeMmeUeS1apIdAssociation_proj _ _).2.2.1]
    exact hCenb
  have hRE := removeEnbUeS1apIdAssociation_spec _ Z sid _ hRMenb hsid hRM.1
  refine ⟨rfl, ⟨_, hRE.1, ?_, ?_, ?_, ?_, ?_, ?_⟩, ?_, ?_⟩
  · simp
  · simp
  · simp only [rC] at hDfields
    simp [hDfields.1]
  · simp only [rC] at hDfields
    simp [hDfields.2.1]
  · simp only [rC] at hDfields
    simp [hDfields.2.2.2.2.2]
  · simp only [rC] at hDfields
    simp [hDfields.2.2.2.2.1]
  · rw [(removeEnbUeS1apIdAssociation_proj _ _).2.2.1]
    exact hRM.2.1
  · exact hRE.2.1


/-- Witness for C2 at a concrete one-subscriber state. -/
theorem c2_release_clears_s1ap_ids_witness :
    (processS1apFrame c2wState
        ⟨23, S1apPduType.successfulOutcome, [], [], [], some 7, some 9, []⟩ 5).2 = 1 ∧
    (∃ r, afind (processS1apFrame c2wState
        ⟨23, S1apPduType.successfulOutcome, [], [], [], some 7, some 9, []⟩
        5).1.subscriber_records 1 = some r ∧
      r.mme_ue_s1ap_id = none ∧ r.enb_ue_s1ap_id = none ∧
      r.imsi = (getRecord c2wState 1).imsi ∧ r.tmsi = (getRecord c2wState 1).tmsi ∧
      r.imeisv = (getRecord c2wState 1).imeisv ∧ r.teids = (getRecord c2wState 1).teids) ∧
    afind (processS1apFrame c2wState
        ⟨23, S1apPduType.successfulOutcome, [], [], [], some 7, some 9, []⟩
        5).1.mme_ue_s1ap_id_to_subscriber_id 7 = none ∧
    afind (processS1apFrame c2wState
        ⟨23, S1apPduType.successfulOutcome, [], [], [], some 7, some 9, []⟩
        5).1.enb_ue_s1ap_id_to_subscriber_id 9 = none :=
  c2_release_clears_s1ap_ids c2wState 7 9 1 5
    (by unfold WFids IdxBounded c2wState c2wRec; decide) (by decide) (by decide)


theorem goc_imsi_mme_eq_create (s : CorrState) (x : String) (Y : Nat)
    (h0 : gocMatch s (some x) none none (some Y) none none = 0) :
    getOrCreateSubscriber s (some x) none none (some Y) none none =
      (associateMmeUeS1apId (associateImsi
        ({ s with
            subscriber_records := aset s.subscriber_records s.next_subscriber_id ({})
            next_subscriber_id := s.next_subscriber_id + 1 })
        s.next_subscriber_id s.next_subscriber_id x)
        s.next_subscriber_id s.next_subscriber_id Y,
       s.next_subscriber_id) := by
  simp only [getOrCreateSubscriber, h0, if_true]

theorem goc_imsi_mme_eq_found (s : CorrState) (x : String) (Y sid : Nat)
    (h0 : gocMatch s (some x) none none (some Y) none none = sid) (hsid : sid ≠ 0) :
    getOrCreateSubscriber s (some x) none none (some Y) none none =
      (associateMmeUeS1apId (associateImsi (materialize s sid) sid sid x) sid sid Y, sid) := by
  simp only [getOrCreateSubscriber, h0]
  rw [if_neg hsid]

theorem assoc_imsi_mme_post (B : CorrState) (g : Nat) (x : String) (Y : Nat) (hg : g ≠ 0) :
    afind (associateMmeUeS1apId (associateImsi B g g x) g g Y).imsi_to_subscriber_id x =
      some g ∧
    afind (associateMmeUeS1apId (associateImsi B g g x) g g Y).mme_ue_s1ap_id_to_subscriber_id
      Y = some g ∧
    ∃ r, afind (associateMmeUeS1apId (associateImsi B g g x) g g Y).subscriber_records g =
        some r ∧ r.imsi = some x ∧ r.mme_ue_s1ap_id = some Y := by
  refine ⟨?_, associateMmeUeS1apId_idx_self _ _ _ Y, ?_⟩
  · rw [(associateMmeUeS1apId_proj _ _ _ _).1]
    exact associateImsi_idx_self _ _ _ x hg
  · have h1 : getRecord (associateImsi B g g x) g = { getRecord B g with imsi := some x } :=
      getRecord_eq_of_afind (associateImsi_records_self B g x hg)
    refine ⟨_, by rw [associateMmeUeS1apId_records_self, h1], by simp, by simp⟩

set_option maxHeartbeats 1600000 in
theorem goc_imsi_mme_post (s : CorrState) (x : String) (Y : Nat)
    (hn : s.next_subscriber_id ≠ 0) :
    (getOrCreateSubscriber s (some x) none none (some Y) none none).2 ≠ 0 ∧
    afind (getOrCreateSubscriber s (some x) none none (some Y) none
        none).1.imsi_to_subscriber_id x =
      some (getOrCreateSubscriber s (some x) none none (some Y) none none).2 ∧
    afind (getOrCreateSubscriber s (some x) none none (some Y) none
        none).1.mme_ue_s1ap_id_to_subscriber_id Y =
      some (getOrCreateSubscriber s (some x) none none (some Y) none none).2 ∧
    ∃ r, afind (getOrCreateSubscriber s (some x) none none (some Y) none
          none).1.subscriber_records
        (getOrCreateSubscriber s (some x) none none (some Y) none none).2 = some r ∧
      r.imsi = some x ∧ r.mme_ue_s1ap_id = some Y := by
  by_cases h0 : gocMatch s (some x) none none (some Y) none none = 0
  · rw [goc_imsi_mme_eq_create s x Y h0]
    exact ⟨hn, assoc_imsi_mme_post _ _ x Y hn⟩
  · rw [goc_imsi_mme_eq_found s x Y _ rfl h0]
    exact ⟨h0, assoc_imsi_mme_post _ _ x Y h0⟩

theorem goc_mme_only_found (s : CorrState) (Y sid : Nat)
    (hm : afind s.mme_ue_s1ap_id_to_subscriber_id Y = some sid) (hsid : sid ≠ 0) :
    getOrCreateSubscriber s none none none (some Y) none none =
      (associateMmeUeS1apId (materialize s sid) sid sid Y, sid) := by
  have hmatch : gocMatch s none none none (some Y) none none = sid := by
    simp [gocMatch, lookupOr0, bothS1apMatch, pick, hm, hsid]
  simp only [getOrCreateSubscriber, hmatch]
  rw [if_neg hsid]

theorem updateSeen_record_of_afind {s : CorrState} {g : Nat} {r : SubscriberRecord}
    (h : afind s.subscriber_records g = some r) (ts : ℚ) :
    ∃ u, afind (updateSeenTimestamps s g ts).subscriber_records g = some u ∧
      u.imsi = r.imsi ∧ u.tmsi = r.tmsi ∧ u.enb_ue_s1ap_id = r.enb_ue_s1ap_id ∧
      u.mme_ue_s1ap_id = r.mme_ue_s1ap_id ∧ u.teids = r.teids ∧ u.imeisv = r.imeisv := by
  rcases updateSeenTimestamps_isSome s g ts with h2 | h2
  · have hf := updateSeenTimestamps_fields s g ts
    rw [getRecord_eq_of_afind h] at hf
    exact ⟨getRecord (updateSeenTimestamps s g ts) g, afind_eq_some_getRecord h2,
      hf.1, hf.2.1, hf.2.2.1, hf.2.2.2.1, hf.2.2.2.2.1, hf.2.2.2.2.2⟩
  · rw [h2]
    exact ⟨r, h, rfl, rfl, rfl, rfl, rfl, rfl⟩

set_option maxHeartbeats 1600000 in
theorem processS1apFrame_imsi_mme_post (s : CorrState) (x : String) (Y p1 : Nat)
    (t1 : S1apPduType) (ts1 : ℚ) (hn : s.next_subscriber_id ≠ 0)
    (h1 : ¬ (p1 = 23 ∧ t1 = S1apPduType.successfulOutcome)) :
    (processS1apFrame s ⟨p1, t1, [x], [], [], some Y, none, []⟩ ts1).2 ≠ 0 ∧
    afind (processS1apFrame s ⟨p1, t1, [x], [], [], some Y, none, []⟩
        ts1).1.mme_ue_s1ap_id_to_subscriber_id Y =
      some (processS1apFrame s ⟨p1, t1, [x], [], [], some Y, none, []⟩ ts1).2 ∧
    ∃ r, afind (processS1apFrame s ⟨p1, t1, [x], [], [], some Y, none, []⟩
          ts1).1.subscriber_records
        (processS1apFrame s ⟨p1, t1, [x], [], [], some Y, none, []⟩ ts1).2 = some r ∧
      r.imsi = some (normalizeImsi x) ∧ r.mme_ue_s1ap_id = some Y := by
  obtain ⟨hg, hidx, hmme, r, hr, hri, hrm⟩ := goc_imsi_mme_post s (normalizeImsi x) Y hn
  have hrecomp : recomputeSubscriberId
      (getOrCreateSubscriber s (some (normalizeImsi x)) none none (some Y) none none).1
      (some (normalizeImsi x)) none none (some Y) none =
      (getOrCreateSubscriber s (some (normalizeImsi x)) none none (some Y) none none).2 := by
    simp [recomputeSubscriberId, hidx, hg]
  have hstep : processS1apFrame s ⟨p1, t1, [x], [], [], some Y, none, []⟩ ts1 =
      (updateSeenTimestamps
        (associateMmeUeS1apId
          (getOrCreateSubscriber s (some (normalizeImsi x)) none none (some Y) none none).1
          (getOrCreateSubscriber s (some (normalizeImsi x)) none none (some Y) none none).2
          (getOrCreateSubscriber s (some (normalizeImsi x)) none none (some Y) none none).2 Y)
        (getOrCreateSubscriber s (some (normalizeImsi x)) none none (some Y) none none).2 ts1,
       (getOrCreateSubscriber s (some (normalizeImsi x)) none none (some Y) none none).2) := by
    simp [processS1apFrame, hrecomp, hg, h1]
  rw [hstep]
  refine ⟨hg, ?_, ?_⟩
  · rw [(updateSeenTimestamps_proj _ _ _).2.2.2.1]
    exact associateMmeUeS1apId_idx_self _ _ _ Y
  · have hrec2 : afind (associateMmeUeS1apId
        (getOrCreateSubscriber s (some (normalizeImsi x)) none none (some Y) none none).1
        (getOrCreateSubscriber s (some (normalizeImsi x)) none none (some Y) none none).2
        (getOrCreateSubscriber s (some (normalizeImsi x)) none none (some Y) none none).2
        Y).subscriber_records
        (getOrCreateSubscriber s (some (normalizeImsi x)) none none (some Y) none none).2 =
        some ({ r with mme_ue_s1ap_id := some Y }) := by
      rw [associateMmeUeS1apId_records_self, getRecord_eq_of_afind hr]
    obtain ⟨u, hu, hui, _, _, hum, _, _⟩ := updateSeen_record_of_afind hrec2 ts1
    exact ⟨u, hu, by rw [hui]; exact hri, by rw [hum]⟩

theorem processS1apFrame_mme_only_post (s : CorrState) (Y g p2 : Nat) (t2 : S1apPduType)
    (ts2 : ℚ) {r : SubscriberRecord}
    (hidx : afind s.mme_ue_s1ap_id_to_subscriber_id Y = some g) (hg : g ≠ 0)
    (hr : afind s.subscriber_records g = some r)
    (h2 : ¬ (p2 = 23 ∧ t2 = S1apPduType.successfulOutcome)) :
    (processS1apFrame s ⟨p2, t2, [], [], [], some Y, none, []⟩ ts2).2 = g ∧
    ∃ u, afind (processS1apFrame s ⟨p2, t2, [], [], [], some Y, none, []⟩
          ts2).1.subscriber_records g = some u ∧
      u.imsi = r.imsi ∧ u.mme_ue_s1ap_id = some Y := by
  have hG := goc_mme_only_found s Y g hidx hg
  have hrecomp : recomputeSubscriberId (associateMmeUeS1apId (materialize s g) g g Y)
      none none none (some Y) none = g := by
    simp [recomputeSubscriberId, associateMmeUeS1apId_idx_self, hg]
  have hstep : processS1apFrame s ⟨p2, t2, [], [], [], some Y, none, []⟩ ts2 =
      (updateSeenTimestamps
        (associateMmeUeS1apId (associateMmeUeS1apId (materialize s g) g g Y) g g Y) g ts2,
       g) := by
    simp [processS1apFrame, hG, hrecomp, hg, h2]
  rw [hstep]
  have hm1 : afind (associateMmeUeS1apId (materialize s g) g g Y).subscriber_records g =
      some ({ getRecord s g with mme_ue_s1ap_id := some Y }) := by
    rw [associateMmeUeS1apId_records_self, getRecord_eq_of_afind (materialize_afind_self s g)]
  have hm2 : afind (associateMmeUeS1apId (associateMmeUeS1apId (materialize s g) g g Y)
      g g Y).subscriber_records g =
      some ({ { getRecord s g with mme_ue_s1ap_id := some Y } with
        mme_ue_s1ap_id := some Y }) := by
    rw [associateMmeUeS1apId_records_self, getRecord_eq_of_afind hm1]
  obtain ⟨u, hu, hui, _, _, hum, _, _⟩ := updateSeen_record_of_afind hm2 ts2
  refine ⟨rfl, u, hu, ?_, ?_⟩
  · rw [hui]
    simp [getRecord, hr]
  · rw [hum]

/-- C1: the merge claim fails as stated: when M2 is a UEContextReleaseComplete
(procedure 23, successful outcome) carrying only MME-UE-S1AP-ID 7, both
messages do return the same record (id 1) with IMSI "123" kept, but after M2
the record no longer holds MME-UE-S1AP-ID 7 — the release handling clears it. -/
theorem c1_counterexample :
    (processS1apFrame
        (processS1apFrame corrInit
          ⟨12, S1apPduType.initiatingMessage, ["123"], [], [], some 7, none, []⟩ 1).1
        ⟨23, S1apPduType.successfulOutcome, [], [], [], some 7, none, []⟩ 2).2 =
      (processS1apFrame corrInit
        ⟨12, S1apPduType.initiatingMessage, ["123"], [], [], some 7, none, []⟩ 1).2 ∧
    (getRecord (processS1apFrame
        (processS1apFrame corrInit
          ⟨12, S1apPduType.initiatingMessage, ["123"], [], [], some 7, none, []⟩ 1).1
        ⟨23, S1apPduType.successfulOutcome, [], [], [], some 7, none, []⟩ 2).1
      (processS1apFrame corrInit
        ⟨12, S1apPduType.initiatingMessage, ["123"], [], [], some 7, none, []⟩ 1).2).imsi =
      some "123" ∧
    ¬ (getRecord (processS1apFrame
        (processS1apFrame corrInit
          ⟨12, S1apPduType.initiatingMessage, ["123"], [], [], some 7, none, []⟩ 1).1
        ⟨23, S1apPduType.successfulOutcome, [], [], [], some 7, none, []⟩ 2).1
      (processS1apFrame corrInit
        ⟨12, S1apPduType.initiatingMessage, ["123"], [], [], some 7, none,
          []⟩ 1).2).mme_ue_s1ap_id = some 7 := by
  decide

/-- C1 (amended): for messages that are not UEContextReleaseComplete, the merge
holds from any store state with a nonzero id counter: M1 carrying IMSI X and
MME-UE-S1AP-ID Y and M2 carrying only MME-UE-S1AP-ID Y yield the same nonzero
subscriber id, and after M2 that record holds the normalized IMSI and the
MME-UE-S1AP-ID. -/
theorem c1_amended_identity_merge (s : CorrState) (x : String) (Y p1 p2 : Nat)
    (t1 t2 : S1apPduType) (ts1 ts2 : ℚ)
    (hn : s.next_subscriber_id ≠ 0)
    (h1 : ¬ (p1 = 23 ∧ t1 = S1apPduType.successfulOutcome))
    (h2 : ¬ (p2 = 23 ∧ t2 = S1apPduType.successfulOutcome)) :
    (processS1apFrame
        (processS1apFrame s ⟨p1, t1, [x], [], [], some Y, none, []⟩ ts1).1
        ⟨p2, t2, [], [], [], some Y, none, []⟩ ts2).2 =
      (processS1apFrame s ⟨p1, t1, [x], [], [], some Y, none, []⟩ ts1).2 ∧
    (processS1apFrame s ⟨p1, t1, [x], [], [], some Y, none, []⟩ ts1).2 ≠ 0 ∧
    ∃ u, afind (processS1apFrame
          (processS1apFrame s ⟨p1, t1, [x], [], [], some Y, none, []⟩ ts1).1
          ⟨p2, t2, [], [], [], some Y, none, []⟩ ts2).1.subscriber_records
        (processS1apFrame s ⟨p1, t1, [x], [], [], some Y, none, []⟩ ts1).2 = some u ∧
      u.imsi = some (normalizeImsi x) ∧ u.mme_ue_s1ap_id = some Y := by
  obtain ⟨hg, hidx, r, hr, hri, hrm⟩ := processS1apFrame_imsi_mme_post s x Y p1 t1 ts1 hn h1
  obtain ⟨hid2, u, hu, hui, hum⟩ :=
    processS1apFrame_mme_only_post _ Y _ p2 t2 ts2 hidx hg hr h2
  exact ⟨hid2, hg, u, hu, by rw [hui]; exact hri, hum⟩

/-- Witness for C1 (amended) at the initial store and two non-release frames. -/
theorem c1_amended_identity_merge_witness :
    (processS1apFrame
        (processS1apFrame corrInit
          ⟨12, S1apPduType.initiatingMessage, ["123"], [], [], some 7, none, []⟩ 1).1
        ⟨9, S1apPduType.initiatingMessage, [], [], [], some 7, none, []⟩ 2).2 =
      (processS1apFrame corrInit
        ⟨12, S1apPduType.initiatingMessage, ["123"], [], [], some 7, none, []⟩ 1).2 ∧
    (processS1apFrame corrInit
        ⟨12, S1apPduType.initiatingMessage, ["123"], [], [], some 7, none, []⟩ 1).2 ≠ 0 ∧
    ∃ u, afind (processS1apFrame
          (processS1apFrame corrInit
            ⟨12, S1apPduType.initiatingMessage, ["123"], [], [], some 7, none, []⟩ 1).1
          ⟨9, S1apPduType.initiatingMessage, [], [], [],
            some 7, none, []⟩ 2).1.subscriber_records
        (processS1apFrame corrInit
          ⟨12, S1apPduType.initiatingMessage, ["123"], [], [], some 7, none, []⟩ 1).2 =
        some u ∧
      u.imsi = some (normalizeImsi "123") ∧ u.mme_ue_s1ap_id = some 7 :=
  c1_amended_identity_merge corrInit "123" 7 12 9
    S1apPduType.initiatingMessage S1apPduType.initiatingMessage 1 2
    (by decide) (by decide) (by decide)


theorem IdxBounded_aerase {K : Type} [DecidableEq K] {m : List (K × Nat)} {n : Nat}
    (h : IdxBounded m n) (x : K) : IdxBounded (aerase m x) n :=
  fun p hp => h p (mem_of_mem_aerase hp)

theorem IdxBounded_aset {K : Type} [DecidableEq K] {m : List (K × Nat)} {n j : Nat}
    (h : IdxBounded m n) (hj : 0 < j ∧ j < n) (x : K) : IdxBounded (aset m x j) n := by
  intro p hp
  rcases mem_of_mem_aset hp with h2 | h2
  · rw [h2]
    exact hj
  · exact h p h2

theorem IdxBounded_mono {K : Type} {m : List (K × Nat)} {n n2 : Nat}
    (h : IdxBounded m n) (hn : n ≤ n2) : IdxBounded m n2 :=
  fun p hp => ⟨(h p hp).1, lt_of_lt_of_le (h p hp).2 hn⟩

theorem keys_aset {V : Type} {m : List (Nat × V)} {n i : Nat}
    (h : ∀ p ∈ m, 0 < p.1 ∧ p.1 < n) (hi : 0 < i ∧ i < n) (r : V) :
    ∀ p ∈ aset m i r, 0 < p.1 ∧ p.1 < n := by
  intro p hp
  rcases mem_of_mem_aset hp with h2 | h2
  · rw [h2]
    exact hi
  · exact h p h2

theorem keys_mono {V : Type} {m : List (Nat × V)} {n n2 : Nat}
    (h : ∀ p ∈ m, 0 < p.1 ∧ p.1 < n) (hn : n ≤ n2) : ∀ p ∈ m, 0 < p.1 ∧ p.1 < n2 :=
  fun p hp => ⟨(h p hp).1, lt_of_lt_of_le (h p hp).2 hn⟩

theorem conflictClearMme_WF {s : CorrState} (hwf : WFids s) (j v : Nat) :
    WFids (conflictClearMme s j v) := by
  obtain ⟨h1, h2, h3, h4, h5, h6, h7, h8⟩ := hwf
  simp only [conflictClearMme]
  split
  · next other heq =>
    split
    · split
      · exact ⟨h1, keys_aset h2 (h6 _ (mem_of_afind heq)) _, h3, h4, h5, h6, h7, h8⟩
      · exact ⟨h1, h2, h3, h4, h5, h6, h7, h8⟩
    · exact ⟨h1, h2, h3, h4, h5, h6, h7, h8⟩
  · exact ⟨h1, h2, h3, h4, h5, h6, h7, h8⟩

theorem conflictClearEnb_WF {s : CorrState} (hwf : WFids s) (j v : Nat) :
    WFids (conflictClearEnb s j v) := by
  obtain ⟨h1, h2, h3, h4, h5, h6, h7, h8⟩ := hwf
  simp only [conflictClearEnb]
  split
  · next other heq =>
    split
    · split
      · exact ⟨h1, keys_aset h2 (h5 _ (mem_of_afind heq)) _, h3, h4, h5, h6, h7, h8⟩
      · exact ⟨h1, h2, h3, h4, h5, h6, h7, h8⟩
    · exact ⟨h1, h2, h3, h4, h5, h6, h7, h8⟩
  · exact ⟨h1, h2, h3, h4, h5, h6, h7, h8⟩

theorem conflictClearTeid_WF {s : CorrState} (hwf : WFids s) (j v : Nat) :
    WFids (conflictClearTeid s j v) := by
  obtain ⟨h1, h2, h3, h4, h5, h6, h7, h8⟩ := hwf
  simp only [conflictClearTeid]
  split
  · next old heq =>
    split
    · split
      · exact ⟨h1, keys_aset h2 (h7 _ (mem_of_afind heq)) _, h3, h4, h5, h6, h7, h8⟩
      · exact ⟨h1, h2, h3, h4, h5, h6, h7, h8⟩
    · exact ⟨h1, h2, h3, h4, h5, h6, h7, h8⟩
  · exact ⟨h1, h2, h3, h4, h5, h6, h7, h8⟩

theorem associateImsi_WF {s : CorrState} {i j : Nat} (hwf : WFids s)
    (hi : 0 < i ∧ i < s.next_subscriber_id) (hj : 0 < j ∧ j < s.next_subscriber_id)
    (x : String) : WFids (associateImsi s i j x) := by
  obtain ⟨h1, h2, h3, h4, h5, h6, h7, h8⟩ := hwf
  simp only [associateImsi]
  split
  · exact ⟨h1, h2, h3, h4, h5, h6, h7, h8⟩
  · split
    · exact ⟨h1, keys_aset h2 hi _, IdxBounded_aset (IdxBounded_aerase h3 _) hj x,
        h4, h5, h6, h7, h8⟩
    · exact ⟨h1, keys_aset h2 hi _, IdxBounded_aset h3 hj x, h4, h5, h6, h7, h8⟩

theorem associateTmsi_WF {s : CorrState} {i j : Nat} (hwf : WFids s)
    (hi : 0 < i ∧ i < s.next_subscriber_id) (hj : 0 < j ∧ j < s.next_subscriber_id)
    (x : String) : WFids (associateTmsi s i j x) := by
  obtain ⟨h1, h2, h3, h4, h5, h6, h7, h8⟩ := hwf
  simp only [associateTmsi]
  split
  · exact ⟨h1, keys_aset h2 hi _, h3, IdxBounded_aset (IdxBounded_aerase h4 _) hj x,
      h5, h6, h7, h8⟩
  · exact ⟨h1, keys_aset h2 hi _, h3, IdxBounded_aset h4 hj x, h5, h6, h7, h8⟩

theorem associateImeisv_WF {s : CorrState} {i j : Nat} (hwf : WFids s)
    (hi : 0 < i ∧ i < s.next_subscriber_id) (hj : 0 < j ∧ j < s.next_subscriber_id)
    (x : String) : WFids (associateImeisv s i j x) := by
  obtain ⟨h1, h2, h3, h4, h5, h6, h7, h8⟩ := hwf
  simp only [associateImeisv]
  split
  · exact ⟨h1, keys_aset h2 hi _, h3, h4, h5, h6, h7,
      IdxBounded_aset (IdxBounded_aerase h8 _) hj x⟩
  · exact ⟨h1, keys_aset h2 hi _, h3, h4, h5, h6, h7, IdxBounded_aset h8 hj x⟩

theorem associateMmeUeS1apId_WF {s : CorrState} {i j : Nat} (hwf : WFids s)
    (hi : 0 < i ∧ i < s.next_subscriber_id) (hj : 0 < j ∧ j < s.next_subscriber_id)
    (v : Nat) : WFids (associateMmeUeS1apId s i j v) := by
  have hnext := (conflictClearMme_proj s j v).2.2.2.2.2.2
  have hwf1 := conflictClearMme_WF hwf j v
  rw [← hnext] at hi hj
  obtain ⟨h1, h2, h3, h4, h5, h6, h7, h8⟩ := hwf1
  simp only [associateMmeUeS1apId]
  split
  · split
    · exact ⟨h1, keys_aset h2 hi _, h3, h4, h5,
        IdxBounded_aset (IdxBounded_aerase h6 _) hj v, h7, h8⟩
    · exact ⟨h1, keys_aset h2 hi _, h3, h4, h5, IdxBounded_aset h6 hj v, h7, h8⟩
  · exact ⟨h1, keys_aset h2 hi _, h3, h4, h5, IdxBounded_aset h6 hj v, h7, h8⟩

theorem associateEnbUeS1apId_WF {s : CorrState} {i j : Nat} (hwf : WFids s)
    (hi : 0 < i ∧ i < s.next_subscriber_id) (hj : 0 < j ∧ j < s.next_subscriber_id)
    (v : Nat) : WFids (associateEnbUeS1apId s i j v) := by
  have hnext := (conflictClearEnb_proj s j v).2.2.2.2.2.2
  have hwf1 := conflictClearEnb_WF hwf j v
  rw [← hnext] at hi hj
  obtain ⟨h1, h2, h3, h4, h5, h6, h7, h8⟩ := hwf1
  simp only [associateEnbUeS1apId]
  split
  · split
    · exact ⟨h1, keys_aset h2 hi _, h3, h4,
        IdxBounded_aset (IdxBounded_aerase h5 _) hj v, h6, h7, h8⟩
    · exact ⟨h1, keys_aset h2 hi _, h3, h4, IdxBounded_aset h5 hj v, h6, h7, h8⟩
  · exact ⟨h1, keys_aset h2 hi _, h3, h4, IdxBounded_aset h5 hj v, h6, h7, h8⟩

theorem associateTeid_WF {s : CorrState} {i j : Nat} (hwf : WFids s)
    (hi : 0 < i ∧ i < s.next_subscriber_id) (hj : 0 < j ∧ j < s.next_subscriber_id)
    (v : Nat) : WFids (associateTeid s i j v) := by
  have hnext := (conflictClearTeid_proj s j v).2.2.2.2.2.2
  have hwf1 := conflictClearTeid_WF hwf j v
  obtain ⟨h1, h2, h3, h4, h5, h6, h7, h8⟩ := hwf
  simp only [associateTeid]
  split
  · exact ⟨h1, h2, h3, h4, h5, h6, h7, h8⟩
  · rw [← hnext] at hi hj
    obtain ⟨g1, g2, g3, g4, g5, g6, g7, g8⟩ := hwf1
    exact ⟨g1, keys_aset g2 hi _, g3, g4, g5, g6, IdxBounded_aset g7 hj v, g8⟩

theorem removeImsiAssociation_WF {s : CorrState} (hwf : WFids s) (x : String) :
    WFids (removeImsiAssociation s x) := by
  obtain ⟨h1, h2, h3, h4, h5, h6, h7, h8⟩ := hwf
  simp only [removeImsiAssociation]
  split
  · next sid heq =>
    split
    · split
      · exact ⟨h1, keys_aset h2 (h3 _ (mem_of_afind heq)) _, IdxBounded_aerase h3 x,
          h4, h5, h6, h7, h8⟩
      · exact ⟨h1, h2, IdxBounded_aerase h3 x, h4, h5, h6, h7, h8⟩
    · exact ⟨h1, h2, h3, h4, h5, h6, h7, h8⟩
  · exact ⟨h1, h2, h3, h4, h5, h6, h7, h8⟩

theorem removeTmsiAssociation_WF {s : CorrState} (hwf : WFids s) (x : String) :
    WFids (removeTmsiAssociation s x) := by
  obtain ⟨h1, h2, h3, h4, h5, h6, h7, h8⟩ := hwf
  simp only [removeTmsiAssociation]
  split
  · next sid heq =>
    split
    · split
      · exact ⟨h1, keys_aset h2 (h4 _ (mem_of_afind heq)) _, h3, IdxBounded_aerase h4 x,
          h5, h6, h7, h8⟩
      · exact ⟨h1, h2, h3, IdxBounded_aerase h4 x, h5, h6, h7, h8⟩
    · exact ⟨h1, h2, h3, h4, h5, h6, h7, h8⟩
  · exact ⟨h1, h2, h3, h4, h5, h6, h7, h8⟩

theorem removeImeisvAssociation_WF {s : CorrState} (hwf : WFids s) (x : String) :
    WFids (removeImeisvAssociation s x) := by
  obtain ⟨h1, h2, h3, h4, h5, h6, h7, h8⟩ := hwf
  simp only [removeImeisvAssociation]
  split
  · next sid heq =>
    split
    · split
      · exact ⟨h1, keys_aset h2 (h8 _ (mem_of_afind heq)) _, h3, h4, h5, h6, h7,
          IdxBounded_aerase h8 x⟩
      · exact ⟨h1, h2, h3, h4, h5, h6, h7, IdxBounded_aerase h8 x⟩
    · exact ⟨h1, h2, h3, h4, h5, h6, h7, h8⟩
  · exact ⟨h1, h2, h3, h4, h5, h6, h7, h8⟩

theorem removeEnbUeS1apIdAssociation_WF {s : CorrState} (hwf : WFids s) (v : Nat) :
    WFids (removeEnbUeS1apIdAssociation s v) := by
  obtain ⟨h1, h2, h3, h4, h5, h6, h7, h8⟩ := hwf
  simp only [removeEnbUeS1apIdAssociation]
  split
  · next sid heq =>
    split
    · split
      · exact ⟨h1, keys_aset h2 (h5 _ (mem_of_afind heq)) _, h3, h4,
          IdxBounded_aerase h5 v, h6, h7, h8⟩
      · exact ⟨h1, h2, h3, h4, IdxBounded_aerase h5 v, h6, h7, h8⟩
    · exact ⟨h1, h2, h3, h4, h5, h6, h7, h8⟩
  · exact ⟨h1, h2, h3, h4, h5, h6, h7, h8⟩

theorem removeMmeUeS1apIdAssociation_WF {s : CorrState} (hwf : WFids s) (v : Nat) :
    WFids (removeMmeUeS1apIdAssociation s v) := by
  obtain ⟨h1, h2, h3, h4, h5, h6, h7, h8⟩ := hwf
  simp only [removeMmeUeS1apIdAssociation]
  split
  · next sid heq =>
    split
    · split
      · exact ⟨h1, keys_aset h2 (h6 _ (mem_of_afind heq)) _, h3, h4, h5,
          IdxBounded_aerase h6 v, h7, h8⟩
      · exact ⟨h1, h2, h3, h4, h5, IdxBounded_aerase h6 v, h7, h8⟩
    · exact ⟨h1, h2, h3, h4, h5, h6, h7, h8⟩
  · exact ⟨h1, h2, h3, h4, h5, h6, h7, h8⟩

theorem removeTeidAssociation_WF {s : CorrState} (hwf : WFids s) (v : Nat) :
    WFids (removeTeidAssociation s v) := by
  obtain ⟨h1, h2, h3, h4, h5, h6, h7, h8⟩ := hwf
  simp only [removeTeidAssociation]
  split
  · next sid heq =>
    split
    · split
      · exact ⟨h1, keys_aset h2 (h7 _ (mem_of_afind heq)) _, h3, h4, h5, h6,
          IdxBounded_aerase h7 v, h8⟩
      · exact ⟨h1, h2, h3, h4, h5, h6, IdxBounded_aerase h7 v, h8⟩
    · exact ⟨h1, h2, h3, h4, h5, h6, h7, h8⟩
  · exact ⟨h1, h2, h3, h4, h5, h6, h7, h8⟩

theorem updateSeenTimestamps_WF {s : CorrState} {g : Nat} (hwf : WFids s)
    (hg : 0 < g ∧ g < s.next_subscriber_id) (ts : ℚ) :
    WFids (updateSeenTimestamps s g ts) := by
  obtain ⟨h1, h2, h3, h4, h5, h6, h7, h8⟩ := hwf
  simp only [updateSeenTimestamps]
  split
  · exact ⟨h1, keys_aset h2 hg _, h3, h4, h5, h6, h7, h8⟩
  · exact ⟨h1, h2, h3, h4, h5, h6, h7, h8⟩

theorem materialize_WF {s : CorrState} {g : Nat} (hwf : WFids s)
    (hg : 0 < g ∧ g < s.next_subscriber_id) : WFids (materialize s g) := by
  obtain ⟨h1, h2, h3, h4, h5, h6, h7, h8⟩ := hwf
  simp only [materialize]
  split
  · exact ⟨h1, h2, h3, h4, h5, h6, h7, h8⟩
  · exact ⟨h1, keys_aset h2 hg _, h3, h4, h5, h6, h7, h8⟩

theorem conflictClearMme_keys (s : CorrState) (j v i : Nat)
    (h : (afind s.subscriber_records i).isSome) :
    (afind (conflictClearMme s j v).subscriber_records i).isSome := by
  simp only [conflictClearMme]
  repeat' split
  all_goals first | exact h | exact isSome_afind_aset _ _ h

theorem conflictClearEnb_keys (s : CorrState) (j v i : Nat)
    (h : (afind s.subscriber_records i).isSome) :
    (afind (conflictClearEnb s j v).subscriber_records i).isSome := by
  simp only [conflictClearEnb]
  repeat' split
  all_goals first | exact h | exact isSome_afind_aset _ _ h

theorem conflictClearTeid_keys (s : CorrState) (j v i : Nat)
    (h : (afind s.subscriber_records i).isSome) :
    (afind (conflictClearTeid s j v).subscriber_records i).isSome := by
  simp only [conflictClearTeid]
  repeat' split
  all_goals first | exact h | exact isSome_afind_aset _ _ h

theorem associateImsi_keys (s : CorrState) (a j : Nat) (x : String) (i : Nat)
    (h : (afind s.subscriber_records i).isSome) :
    (afind (associateImsi s a j x).subscriber_records i).isSome := by
  simp only [associateImsi]
  repeat' split
  all_goals first | exact h | exact isSome_afind_aset _ _ h

theorem associateTmsi_keys (s : CorrState) (a j : Nat) (x : String) (i : Nat)
    (h : (afind s.subscriber_records i).isSome) :
    (afind (associateTmsi s a j x).subscriber_records i).isSome := by
  simp only [associateTmsi]
  repeat' split
  all_goals first | exact h | exact isSome_afind_aset _ _ h

theorem associateImeisv_keys (s : CorrState) (a j : Nat) (x : String) (i : Nat)
    (h : (afind s.subscriber_records i).isSome) :
    (afind (associateImeisv s a j x).subscriber_records i).isSome := by
  simp only [associateImeisv]
  repeat' split
  all_goals first | exact h | exact isSome_afind_aset _ _ h

theorem associateMmeUeS1apId_keys (s : CorrState) (a j v i : Nat)
    (h : (afind s.subscriber_records i).isSome) :
    (afind (associateMmeUeS1apId s a j v).subscriber_records i).isSome := by
  have h2 := conflictClearMme_keys s j v i h
  simp only [associateMmeUeS1apId]
  repeat' split
  all_goals exact isSome_afind_aset _ _ h2

theorem associateEnbUeS1apId_keys (s : CorrState) (a j v i : Nat)
    (h : (afind s.subscriber_records i).isSome) :
    (afind (associateEnbUeS1apId s a j v).subscriber_records i).isSome := by
  have h2 := conflictClearEnb_keys s j v i h
  simp only [associateEnbUeS1apId]
  repeat' split
  all_goals exact isSome_afind_aset _ _ h2

theorem associateTeid_keys (s : CorrState) (a j v i : Nat)
    (h : (afind s.subscriber_records i).isSome) :
    (afind (associateTeid s a j v).subscriber_records i).isSome := by
  have h2 := conflictClearTeid_keys s j v i h
  simp only [associateTeid]
  split
  · exact h
  · exact isSome_afind_aset _ _ h2

theorem removeImsiAssociation_keys (s : CorrState) (x : String) (i : Nat)
    (h : (afind s.subscriber_records i).isSome) :
    (afind (removeImsiAssociation s x).subscriber_records i).isSome := by
  simp only [removeImsiAssociation]
  repeat' split
  all_goals first | exact h | exact isSome_afind_aset _ _ h

theorem removeTmsiAssociation_keys (s : CorrState) (x : String) (i : Nat)
    (h : (afind s.subscriber_records i).isSome) :
    (afind (removeTmsiAssociation s x).subscriber_records i).isSome := by
  simp only [removeTmsiAssociation]
  repeat' split
  all_goals first | exact h | exact isSome_afind_aset _ _ h

theorem removeImeisvAssociation_keys (s : CorrState) (x : String) (i : Nat)
    (h : (afind s.subscriber_records i).isSome) :
    (afind (removeImeisvAssociation s x).subscriber_records i).isSome := by
  simp only [removeImeisvAssociation]
  repeat' split
  all_goals first | exact h | exact isSome_afind_aset _ _ h

theorem removeEnbUeS1apIdAssociation_keys (s : CorrState) (v : Nat) (i : Nat)
    (h : (afind s.subscriber_records i).isSome) :
    (afind (removeEnbUeS1apIdAssociation s v).subscriber_records i).isSome := by
  simp only [removeEnbUeS1apIdAssociation]
  repeat' split
  all_goals first | exact h | exact isSome_afind_aset _ _ h

theorem removeMmeUeS1apIdAssociation_keys (s : CorrState) (v : Nat) (i : Nat)
    (h : (afind s.subscriber_records i).isSome) :
    (afind (removeMmeUeS1apIdAssociation s v).subscriber_records i).isSome := by
  simp only [removeMmeUeS1apIdAssociation]
  repeat' split
  all_goals first | exact h | exact isSome_afind_aset _ _ h

theorem removeTeidAssociation_keys (s : CorrState) (v : Nat) (i : Nat)
    (h : (afind s.subscriber_records i).isSome) :
    (afind (removeTeidAssociation s v).subscriber_records i).isSome := by
  simp only [removeTeidAssociation]
  repeat' split
  all_goals first | exact h | exact isSome_afind_aset _ _ h

theorem updateSeenTimestamps_keys (s : CorrState) (g : Nat) (ts : ℚ) (i : Nat)
    (h : (afind s.subscriber_records i).isSome) :
    (afind (updateSeenTimestamps s g ts).subscriber_records i).isSome := by
  simp only [updateSeenTimestamps]
  repeat' split
  all_goals first | exact h | exact isSome_afind_aset _ _ h

theorem materialize_keys (s : CorrState) (g : Nat) (i : Nat)
    (h : (afind s.subscriber_records i).isSome) :
    (afind (materialize s g).subscriber_records i).isSome := by
  simp only [materialize]
  repeat' split
  all_goals first | exact h | exact isSome_afind_aset _ _ h

theorem lookupOr0_bound {K : Type} [DecidableEq K] {m : List (K × Nat)} {n : Nat}
    (h : IdxBounded m n) (o : Option K) :
    lookupOr0 m o = 0 ∨ (0 < lookupOr0 m o ∧ lookupOr0 m o < n) := by
  cases o with
  | none => exact Or.inl rfl
  | some x =>
    simp only [lookupOr0]
    cases hf : afind m x with
    | none => exact Or.inl rfl
    | some v => exact Or.inr (h _ (mem_of_afind hf))

theorem pick_bound {a b n : Nat} (ha : a = 0 ∨ (0 < a ∧ a < n))
    (hb : b = 0 ∨ (0 < b ∧ b < n)) : pick a b = 0 ∨ (0 < pick a b ∧ pick a b < n) := by
  simp only [pick]
  split
  · exact hb
  · next h => exact Or.inr (ha.resolve_left h)

theorem bothS1apMatch_bound {s : CorrState} {n : Nat}
    (h : IdxBounded s.mme_ue_s1ap_id_to_subscriber_id n) (mme enb : Option Nat) :
    bothS1apMatch s mme enb = 0 ∨
      (0 < bothS1apMatch s mme enb ∧ bothS1apMatch s mme enb < n) := by
  cases mme with
  | none => exact Or.inl rfl
  | some mv =>
    cases enb with
    | none => exact Or.inl rfl
    | some ev =>
      simp only [bothS1apMatch]
      cases h1 : afind s.mme_ue_s1ap_id_to_subscriber_id mv with
      | none => exact Or.inl rfl
      | some a =>
        cases h2 : afind s.enb_ue_s1ap_id_to_subscriber_id ev with
        | none => exact Or.inl rfl
        | some b =>
          show (if a = b then a else 0) = 0 ∨
            (0 < (if a = b then a else 0) ∧ (if a = b then a else 0) < n)
          by_cases hab : a = b
          · rw [if_pos hab]
            exact Or.inr (h _ (mem_of_afind h1))
          · rw [if_neg hab]
            exact Or.inl rfl

theorem scanByS1apIds_bound (mme enb : Option Nat) {n : Nat} :
    ∀ (l : List (Nat × SubscriberRecord)) (acc : Nat),
      (∀ p ∈ l, 0 < p.1 ∧ p.1 < n) → (acc = 0 ∨ (0 < acc ∧ acc < n)) →
      (scanByS1apIds mme enb l acc = 0 ∨
        (0 < scanByS1apIds mme enb l acc ∧ scanByS1apIds mme enb l acc < n))
  | [], _, _, hacc => hacc
  | (i, r) :: t, acc, hl, hacc => by
    simp only [scanByS1apIds]
    split
    · split
      · exact scanByS1apIds_bound mme enb t i
          (fun p hp => hl p (List.mem_cons_of_mem _ hp))
          (Or.inr (hl (i, r) (List.mem_cons_self _ _)))
      · exact Or.inl rfl
    · exact scanByS1apIds_bound mme enb t acc
        (fun p hp => hl p (List.mem_cons_of_mem _ hp)) hacc

theorem firstStable_bound {n : Nat} :
    ∀ l : List (Nat × SubscriberRecord), (∀ p ∈ l, 0 < p.1 ∧ p.1 < n) →
      (firstStable l = 0 ∨ (0 < firstStable l ∧ firstStable l < n))
  | [], _ => Or.inl rfl
  | (i, r) :: t, hl => by
    simp only [firstStable]
    split
    · exact Or.inr (hl (i, r) (List.mem_cons_self _ _))
    · exact firstStable_bound t (fun p hp => hl p (List.mem_cons_of_mem _ hp))

theorem maxStable_bound {n : Nat} :
    ∀ (l : List (Nat × SubscriberRecord)) (acc : Nat),
      (∀ p ∈ l, 0 < p.1 ∧ p.1 < n) → (acc = 0 ∨ (0 < acc ∧ acc < n)) →
      (maxStable l acc = 0 ∨ (0 < maxStable l acc ∧ maxStable l acc < n))
  | [], _, _, hacc => hacc
  | (i, r) :: t, acc, hl, hacc => by
    simp only [maxStable]
    apply maxStable_bound t _ (fun p hp => hl p (List.mem_cons_of_mem _ hp))
    split
    · exact Or.inr (hl (i, r) (List.mem_cons_self _ _))
    · exact hacc

theorem gocFallback_bound {s : CorrState} (hwf : WFids s) (mme enb : Option Nat) :
    gocFallback s mme enb = 0 ∨
      (0 < gocFallback s mme enb ∧ gocFallback s mme enb < s.next_subscriber_id) := by
  simp only [gocFallback]
  split
  · exact scanByS1apIds_bound mme enb s.subscriber_records 0 hwf.2.1 (Or.inl rfl)
  · split
    · exact firstStable_bound s.subscriber_records hwf.2.1
    · split
      · exact maxStable_bound s.subscriber_records _ hwf.2.1
          (firstStable_bound _ hwf.2.1)
      · exact Or.inl rfl

theorem gocMatch_bound {s : CorrState} (hwf : WFids s) (imsi tmsi : Option String)
    (enb mme teid : Option Nat) (imeisv : Option String) :
    gocMatch s imsi tmsi enb mme teid imeisv = 0 ∨
      (0 < gocMatch s imsi tmsi enb mme teid imeisv ∧
        gocMatch s imsi tmsi enb mme teid imeisv < s.next_subscriber_id) := by
  simp only [gocMatch]
  split
  · exact gocFallback_bound hwf mme enb
  · exact pick_bound (pick_bound (pick_bound (pick_bound (pick_bound (pick_bound
      (lookupOr0_bound hwf.2.2.1 imsi) (lookupOr0_bound hwf.2.2.2.1 tmsi))
      (lookupOr0_bound hwf.2.2.2.2.2.2.2 imeisv))
      (bothS1apMatch_bound hwf.2.2.2.2.2.1 mme enb))
      (lookupOr0_bound hwf.2.2.2.2.2.1 mme))
      (lookupOr0_bound hwf.2.2.2.2.1 enb))
      (lookupOr0_bound hwf.2.2.2.2.2.2.1 teid)

theorem recomputeSubscriberId_eq (s : CorrState) (i t v : Option String)
    (mme enb : Option Nat) :
    recomputeSubscriberId s i t v mme enb =
      pick (pick (pick (pick (lookupOr0 s.imsi_to_subscriber_id i)
        (lookupOr0 s.tmsi_to_subscriber_id t)) (lookupOr0 s.imeisv_to_subscriber_id v))
        (lookupOr0 s.mme_ue_s1ap_id_to_subscriber_id mme))
        (lookupOr0 s.enb_ue_s1ap_id_to_subscriber_id enb) := by
  cases i <;> cases t <;> cases v <;> cases mme <;> cases enb <;> rfl

theorem recomputeSubscriberId_bound {s : CorrState} (hwf : WFids s)
    (i t v : Option String) (mme enb : Option Nat) :
    recomputeSubscriberId s i t v mme enb = 0 ∨
      (0 < recomputeSubscriberId s i t v mme enb ∧
        recomputeSubscriberId s i t v mme enb < s.next_subscriber_id) := by
  rw [recomputeSubscriberId_eq]
  exact pick_bound (pick_bound (pick_bound (pick_bound
    (lookupOr0_bound hwf.2.2.1 i) (lookupOr0_bound hwf.2.2.2.1 t))
    (lookupOr0_bound hwf.2.2.2.2.2.2.2 v))
    (lookupOr0_bound hwf.2.2.2.2.2.1 mme))
    (lookupOr0_bound hwf.2.2.2.2.1 enb)

theorem optStep0_pres {A : Type} (o : Option A) (f : CorrState → A → CorrState)
    {t : CorrState}
    (hf : ∀ x, WFids (f t x) ∧ (f t x).next_subscriber_id = t.next_subscriber_id ∧
      ∀ i, (afind t.subscriber_records i).isSome →
        (afind (f t x).subscriber_records i).isSome)
    (hwf : WFids t) :
    WFids (o.elim t fun x => f t x) ∧
    (o.elim t fun x => f t x).next_subscriber_id = t.next_subscriber_id ∧
    ∀ i, (afind t.subscriber_records i).isSome →
      (afind (o.elim t fun x => f t x).subscriber_records i).isSome := by
  cases o with
  | none => exact ⟨hwf, rfl, fun i h => h⟩
  | some x => exact hf x

theorem gocChain_pres (imsi tmsi : Option String) (enb mme teid : Option Nat)
    (imeisv : Option String) {t : CorrState} {g : Nat} (hwf : WFids t)
    (hg : 0 < g ∧ g < t.next_subscriber_id) :
    WFids (gocChain t g imsi tmsi enb mme teid imeisv) ∧
    (gocChain t g imsi tmsi enb mme teid imeisv).next_subscriber_id =
      t.next_subscriber_id ∧
    ∀ i, (afind t.subscriber_records i).isSome →
      (afind (gocChain t g imsi tmsi enb mme teid imeisv).subscriber_records i).isSome := by
  obtain ⟨w2, n2, k2⟩ := optStep0_pres imsi (fun a x => associateImsi a g g x)
    (fun x => ⟨associateImsi_WF hwf hg hg x, (associateImsi_proj t g g x).2.2.2.2.2,
      fun i h => associateImsi_keys t g g x i h⟩) hwf
  obtain ⟨w3, n3, k3⟩ := optStep0_pres tmsi (fun a x => associateTmsi a g g x)
    (fun x => ⟨associateTmsi_WF w2 (n2.symm ▸ hg) (n2.symm ▸ hg) x,
      (associateTmsi_proj _ g g x).2.2.2.2.2,
      fun i h => associateTmsi_keys _ g g x i h⟩) w2
  obtain ⟨w4, n4, k4⟩ := optStep0_pres enb (fun a v => associateEnbUeS1apId a g g v)
    (fun v => ⟨associateEnbUeS1apId_WF w3 (n3.symm ▸ (n2.symm ▸ hg))
        (n3.symm ▸ (n2.symm ▸ hg)) v,
      (associateEnbUeS1apId_proj _ g g v).2.2.2.2.2,
      fun i h => associateEnbUeS1apId_keys _ g g v i h⟩) w3
  obtain ⟨w5, n5, k5⟩ := optStep0_pres mme (fun a v => associateMmeUeS1apId a g g v)
    (fun v => ⟨associateMmeUeS1apId_WF w4 (n4.symm ▸ (n3.symm ▸ (n2.symm ▸ hg)))
        (n4.symm ▸ (n3.symm ▸ (n2.symm ▸ hg))) v,
      (associateMmeUeS1apId_proj _ g g v).2.2.2.2.2,
      fun i h => associateMmeUeS1apId_keys _ g g v i h⟩) w4
  obtain ⟨w6, n6, k6⟩ := optStep0_pres teid (fun a v => associateTeid a g g v)
    (fun v => ⟨associateTeid_WF w5 (n5.symm ▸ (n4.symm ▸ (n3.symm ▸ (n2.symm ▸ hg))))
        (n5.symm ▸ (n4.symm ▸ (n3.symm ▸ (n2.symm ▸ hg)))) v,
      (associateTeid_proj _ g g v).2.2.2.2.2,
      fun i h => associateTeid_keys _ g g v i h⟩) w5
  obtain ⟨w7, n7, k7⟩ := optStep0_pres imeisv (fun a x => associateImeisv a g g x)
    (fun x => ⟨associateImeisv_WF w6
        (n6.symm ▸ (n5.symm ▸ (n4.symm ▸ (n3.symm ▸ (n2.symm ▸ hg)))))
        (n6.symm ▸ (n5.symm ▸ (n4.symm ▸ (n3.symm ▸ (n2.symm ▸ hg))))) x,
      (associateImeisv_proj _ g g x).2.2.2.2.2,
      fun i h => associateImeisv_keys _ g g x i h⟩) w6
  simp only [gocChain]
  exact ⟨w7, n7.trans (n6.trans (n5.trans (n4.trans (n3.trans n2)))),
    fun i h => k7 i (k6 i (k5 i (k4 i (k3 i (k2 i h)))))⟩

theorem foldlTeid_WF {g sid : Nat} :
    ∀ (l : List Nat) (t : CorrState), WFids t →
      (0 < g ∧ g < t.next_subscriber_id) → (0 < sid ∧ sid < t.next_subscriber_id) →
      WFids (l.foldl (fun st v => associateTeid st g sid v) t) ∧
      (l.foldl (fun st v => associateTeid st g sid v) t).next_subscriber_id =
        t.next_subscriber_id ∧
      ∀ i, (afind t.subscriber_records i).isSome →
        (afind (l.foldl (fun st v => associateTeid st g sid v) t).subscriber_records
          i).isSome
  | [], t, hwf, _, _ => ⟨hwf, rfl, fun i h => h⟩
  | v :: l, t, hwf, hg, hs => by
    simp only [List.foldl]
    obtain ⟨w, n, k⟩ := foldlTeid_WF l (associateTeid t g sid v)
      (associateTeid_WF hwf hg hs v)
      (((associateTeid_proj t g sid v).2.2.2.2.2).symm ▸ hg)
      (((associateTeid_proj t g sid v).2.2.2.2.2).symm ▸ hs)
    exact ⟨w, n.trans (associateTeid_proj t g sid v).2.2.2.2.2,
      fun i h => k i (associateTeid_keys t g sid v i h)⟩

theorem assocIds_pres (mme enb : Option Nat) (teids : List Nat) {t : CorrState}
    {g sid : Nat} (hwf : WFids t) (hg : 0 < g ∧ g < t.next_subscriber_id)
    (hs : 0 < sid ∧ sid < t.next_subscriber_id) :
    WFids (assocIds t g sid mme enb teids) ∧
    (assocIds t g sid mme enb teids).next_subscriber_id = t.next_subscriber_id ∧
    ∀ i, (afind t.subscriber_records i).isSome →
      (afind (assocIds t g sid mme enb teids).subscriber_records i).isSome := by
  obtain ⟨wa, na, ka⟩ := optStep0_pres mme (fun a y => associateMmeUeS1apId a g sid y)
    (fun y => ⟨associateMmeUeS1apId_WF hwf hg hs y,
      (associateMmeUeS1apId_proj t g sid y).2.2.2.2.2,
      fun i h => associateMmeUeS1apId_keys t g sid y i h⟩) hwf
  obtain ⟨wb, nb, kb⟩ := optStep0_pres enb (fun a z => associateEnbUeS1apId a g sid z)
    (fun z => ⟨associateEnbUeS1apId_WF wa (na.symm ▸ hg) (na.symm ▸ hs) z,
      (associateEnbUeS1apId_proj _ g sid z).2.2.2.2.2,
      fun i h => associateEnbUeS1apId_keys _ g sid z i h⟩) wa
  obtain ⟨wc, nc, kc⟩ := foldlTeid_WF teids _ wb
    (nb.symm ▸ (na.symm ▸ hg)) (nb.symm ▸ (na.symm ▸ hs))
  simp only [assocIds]
  exact ⟨wc, nc.trans (nb.trans na), fun i h => kc i (kb i (ka i h))⟩

theorem releaseStep_pres (f : Frame) {t : CorrState} (hwf : WFids t) :
    WFids (releaseStep t f) ∧
    (releaseStep t f).next_subscriber_id = t.next_subscriber_id ∧
    ∀ i, (afind t.subscriber_records i).isSome →
      (afind (releaseStep t f).subscriber_records i).isSome := by
  obtain ⟨wr, nr, kr⟩ := optStep0_pres f.mme_id
    (fun a y => removeMmeUeS1apIdAssociation a y)
    (fun y => ⟨removeMmeUeS1apIdAssociation_WF hwf y,
      (removeMmeUeS1apIdAssociation_proj t y).2.2.2.2.2,
      fun i h => removeMmeUeS1apIdAssociation_keys t y i h⟩) hwf
  obtain ⟨we, ne2, ke⟩ := optStep0_pres f.enb_id
    (fun a z => removeEnbUeS1apIdAssociation a z)
    (fun z => ⟨removeEnbUeS1apIdAssociation_WF wr z,
      (removeEnbUeS1apIdAssociation_proj _ z).2.2.2.2.2,
      fun i h => removeEnbUeS1apIdAssociation_keys _ z i h⟩) wr
  simp only [releaseStep]
  split
  · exact ⟨we, ne2.trans nr, fun i h => ke i (kr i h)⟩
  · exact ⟨hwf, rfl, fun i h => h⟩

theorem goc_eq_create (s : CorrState) (imsi tmsi : Option String)
    (enb mme teid : Option Nat) (imeisv : Option String)
    (h0 : gocMatch s imsi tmsi enb mme teid imeisv = 0) :
    getOrCreateSubscriber s imsi tmsi enb mme teid imeisv =
      (gocChain ({ s with
          subscriber_records := aset s.subscriber_records s.next_subscriber_id ({})
          next_subscriber_id := s.next_subscriber_id + 1 })
        s.next_subscriber_id imsi tmsi enb mme teid imeisv,
       s.next_subscriber_id) := by
  simp only [getOrCreateSubscriber, gocChain, h0, if_true]
  cases imsi <;> cases tmsi <;> cases enb <;> cases mme <;> cases teid <;>
    cases imeisv <;> rfl

theorem goc_eq_found (s : CorrState) (imsi tmsi : Option String)
    (enb mme teid : Option Nat) (imeisv : Option String) {sid : Nat}
    (h0 : gocMatch s imsi tmsi enb mme teid imeisv = sid) (hsid : sid ≠ 0) :
    getOrCreateSubscriber s imsi tmsi enb mme teid imeisv =
      (gocChain (materialize s sid) sid imsi tmsi enb mme teid imeisv, sid) := by
  simp only [getOrCreateSubscriber, gocChain, h0]
  rw [if_neg hsid]
  cases imsi <;> cases tmsi <;> cases enb <;> cases mme <;> cases teid <;>
    cases imeisv <;> rfl

theorem processS1apFrame_eq (s : CorrState) (f : Frame) (ts : ℚ) :
    processS1apFrame s f ts =
      (if (f.imsis.head?.map normalizeImsi).isSome ∨
          (f.tmsis.head?.map normalizeTmsi).isSome ∨
          (f.imeisvs.head?.map normalizeImeisv).isSome ∨
          f.mme_id.isSome ∨ f.enb_id.isSome then
        (releaseStep
          (updateSeenTimestamps
            (if recomputeSubscriberId
                (getOrCreateSubscriber s (f.imsis.head?.map normalizeImsi)
                  (f.tmsis.head?.map normalizeTmsi) f.enb_id f.mme_id none
                  (f.imeisvs.head?.map normalizeImeisv)).1
                (f.imsis.head?.map normalizeImsi) (f.tmsis.head?.map normalizeTmsi)
                (f.imeisvs.head?.map normalizeImeisv) f.mme_id f.enb_id ≠ 0 then
              assocIds
                (getOrCreateSubscriber s (f.imsis.head?.map normalizeImsi)
                  (f.tmsis.head?.map normalizeTmsi) f.enb_id f.mme_id none
                  (f.imeisvs.head?.map normalizeImeisv)).1
                (getOrCreateSubscriber s (f.imsis.head?.map normalizeImsi)
                  (f.tmsis.head?.map normalizeTmsi) f.enb_id f.mme_id none
                  (f.imeisvs.head?.map normalizeImeisv)).2
                (recomputeSubscriberId
                  (getOrCreateSubscriber s (f.imsis.head?.map normalizeImsi)
                    (f.tmsis.head?.map normalizeTmsi) f.enb_id f.mme_id none
                    (f.imeisvs.head?.map normalizeImeisv)).1
                  (f.imsis.head?.map normalizeImsi) (f.tmsis.head?.map normalizeTmsi)
                  (f.imeisvs.head?.map normalizeImeisv) f.mme_id f.enb_id)
                f.mme_id f.enb_id f.teids
            else
              (getOrCreateSubscriber s (f.imsis.head?.map normalizeImsi)
                (f.tmsis.head?.map normalizeTmsi) f.enb_id f.mme_id none
                (f.imeisvs.head?.map normalizeImeisv)).1)
            (getOrCreateSubscriber s (f.imsis.head?.map normalizeImsi)
              (f.tmsis.head?.map normalizeTmsi) f.enb_id f.mme_id none
              (f.imeisvs.head?.map normalizeImeisv)).2 ts)
          f,
         (getOrCreateSubscriber s (f.imsis.head?.map normalizeImsi)
           (f.tmsis.head?.map normalizeTmsi) f.enb_id f.mme_id none
           (f.imeisvs.head?.map normalizeImeisv)).2)
      else (s, 0)) := by
  rcases f with ⟨pc, pt, imsis, tmsis, imeisvs, mme, enb, teids⟩
  cases mme <;> cases enb <;> rfl

theorem condAssoc_pres {t : CorrState} {g : Nat} (sid : Nat) (mme enb : Option Nat)
    (teids : List Nat) (hwf : WFids t) (hg : 0 < g ∧ g < t.next_subscriber_id)
    (hs : sid = 0 ∨ (0 < sid ∧ sid < t.next_subscriber_id)) :
    WFids (if sid ≠ 0 then assocIds t g sid mme enb teids else t) ∧
    (if sid ≠ 0 then assocIds t g sid mme enb teids else t).next_subscriber_id =
      t.next_subscriber_id ∧
    ∀ i, (afind t.subscriber_records i).isSome →
      (afind (if sid ≠ 0 then assocIds t g sid mme enb teids
        else t).subscriber_records i).isSome := by
  split
  · next h => exact assocIds_pres mme enb teids hwf hg (hs.resolve_left h)
  · exact ⟨hwf, rfl, fun i h2 => h2⟩

theorem getOrCreateSubscriber_WF (s : CorrState) (imsi tmsi : Option String)
    (enb mme teid : Option Nat) (imeisv : Option String) (hwf : WFids s) :
    WFids (getOrCreateSubscriber s imsi tmsi enb mme teid imeisv).1 ∧
    s.next_subscriber_id ≤
      (getOrCreateSubscriber s imsi tmsi enb mme teid imeisv).1.next_subscriber_id ∧
    (0 < (getOrCreateSubscriber s imsi tmsi enb mme teid imeisv).2 ∧
      (getOrCreateSubscriber s imsi tmsi enb mme teid imeisv).2 <
        (getOrCreateSubscriber s imsi tmsi enb mme teid imeisv).1.next_subscriber_id) ∧
    ∀ i, (afind s.subscriber_records i).isSome →
      (afind (getOrCreateSubscriber s imsi tmsi enb mme teid
        imeisv).1.subscriber_records i).isSome := by
  by_cases h0 : gocMatch s imsi tmsi enb mme teid imeisv = 0
  · rw [goc_eq_create s imsi tmsi enb mme teid imeisv h0]
    have hwfB : WFids ({ s with
        subscriber_records := aset s.subscriber_records s.next_subscriber_id ({})
        next_subscriber_id := s.next_subscriber_id + 1 }) := by
      obtain ⟨h1, h2, h3, h4, h5, h6, h7, h8⟩ := hwf
      exact ⟨Nat.succ_pos _,
        keys_aset (keys_mono h2 (Nat.le_succ _)) ⟨h1, Nat.lt_succ_self _⟩ _,
        IdxBounded_mono h3 (Nat.le_succ _), IdxBounded_mono h4 (Nat.le_succ _),
        IdxBounded_mono h5 (Nat.le_succ _), IdxBounded_mono h6 (Nat.le_succ _),
        IdxBounded_mono h7 (Nat.le_succ _), IdxBounded_mono h8 (Nat.le_succ _)⟩
    obtain ⟨w, n, k⟩ := gocChain_pres imsi tmsi enb mme teid imeisv hwfB
      ⟨hwf.1, Nat.lt_succ_self _⟩
    refine ⟨w, ?_, ?_, ?_⟩
    · rw [n]
      exact Nat.le_succ _
    · rw [n]
      exact ⟨hwf.1, Nat.lt_succ_self _⟩
    · intro i h
      exact k i (isSome_afind_aset _ _ h)
  · have hb := (gocMatch_bound hwf imsi tmsi enb mme teid imeisv).resolve_left h0
    rw [goc_eq_found s imsi tmsi enb mme teid imeisv rfl h0]
    have hwfM := materialize_WF hwf hb
    have hnM :=
      (materialize_proj s (gocMatch s imsi tmsi enb mme teid imeisv)).2.2.2.2.2.2
    obtain ⟨w, n, k⟩ := gocChain_pres imsi tmsi enb mme teid imeisv hwfM (hnM.symm ▸ hb)
    refine ⟨w, ?_, ?_, ?_⟩
    · rw [n, hnM]
    · rw [n, hnM]
      exact hb
    · intro i h
      exact k i (materialize_keys s _ i h)

theorem processS1apFrame_WF (s : CorrState) (f : Frame) (ts : ℚ) (hwf : WFids s) :
    WFids (processS1apFrame s f ts).1 ∧
    s.next_subscriber_id ≤ (processS1apFrame s f ts).1.next_subscriber_id ∧
    ∀ i, (afind s.subscriber_records i).isSome →
      (afind (processS1apFrame s f ts).1.subscriber_records i).isSome := by
  rw [processS1apFrame_eq]
  set iN := f.imsis.head?.map normalizeImsi with hiN
  set tN := f.tmsis.head?.map normalizeTmsi with htN
  set vN := f.imeisvs.head?.map normalizeImeisv with hvN
  set G := getOrCreateSubscriber s iN tN f.enb_id f.mme_id none vN with hG
  set SID := recomputeSubscriberId G.1 iN tN vN f.mme_id f.enb_id with hSID
  split
  · obtain ⟨wG, nG, bG, kG⟩ := getOrCreateSubscriber_WF s iN tN f.enb_id f.mme_id none
      vN hwf
    obtain ⟨w2, n2, k2⟩ := condAssoc_pres SID f.mme_id f.enb_id f.teids wG bG
      (recomputeSubscriberId_bound wG iN tN vN f.mme_id f.enb_id)
    have w3 := updateSeenTimestamps_WF w2 (n2.symm ▸ bG) ts
    have n3 := (updateSeenTimestamps_proj
      (if SID ≠ 0 then assocIds G.1 G.2 SID f.mme_id f.enb_id f.teids else G.1)
      G.2 ts).2.2.2.2.2.2
    obtain ⟨wR, nR, kR⟩ := releaseStep_pres f w3
    refine ⟨wR, ?_, ?_⟩
    · rw [nR, n3, n2]
      exact nG
    · intro i h
      exact kR i (updateSeenTimestamps_keys _ G.2 ts i (k2 i (kG i h)))
  · exact ⟨hwf, le_rfl, fun i h => h⟩

theorem key_bound_of_isSome {s : CorrState} (hwf : WFids s) {i : Nat}
    (h : (afind s.subscriber_records i).isSome) :
    0 < i ∧ i < s.next_subscriber_id := by
  cases hfind : afind s.subscriber_records i with
  | none =>
    rw [hfind] at h
    simp at h
  | some r => exact hwf.2.1 _ (mem_of_afind hfind)

theorem removeImsiAssociation_next (s : CorrState) (x : String) :
    (removeImsiAssociation s x).next_subscriber_id = s.next_subscriber_id := by
  simp only [removeImsiAssociation]
  repeat' split
  all_goals rfl

theorem removeTmsiAssociation_next (s : CorrState) (x : String) :
    (removeTmsiAssociation s x).next_subscriber_id = s.next_subscriber_id := by
  simp only [removeTmsiAssociation]
  repeat' split
  all_goals rfl

theorem removeImeisvAssociation_next (s : CorrState) (x : String) :
    (removeImeisvAssociation s x).next_subscriber_id = s.next_subscriber_id := by
  simp only [removeImeisvAssociation]
  repeat' split
  all_goals rfl

theorem removeTeidAssociation_next (s : CorrState) (v : Nat) :
    (removeTeidAssociation s v).next_subscriber_id = s.next_subscriber_id := by
  simp only [removeTeidAssociation]
  repeat' split
  all_goals rfl

theorem applyCorrOp_WF (op : CorrOp) (s : CorrState) (hwf : WFids s) :
    WFids (applyCorrOp op s) ∧
    s.next_subscriber_id ≤ (applyCorrOp op s).next_subscriber_id ∧
    ∀ i, (afind s.subscriber_records i).isSome →
      (afind (applyCorrOp op s).subscriber_records i).isSome := by
  cases op with
  | getOrCreate imsi tmsi enb mme teid imeisv =>
    obtain ⟨w, n, _, k⟩ := getOrCreateSubscriber_WF s imsi tmsi enb mme teid imeisv hwf
    exact ⟨w, n, k⟩
  | assocImsi i x =>
    simp only [applyCorrOp]
    split
    · next h =>
      have hb := key_bound_of_isSome hwf h
      exact ⟨associateImsi_WF hwf hb hb x,
        le_of_eq ((associateImsi_proj s i i x).2.2.2.2.2).symm,
        fun j hj => associateImsi_keys s i i x j hj⟩
    · exact ⟨hwf, le_rfl, fun j hj => hj⟩
  | assocTmsi i x =>
    simp only [applyCorrOp]
    split
    · next h =>
      have hb := key_bound_of_isSome hwf h
      exact ⟨associateTmsi_WF hwf hb hb x,
        le_of_eq ((associateTmsi_proj s i i x).2.2.2.2.2).symm,
        fun j hj => associateTmsi_keys s i i x j hj⟩
    · exact ⟨hwf, le_rfl, fun j hj => hj⟩
  | assocImeisv i x =>
    simp only [applyCorrOp]
    split
    · next h =>
      have hb := key_bound_of_isSome hwf h
      exact ⟨associateImeisv_WF hwf hb hb x,
        le_of_eq ((associateImeisv_proj s i i x).2.2.2.2.2).symm,
        fun j hj => associateImeisv_keys s i i x j hj⟩
    · exact ⟨hwf, le_rfl, fun j hj => hj⟩
  | assocEnb i v =>
    simp only [applyCorrOp]
    split
    · next h =>
      have hb := key_bound_of_isSome hwf h
      exact ⟨associateEnbUeS1apId_WF hwf hb hb v,
        le_of_eq ((associateEnbUeS1apId_proj s i i v).2.2.2.2.2).symm,
        fun j hj => associateEnbUeS1apId_keys s i i v j hj⟩
    · exact ⟨hwf, le_rfl, fun j hj => hj⟩
  | assocMme i v =>
    simp only [applyCorrOp]
    split
    · next h =>
      have hb := key_bound_of_isSome hwf h
      exact ⟨associateMmeUeS1apId_WF hwf hb hb v,
        le_of_eq ((associateMmeUeS1apId_proj s i i v).2.2.2.2.2).symm,
        fun j hj => associateMmeUeS1apId_keys s i i v j hj⟩
    · exact ⟨hwf, le_rfl, fun j hj => hj⟩
  | assocTeid i v =>
    simp only [applyCorrOp]
    split
    · next h =>
      have hb := key_bound_of_isSome hwf h
      exact ⟨associateTeid_WF hwf hb hb v,
        le_of_eq ((associateTeid_proj s i i v).2.2.2.2.2).symm,
        fun j hj => associateTeid_keys s i i v j hj⟩
    · exact ⟨hwf, le_rfl, fun j hj => hj⟩
  | removeImsi x =>
    exact ⟨removeImsiAssociation_WF hwf x,
      le_of_eq (removeImsiAssociation_next s x).symm,
      fun j hj => removeImsiAssociation_keys s x j hj⟩
  | removeTmsi x =>
    exact ⟨removeTmsiAssociation_WF hwf x,
      le_of_eq (removeTmsiAssociation_next s x).symm,
      fun j hj => removeTmsiAssociation_keys s x j hj⟩
  | removeImeisv x =>
    exact ⟨removeImeisvAssociation_WF hwf x,
      le_of_eq (removeImeisvAssociation_next s x).symm,
      fun j hj => removeImeisvAssociation_keys s x j hj⟩
  | removeEnb v =>
    exact ⟨removeEnbUeS1apIdAssociation_WF hwf v,
      le_of_eq ((removeEnbUeS1apIdAssociation_proj s v).2.2.2.2.2).symm,
      fun j hj => removeEnbUeS1apIdAssociation_keys s v j hj⟩
  | removeMme v =>
    exact ⟨removeMmeUeS1apIdAssociation_WF hwf v,
      le_of_eq ((removeMmeUeS1apIdAssociation_proj s v).2.2.2.2.2).symm,
      fun j hj => removeMmeUeS1apIdAssociation_keys s v j hj⟩
  | removeTeid v =>
    exact ⟨removeTeidAssociation_WF hwf v,
      le_of_eq (removeTeidAssociation_next s v).symm,
      fun j hj => removeTeidAssociation_keys s v j hj⟩
  | processFrame f ts =>
    exact processS1apFrame_WF s f ts hwf

theorem applyCorrOps_WF : ∀ (ops : List CorrOp) (s : CorrState), WFids s →
    WFids (applyCorrOps ops s) ∧
    s.next_subscriber_id ≤ (applyCorrOps ops s).next_subscriber_id ∧
    ∀ i, (afind s.subscriber_records i).isSome →
      (afind (applyCorrOps ops s).subscriber_records i).isSome
  | [], _, hwf => ⟨hwf, le_rfl, fun _ h => h⟩
  | op :: ops, s, hwf => by
    simp only [applyCorrOps, List.foldl]
    obtain ⟨w1, n1, k1⟩ := applyCorrOp_WF op s hwf
    obtain ⟨w, n, k⟩ := applyCorrOps_WF ops (applyCorrOp op s) w1
    exact ⟨w, le_trans n1 n, fun i h => k i (k1 i h)⟩

/-- C10: no subscriber-store operation deletes a record.  Over any sequence of
store operations from a well-formed state, every record id present at the
start is still present at the end, the id counter never decreases, and
id-well-formedness (counter positive, every record key and index value
strictly between 0 and the counter — ids are handed out strictly increasing
from 1 and never reused) is preserved. -/
theorem c10_records_never_deleted (ops : List CorrOp) (s : CorrState) (hwf : WFids s) :
    (∀ i, (afind s.subscriber_records i).isSome →
      (afind (applyCorrOps ops s).subscriber_records i).isSome) ∧
    s.next_subscriber_id ≤ (applyCorrOps ops s).next_subscriber_id ∧
    WFids (applyCorrOps ops s) :=
  ⟨(applyCorrOps_WF ops s hwf).2.2, (applyCorrOps_WF ops s hwf).2.1,
    (applyCorrOps_WF ops s hwf).1⟩

/-- Witness for C10 on a run that creates a subscriber, strips its IMSI
association and processes a release frame. -/
theorem c10_records_never_deleted_witness :
    (∀ i, (afind corrInit.subscriber_records i).isSome →
      (afind (applyCorrOps
        [CorrOp.getOrCreate (some "1234") none none (some 7) none none,
         CorrOp.removeImsi "1234",
         CorrOp.processFrame ⟨23, S1apPduType.successfulOutcome, [], [], [],
           some 7, none, []⟩ 2] corrInit).subscriber_records i).isSome) ∧
    corrInit.next_subscriber_id ≤ (applyCorrOps
        [CorrOp.getOrCreate (some "1234") none none (some 7) none none,
         CorrOp.removeImsi "1234",
         CorrOp.processFrame ⟨23, S1apPduType.successfulOutcome, [], [], [],
           some 7, none, []⟩ 2] corrInit).next_subscriber_id ∧
    WFids (applyCorrOps
        [CorrOp.getOrCreate (some "1234") none none (some 7) none none,
         CorrOp.removeImsi "1234",
         CorrOp.processFrame ⟨23, S1apPduType.successfulOutcome, [], [], [],
           some 7, none, []⟩ 2] corrInit) :=
  c10_records_never_deleted
    [CorrOp.getOrCreate (some "1234") none none (some 7) none none,
     CorrOp.removeImsi "1234",
     CorrOp.processFrame ⟨23, S1apPduType.successfulOutcome, [], [], [],
       some 7, none, []⟩ 2] corrInit
    (by unfold WFids IdxBounded corrInit; decide)

theorem records_zero_none {s : CorrState} (hwf : WFids s) :
    afind s.subscriber_records 0 = none := by
  cases h : afind s.subscriber_records 0 with
  | none => rfl
  | some r => exact absurd (hwf.2.1 _ (mem_of_afind h)).1 (lt_irrefl 0)

theorem conflictClearMme_records (s : CorrState) (j v a : Nat) :
    (afind (conflictClearMme s j v).subscriber_records a = afind s.subscriber_records a ∧
      ¬(afind s.mme_ue_s1ap_id_to_subscriber_id v = some a ∧ a ≠ j ∧
        (afind s.subscriber_records a).isSome)) ∨
    (∃ o, afind s.subscriber_records a = some o ∧
      afind s.mme_ue_s1ap_id_to_subscriber_id v = some a ∧ a ≠ j ∧
      afind (conflictClearMme s j v).subscriber_records a =
        some ({ o with mme_ue_s1ap_id := none })) := by
  simp only [conflictClearMme]
  split
  · next other heq =>
    split
    · next hne =>
      split
      · next o ho =>
        by_cases ha : a = other
        · subst ha
          exact Or.inr ⟨o, ho, heq, hne, by simp [afind_aset_self]⟩
        · refine Or.inl ⟨by simp [afind_aset_of_ne _ _ ha], ?_⟩
          rintro ⟨hv, _, _⟩
          rw [heq] at hv
          exact ha (Option.some.inj hv).symm
      · next ho =>
        refine Or.inl ⟨rfl, ?_⟩
        rintro ⟨hv, _, hs⟩
        rw [heq] at hv
        have ha : a = other := (Option.some.inj hv).symm
        subst ha
        rw [ho] at hs
        simp at hs
    · next hne =>
      refine Or.inl ⟨rfl, ?_⟩
      rintro ⟨hv, haj, _⟩
      rw [heq] at hv
      have ha : a = other := (Option.some.inj hv).symm
      subst ha
      push_neg at hne
      exact haj hne
  · next heq =>
    refine Or.inl ⟨rfl, ?_⟩
    rintro ⟨hv, _, _⟩
    rw [heq] at hv
    exact Option.noConfusion hv

theorem associateMmeUeS1apId_records (s : CorrState) (i v a : Nat) :
    (a = i ∧ afind (associateMmeUeS1apId s i i v).subscriber_records a =
      some ({ getRecord s i with mme_ue_s1ap_id := some v })) ∨
    (a ≠ i ∧ afind (associateMmeUeS1apId s i i v).subscriber_records a =
      afind (conflictClearMme s i v).subscriber_records a) := by
  by_cases ha : a = i
  · subst ha
    left
    refine ⟨rfl, ?_⟩
    simp only [associateMmeUeS1apId]
    rw [conflictClearMme_getRecord_self]
    repeat' split
    all_goals simp [afind_aset_self]
  · right
    refine ⟨ha, ?_⟩
    simp only [associateMmeUeS1apId]
    repeat' split
    all_goals simp [afind_aset_of_ne _ _ ha]

theorem associateMmeUeS1apId_idx (s : CorrState) (i v y : Nat) :
    afind (associateMmeUeS1apId s i i v).mme_ue_s1ap_id_to_subscriber_id y =
      if y = v then some i
      else if (getRecord s i).mme_ue_s1ap_id = some y then none
      else afind s.mme_ue_s1ap_id_to_subscriber_id y := by
  by_cases hyv : y = v
  · rw [if_pos hyv, hyv]
    exact associateMmeUeS1apId_idx_self s i i v
  · rw [if_neg hyv]
    simp only [associateMmeUeS1apId]
    rw [conflictClearMme_getRecord_self]
    have hcc := (conflictClearMme_proj s i v).2.2.2.1
    split
    · next old hold =>
      split
      · next hov =>
        rw [hcc, afind_aset_of_ne _ _ hyv, hold]
        by_cases hyo : y = old
        · subst hyo
          rw [afind_aerase_self, if_pos rfl]
        · rw [afind_aerase_of_ne _ hyo,
            if_neg (fun hc => hyo (Option.some.inj hc).symm)]
      · next hov =>
        push_neg at hov
        rw [hcc, afind_aset_of_ne _ _ hyv, hold,
          if_neg (fun hc => hyv ((Option.some.inj hc).symm.trans hov))]
    · next hold =>
      rw [hcc, afind_aset_of_ne _ _ hyv, hold,
        if_neg (fun hc => Option.noConfusion hc)]

theorem associateMmeUeS1apId_FieldIdxOk {s : CorrState} (hfi : FieldIdxOk s)
    (i v : Nat) : FieldIdxOk (associateMmeUeS1apId s i i v) := by
  intro a r' hr'
  have hpe := (associateMmeUeS1apId_proj s i i v).2.2.1
  have hpt := (associateMmeUeS1apId_proj s i i v).2.2.2.1
  rcases associateMmeUeS1apId_records s i v a with ⟨ha, heq⟩ | ⟨ha, heq⟩
  · subst ha
    rw [heq] at hr'
    have hr2 := (Option.some.inj hr').symm
    refine ⟨fun y hy => ?_, fun z hz => ?_, fun u hu => ?_⟩
    · rw [hr2] at hy
      have hvy : v = y := Option.some.inj hy
      rw [associateMmeUeS1apId_idx, if_pos hvy.symm]
    · rw [hr2] at hz
      rw [hpe]
      cases hrec : afind s.subscriber_records a with
      | none =>
        rw [show getRecord s a = ({} : SubscriberRecord) from by
          simp [getRecord, hrec]] at hz
        simp at hz
      | some r0 =>
        rw [getRecord_eq_of_afind hrec] at hz
        exact (hfi a r0 hrec).2.1 z hz
    · rw [hr2] at hu
      rw [hpt]
      cases hrec : afind s.subscriber_records a with
      | none =>
        rw [show getRecord s a = ({} : SubscriberRecord) from by
          simp [getRecord, hrec]] at hu
        simp at hu
      | some r0 =>
        rw [getRecord_eq_of_afind hrec] at hu
        exact (hfi a r0 hrec).2.2 u hu
  · rw [heq] at hr'
    rcases conflictClearMme_records s i v a with ⟨hun, hnc⟩ | ⟨o, ho, hidxv, haj, hcl⟩
    · rw [hun] at hr'
      refine ⟨fun y hy => ?_, fun z hz => ?_, fun u hu => ?_⟩
      · have hay := (hfi a r' hr').1 y hy
        rw [associateMmeUeS1apId_idx]
        by_cases hyv : y = v
        · exact absurd ⟨hyv ▸ hay, ha, by rw [hr']; rfl⟩ hnc
        · rw [if_neg hyv]
          by_cases hgi : (getRecord s i).mme_ue_s1ap_id = some y
          · exfalso
            cases hreci : afind s.subscriber_records i with
            | none =>
              rw [show getRecord s i = ({} : SubscriberRecord) from by
                simp [getRecord, hreci]] at hgi
              exact Option.noConfusion hgi
            | some r0 =>
              rw [getRecord_eq_of_afind hreci] at hgi
              have hyi := (hfi i r0 hreci).1 y hgi
              rw [hay] at hyi
              exact ha (Option.some.inj hyi)
          · rw [if_neg hgi]
            exact hay
      · rw [hpe]
        exact (hfi a r' hr').2.1 z hz
      · rw [hpt]
        exact (hfi a r' hr').2.2 u hu
    · rw [hcl] at hr'
      have hro := (Option.some.inj hr').symm
      refine ⟨fun y hy => ?_, fun z hz => ?_, fun u hu => ?_⟩
      · rw [hro] at hy
        simp at hy
      · rw [hro] at hz
        rw [hpe]
        exact (hfi a o ho).2.1 z hz
      · rw [hro] at hu
        rw [hpt]
        exact (hfi a o ho).2.2 u hu

theorem conflictClearEnb_records (s : CorrState) (j v a : Nat) :
    (afind (conflictClearEnb s j v).subscriber_records a = afind s.subscriber_records a ∧
      ¬(afind s.enb_ue_s1ap_id_to_subscriber_id v = some a ∧ a ≠ j ∧
        (afind s.subscriber_records a).isSome)) ∨
    (∃ o, afind s.subscriber_records a = some o ∧
      afind s.enb_ue_s1ap_id_to_subscriber_id v = some a ∧ a ≠ j ∧
      afind (conflictClearEnb s j v).subscriber_records a =
        some ({ o with enb_ue_s1ap_id := none })) := by
  simp only [conflictClearEnb]
  split
  · next other heq =>
    split
    · next hne =>
      split
      · next o ho =>
        by_cases ha : a = other
        · subst ha
          exact Or.inr ⟨o, ho, heq, hne, by simp [afind_aset_self]⟩
        · refine Or.inl ⟨by simp [afind_aset_of_ne _ _ ha], ?_⟩
          rintro ⟨hv, _, _⟩
          rw [heq] at hv
          exact ha (Option.some.inj hv).symm
      · next ho =>
        refine Or.inl ⟨rfl, ?_⟩
        rintro ⟨hv, _, hs⟩
        rw [heq] at hv
        have ha : a = other := (Option.some.inj hv).symm
        subst ha
        rw [ho] at hs
        simp at hs
    · next hne =>
      refine Or.inl ⟨rfl, ?_⟩
      rintro ⟨hv, haj, _⟩
      rw [heq] at hv
      have ha : a = other := (Option.some.inj hv).symm
      subst ha
      push_neg at hne
      exact haj hne
  · next heq =>
    refine Or.inl ⟨rfl, ?_⟩
    rintro ⟨hv, _, _⟩
    rw [heq] at hv
    exact Option.noConfusion hv

theorem associateEnbUeS1apId_records (s : CorrState) (i v a : Nat) :
    (a = i ∧ afind (associateEnbUeS1apId s i i v).subscriber_records a =
      some ({ getRecord s i with enb_ue_s1ap_id := some v })) ∨
    (a ≠ i ∧ afind (associateEnbUeS1apId s i i v).subscriber_records a =
      afind (conflictClearEnb s i v).subscriber_records a) := by
  by_cases ha : a = i
  · subst ha
    left
    refine ⟨rfl, ?_⟩
    simp only [associateEnbUeS1apId]
    rw [conflictClearEnb_getRecord_self]
    repeat' split
    all_goals simp [afind_aset_self]
  · right
    refine ⟨ha, ?_⟩
    simp only [associateEnbUeS1apId]
    repeat' split
    all_goals simp [afind_aset_of_ne _ _ ha]

theorem associateEnbUeS1apId_idx (s : CorrState) (i v y : Nat) :
    afind (associateEnbUeS1apId s i i v).enb_ue_s1ap_id_to_subscriber_id y =
      if y = v then some i
      else if (getRecord s i).enb_ue_s1ap_id = some y then none
      else afind s.enb_ue_s1ap_id_to_subscriber_id y := by
  by_cases hyv : y = v
  · rw [if_pos hyv, hyv]
    exact associateEnbUeS1apId_idx_self s i i v
  · rw [if_neg hyv]
    simp only [associateEnbUeS1apId]
    rw [conflictClearEnb_getRecord_self]
    have hcc := (conflictClearEnb_proj s i v).2.2.1
    split
    · next old hold =>
      split
      · next hov =>
        rw [hcc, afind_aset_of_ne _ _ hyv, hold]
        by_cases hyo : y = old
        · subst hyo
          rw [afind_aerase_self, if_pos rfl]
        · rw [afind_aerase_of_ne _ hyo,
            if_neg (fun hc => hyo (Option.some.inj hc).symm)]
      · next hov =>
        push_neg at hov
        rw [hcc, afind_aset_of_ne _ _ hyv, hold,
          if_neg (fun hc => hyv ((Option.some.inj hc).symm.trans hov))]
    · next hold =>
      rw [hcc, afind_aset_of_ne _ _ hyv, hold,
        if_neg (fun hc => Option.noConfusion hc)]

theorem associateEnbUeS1apId_FieldIdxOk {s : CorrState} (hfi : FieldIdxOk s)
    (i v : Nat) : FieldIdxOk (associateEnbUeS1apId s i i v) := by
  intro a r' hr'
  have hpm := (associateEnbUeS1apId_proj s i i v).2.2.1
  have hpt := (associateEnbUeS1apId_proj s i i v).2.2.2.1
  rcases associateEnbUeS1apId_records s i v a with ⟨ha, heq⟩ | ⟨ha, heq⟩
  · subst ha
    rw [heq] at hr'
    have hr2 := (Option.some.inj hr').symm
    refine ⟨fun y hy => ?_, fun z hz => ?_, fun u hu => ?_⟩
    · rw [hr2] at hy
      rw [hpm]
      cases hrec : afind s.subscriber_records a with
      | none =>
        rw [show getRecord s a = ({} : SubscriberRecord) from by
          simp [getRecord, hrec]] at hy
        simp at hy
      | some r0 =>
        rw [getRecord_eq_of_afind hrec] at hy
        exact (hfi a r0 hrec).1 y hy
    · rw [hr2] at hz
      have hvz : v = z := Option.some.inj hz
      rw [associateEnbUeS1apId_idx, if_pos hvz.symm]
    · rw [hr2] at hu
      rw [hpt]
      cases hrec : afind s.subscriber_records a with
      | none =>
        rw [show getRecord s a = ({} : SubscriberRecord) from by
          simp [getRecord, hrec]] at hu
        simp at hu
      | some r0 =>
        rw [getRecord_eq_of_afind hrec] at hu
        exact (hfi a r0 hrec).2.2 u hu
  · rw [heq] at hr'
    rcases conflictClearEnb_records s i v a with ⟨hun, hnc⟩ | ⟨o, ho, hidxv, haj, hcl⟩
    · rw [hun] at hr'
      refine ⟨fun y hy => ?_, fun z hz => ?_, fun u hu => ?_⟩
      · rw [hpm]
        exact (hfi a r' hr').1 y hy
      · have haz := (hfi a r' hr').2.1 z hz
        rw [associateEnbUeS1apId_idx]
        by_cases hzv : z = v
        · exact absurd ⟨hzv ▸ haz, ha, by rw [hr']; rfl⟩ hnc
        · rw [if_neg hzv]
          by_cases hgi : (getRecord s i).enb_ue_s1ap_id = some z
          · exfalso
            cases hreci : afind s.subscriber_records i with
            | none =>
              rw [show getRecord s i = ({} : SubscriberRecord) from by
                simp [getRecord, hreci]] at hgi
              exact Option.noConfusion hgi
            | some r0 =>
              rw [getRecord_eq_of_afind hreci] at hgi
              have hzi := (hfi i r0 hreci).2.1 z hgi
              rw [haz] at hzi
              exact ha (Option.some.inj hzi)
          · rw [if_neg hgi]
            exact haz
      · rw [hpt]
        exact (hfi a r' hr').2.2 u hu
    · rw [hcl] at hr'
      have hro := (Option.some.inj hr').symm
      refine ⟨fun y hy => ?_, fun z hz => ?_, fun u hu => ?_⟩
      · rw [hro] at hy
        rw [hpm]
        exact (hfi a o ho).1 y hy
      · rw [hro] at hz
        simp at hz
      · rw [hro] at hu
        rw [hpt]
        exact (hfi a o ho).2.2 u hu

theorem conflictClearTeid_records (s : CorrState) (j v a : Nat) :
    (afind (conflictClearTeid s j v).subscriber_records a = afind s.subscriber_records a ∧
      ¬(afind s.teid_to_subscriber_id v = some a ∧ a ≠ 0 ∧ a ≠ j ∧
        (afind s.subscriber_records a).isSome)) ∨
    (∃ o, afind s.subscriber_records a = some o ∧
      afind s.teid_to_subscriber_id v = some a ∧ a ≠ 0 ∧ a ≠ j ∧
      afind (conflictClearTeid s j v).subscriber_records a =
        some ({ o with teids := tremove o.teids v })) := by
  simp only [conflictClearTeid]
  split
  · next old heq =>
    split
    · next hne =>
      split
      · next o ho =>
        by_cases ha : a = old
        · subst ha
          exact Or.inr ⟨o, ho, heq, hne.1, hne.2, by simp [afind_aset_self]⟩
        · refine Or.inl ⟨by simp [afind_aset_of_ne _ _ ha], ?_⟩
          rintro ⟨hv, _, _, _⟩
          rw [heq] at hv
          exact ha (Option.some.inj hv).symm
      · next ho =>
        refine Or.inl ⟨rfl, ?_⟩
        rintro ⟨hv, _, _, hs⟩
        rw [heq] at hv
        have ha : a = old := (Option.some.inj hv).symm
        subst ha
        rw [ho] at hs
        simp at hs
    · next hne =>
      refine Or.inl ⟨rfl, ?_⟩
      rintro ⟨hv, ha0, haj, _⟩
      rw [heq] at hv
      have ha : a = old := (Option.some.inj hv).symm
      subst ha
      exact hne ⟨ha0, haj⟩
  · next heq =>
    refine Or.inl ⟨rfl, ?_⟩
    rintro ⟨hv, _, _, _⟩
    rw [heq] at hv
    exact Option.noConfusion hv

theorem associateTeid_records (s : CorrState) (i v : Nat) (hi : i ≠ 0) (a : Nat) :
    (a = i ∧ afind (associateTeid s i i v).subscriber_records a =
      some ({ getRecord s i with teids := tinsert (getRecord s i).teids v })) ∨
    (a ≠ i ∧ afind (associateTeid s i i v).subscriber_records a =
      afind (conflictClearTeid s i v).subscriber_records a) := by
  by_cases ha : a = i
  · subst ha
    left
    refine ⟨rfl, ?_⟩
    simp only [associateTeid]
    rw [if_neg hi, conflictClearTeid_getRecord_self]
    simp [afind_aset_self]
  · right
    refine ⟨ha, ?_⟩
    simp only [associateTeid]
    rw [if_neg hi]
    simp [afind_aset_of_ne _ _ ha]

theorem associateTeid_teid_idx (s : CorrState) (i v : Nat) (hi : i ≠ 0) (y : Nat) :
    afind (associateTeid s i i v).teid_to_subscriber_id y =
      if y = v then some i else afind s.teid_to_subscriber_id y := by
  simp only [associateTeid]
  rw [if_neg hi]
  have hcc := (conflictClearTeid_proj s i v).2.2.2.2.1
  by_cases hyv : y = v
  · rw [if_pos hyv, hyv]
    simp [afind_aset_self]
  · rw [if_neg hyv, hcc]
    simp [afind_aset_of_ne _ _ hyv, hcc]

theorem associateTeid_FieldIdxOk {s : CorrState} (hfi : FieldIdxOk s) (i v : Nat)
    (hi : i ≠ 0) (h0 : afind s.subscriber_records 0 = none) :
    FieldIdxOk (associateTeid s i i v) := by
  intro a r' hr'
  have hpm := (associateTeid_proj s i i v).2.2.2.1
  have hpe := (associateTeid_proj s i i v).2.2.1
  rcases associateTeid_records s i v hi a with ⟨ha, heq⟩ | ⟨ha, heq⟩
  · subst ha
    rw [heq] at hr'
    have hr2 := (Option.some.inj hr').symm
    refine ⟨fun y hy => ?_, fun z hz => ?_, fun u hu => ?_⟩
    · rw [hr2] at hy
      rw [hpm]
      cases hrec : afind s.subscriber_records a with
      | none =>
        rw [show getRecord s a = ({} : SubscriberRecord) from by
          simp [getRecord, hrec]] at hy
        simp at hy
      | some r0 =>
        rw [getRecord_eq_of_afind hrec] at hy
        exact (hfi a r0 hrec).1 y hy
    · rw [hr2] at hz
      rw [hpe]
      cases hrec : afind s.subscriber_records a with
      | none =>
        rw [show getRecord s a = ({} : SubscriberRecord) from by
          simp [getRecord, hrec]] at hz
        simp at hz
      | some r0 =>
        rw [getRecord_eq_of_afind hrec] at hz
        exact (hfi a r0 hrec).2.1 z hz
    · rw [hr2] at hu
      rw [associateTeid_teid_idx s a v hi]
      by_cases huv : u = v
      · rw [if_pos huv]
      · rw [if_neg huv]
        rcases mem_tinsert hu with h2 | h2
        · exact absurd h2 huv
        · cases hrec : afind s.subscriber_records a with
          | none =>
            rw [show getRecord s a = ({} : SubscriberRecord) from by
              simp [getRecord, hrec]] at h2
            simp at h2
          | some r0 =>
            rw [getRecord_eq_of_afind hrec] at h2
            exact (hfi a r0 hrec).2.2 u h2
  · rw [heq] at hr'
    rcases conflictClearTeid_records s i v a with
      ⟨hun, hnc⟩ | ⟨o, ho, hidxv, ha0, haj, hcl⟩
    · rw [hun] at hr'
      refine ⟨fun y hy => ?_, fun z hz => ?_, fun u hu => ?_⟩
      · rw [hpm]
        exact (hfi a r' hr').1 y hy
      · rw [hpe]
        exact (hfi a r' hr').2.1 z hz
      · have hau := (hfi a r' hr').2.2 u hu
        rw [associateTeid_teid_idx s i v hi]
        by_cases huv : u = v
        · exfalso
          apply hnc
          refine ⟨huv ▸ hau, ?_, ha, by rw [hr']; rfl⟩
          intro h0a
          subst h0a
          rw [h0] at hr'
          exact Option.noConfusion hr'
        · rw [if_neg huv]
          exact hau
    · rw [hcl] at hr'
      have hro := (Option.some.inj hr').symm
      refine ⟨fun y hy => ?_, fun z hz => ?_, fun u hu => ?_⟩
      · rw [hro] at hy
        rw [hpm]
        exact (hfi a o ho).1 y hy
      · rw [hro] at hz
        rw [hpe]
        exact (hfi a o ho).2.1 z hz
      · rw [hro] at hu
        rw [associateTeid_teid_idx s i v hi, if_neg (ne_of_mem_tremove hu)]
        exact (hfi a o ho).2.2 u (mem_of_mem_tremove hu)

theorem associateImsi_records_all (s : CorrState) (i j : Nat) (x : String) (a : Nat) :
    afind (associateImsi s i j x).subscriber_records a =
      if j = 0 then afind s.subscriber_records a
      else if a = i then some ({ getRecord s i with imsi := some x })
      else afind s.subscriber_records a := by
  by_cases hj : j = 0
  · rw [if_pos hj]
    simp only [associateImsi]
    rw [if_pos hj]
  · rw [if_neg hj]
    simp only [associateImsi]
    rw [if_neg hj]
    by_cases ha : a = i
    · rw [if_pos ha, ha]
      split
      all_goals simp [afind_aset_self]
    · rw [if_neg ha]
      split
      all_goals simp [afind_aset_of_ne _ _ ha]

theorem associateTmsi_records_all (s : CorrState) (i j : Nat) (x : String) (a : Nat) :
    afind (associateTmsi s i j x).subscriber_records a =
      if a = i then some ({ getRecord s i with tmsi := some x })
      else afind s.subscriber_records a := by
  simp only [associateTmsi]
  by_cases ha : a = i
  · rw [if_pos ha, ha]
    split
    all_goals simp [afind_aset_self]
  · rw [if_neg ha]
    split
    all_goals simp [afind_aset_of_ne _ _ ha]

theorem associateImeisv_records_all (s : CorrState) (i j : Nat) (x : String) (a : Nat) :
    afind (associateImeisv s i j x).subscriber_records a =
      if a = i then some ({ getRecord s i with imeisv := some x })
      else afind s.subscriber_records a := by
  simp only [associateImeisv]
  by_cases ha : a = i
  · rw [if_pos ha, ha]
    split
    all_goals simp [afind_aset_self]
  · rw [if_neg ha]
    split
    all_goals simp [afind_aset_of_ne _ _ ha]

theorem associateImsi_FieldIdxOk {s : CorrState} (hfi : FieldIdxOk s) (i j : Nat)
    (x : String) : FieldIdxOk (associateImsi s i j x) := by
  intro a r' hr'
  have hp := associateImsi_proj s i j x
  rw [hp.2.2.1, hp.2.1, hp.2.2.2.1]
  rw [associateImsi_records_all] at hr'
  split_ifs at hr' with h1 h2
  · exact hfi a r' hr'
  · subst h2
    have hr2 := (Option.some.inj hr').symm
    refine ⟨fun y hy => ?_, fun z hz => ?_, fun u hu => ?_⟩
    · rw [hr2] at hy
      cases hrec : afind s.subscriber_records a with
      | none =>
        rw [show getRecord s a = ({} : SubscriberRecord) from by
          simp [getRecord, hrec]] at hy
        simp at hy
      | some r0 =>
        rw [getRecord_eq_of_afind hrec] at hy
        exact (hfi a r0 hrec).1 y hy
    · rw [hr2] at hz
      cases hrec : afind s.subscriber_records a with
      | none =>
        rw [show getRecord s a = ({} : SubscriberRecord) from by
          simp [getRecord, hrec]] at hz
        simp at hz
      | some r0 =>
        rw [getRecord_eq_of_afind hrec] at hz
        exact (hfi a r0 hrec).2.1 z hz
    · rw [hr2] at hu
      cases hrec : afind s.subscriber_records a with
      | none =>
        rw [show getRecord s a = ({} : SubscriberRecord) from by
          simp [getRecord, hrec]] at hu
        simp at hu
      | some r0 =>
        rw [getRecord_eq_of_afind hrec] at hu
        exact (hfi a r0 hrec).2.2 u hu
  · exact hfi a r' hr'

theorem associateTmsi_FieldIdxOk {s : CorrState} (hfi : FieldIdxOk s) (i j : Nat)
    (x : String) : FieldIdxOk (associateTmsi s i j x) := by
  intro a r' hr'
  have hp := associateTmsi_proj s i j x
  rw [hp.2.2.1, hp.2.1, hp.2.2.2.1]
  rw [associateTmsi_records_all] at hr'
  split_ifs at hr' with h2
  · subst h2
    have hr2 := (Option.some.inj hr').symm
    refine ⟨fun y hy => ?_, fun z hz => ?_, fun u hu => ?_⟩
    · rw [hr2] at hy
      cases hrec : afind s.subscriber_records a with
      | none =>
        rw [show getRecord s a = ({} : SubscriberRecord) from by
          simp [getRecord, hrec]] at hy
        simp at hy
      | some r0 =>
        rw [getRecord_eq_of_afind hrec] at hy
        exact (hfi a r0 hrec).1 y hy
    · rw [hr2] at hz
      cases hrec : afind s.subscriber_records a with
      | none =>
        rw [show getRecord s a = ({} : SubscriberRecord) from by
          simp [getRecord, hrec]] at hz
        simp at hz
      | some r0 =>
        rw [getRecord_eq_of_afind hrec] at hz
        exact (hfi a r0 hrec).2.1 z hz
    · rw [hr2] at hu
      cases hrec : afind s.subscriber_records a with
      | none =>
        rw [show getRecord s a = ({} : SubscriberRecord) from by
          simp [getRecord, hrec]] at hu
        simp at hu
      | some r0 =>
        rw [getRecord_eq_of_afind hrec] at hu
        exact (hfi a r0 hrec).2.2 u hu
  · exact hfi a r' hr'

theorem associateImeisv_FieldIdxOk {s : CorrState} (hfi : FieldIdxOk s) (i j : Nat)
    (x : String) : FieldIdxOk (associateImeisv s i j x) := by
  intro a r' hr'
  have hp := associateImeisv_proj s i j x
  rw [hp.2.2.2.1, hp.2.2.1, hp.2.2.2.2.1]
  rw [associateImeisv_records_all] at hr'
  split_ifs at hr' with h2
  · subst h2
    have hr2 := (Option.some.inj hr').symm
    refine ⟨fun y hy => ?_, fun z hz => ?_, fun u hu => ?_⟩
    · rw [hr2] at hy
      cases hrec : afind s.subscriber_records a with
      | none =>
        rw [show getRecord s a = ({} : SubscriberRecord) from by
          simp [getRecord, hrec]] at hy
        simp at hy
      | some r0 =>
        rw [getRecord_eq_of_afind hrec] at hy
        exact (hfi a r0 hrec).1 y hy
    · rw [hr2] at hz
      cases hrec : afind s.subscriber_records a with
      | none =>
        rw [show getRecord s a = ({} : SubscriberRecord) from by
          simp [getRecord, hrec]] at hz
        simp at hz
      | some r0 =>
        rw [getRecord_eq_of_afind hrec] at hz
        exact (hfi a r0 hrec).2.1 z hz
    · rw [hr2] at hu
      cases hrec : afind s.subscriber_records a with
      | none =>
        rw [show getRecord s a = ({} : SubscriberRecord) from by
          simp [getRecord, hrec]] at hu
        simp at hu
      | some r0 =>
        rw [getRecord_eq_of_afind hrec] at hu
        exact (hfi a r0 hrec).2.2 u hu
  · exact hfi a r' hr'

theorem updateSeenTimestamps_records_ne (s : CorrState) (g : Nat) (ts : ℚ) {a : Nat}
    (ha : a ≠ g) : afind (updateSeenTimestamps s g ts).subscriber_records a =
      afind s.subscriber_records a := by
  simp only [updateSeenTimestamps]
  split
  · simp [afind_aset_of_ne _ _ ha]
  · rfl

theorem updateSeenTimestamps_records_g (s : CorrState) (g : Nat) (ts : ℚ) :
    afind (updateSeenTimestamps s g ts).subscriber_records g =
      afind s.subscriber_records g ∨
    afind (updateSeenTimestamps s g ts).subscriber_records g =
      some ({ getRecord s g with
        first_seen_timestamp :=
          if (getRecord s g).first_seen_timestamp.isNone then some ts
          else (getRecord s g).first_seen_timestamp,
        last_seen_timestamp := some ts }) := by
  simp only [updateSeenTimestamps]
  split
  · right
    simp [afind_aset_self]
  · left
    rfl

theorem updateSeenTimestamps_FieldIdxOk {s : CorrState} (hfi : FieldIdxOk s)
    (g : Nat) (ts : ℚ) : FieldIdxOk (updateSeenTimestamps s g ts) := by
  intro a r' hr'
  have hp := updateSeenTimestamps_proj s g ts
  rw [hp.2.2.2.1, hp.2.2.1, hp.2.2.2.2.1]
  by_cases ha : a = g
  · subst ha
    rcases updateSeenTimestamps_records_g s a ts with h | h
    · rw [h] at hr'
      exact hfi a r' hr'
    · rw [h] at hr'
      have hr2 := (Option.some.inj hr').symm
      refine ⟨fun y hy => ?_, fun z hz => ?_, fun u hu => ?_⟩
      · rw [hr2] at hy
        cases hrec : afind s.subscriber_records a with
        | none =>
          rw [show getRecord s a = ({} : SubscriberRecord) from by
            simp [getRecord, hrec]] at hy
          simp at hy
        | some r0 =>
          rw [getRecord_eq_of_afind hrec] at hy
          exact (hfi a r0 hrec).1 y hy
      · rw [hr2] at hz
        cases hrec : afind s.subscriber_records a with
        | none =>
          rw [show getRecord s a = ({} : SubscriberRecord) from by
            simp [getRecord, hrec]] at hz
          simp at hz
        | some r0 =>
          rw [getRecord_eq_of_afind hrec] at hz
          exact (hfi a r0 hrec).2.1 z hz
      · rw [hr2] at hu
        cases hrec : afind s.subscriber_records a with
        | none =>
          rw [show getRecord s a = ({} : SubscriberRecord) from by
            simp [getRecord, hrec]] at hu
          simp at hu
        | some r0 =>
          rw [getRecord_eq_of_afind hrec] at hu
          exact (hfi a r0 hrec).2.2 u hu
  · rw [updateSeenTimestamps_records_ne s g ts ha] at hr'
    exact hfi a r' hr'

theorem materialize_FieldIdxOk {s : CorrState} (hfi : FieldIdxOk s) (g : Nat) :
    FieldIdxOk (materialize s g) := by
  intro a r' hr'
  have hp := materialize_proj s g
  rw [hp.2.2.2.1, hp.2.2.1, hp.2.2.2.2.1]
  simp only [materialize] at hr'
  split at hr'
  · exact hfi a r' hr'
  · simp only [afind_aset] at hr'
    split at hr'
    · have hempty := Option.some.inj hr'
      refine ⟨fun y hy => ?_, fun z hz => ?_, fun u hu => ?_⟩
      · rw [← hempty] at hy
        simp at hy
      · rw [← hempty] at hz
        simp at hz
      · rw [← hempty] at hu
        simp at hu
    · exact hfi a r' hr'

theorem FieldIdxOk_create_base {s : CorrState} (hfi : FieldIdxOk s) :
    FieldIdxOk ({ s with
      subscriber_records := aset s.subscriber_records s.next_subscriber_id ({})
      next_subscriber_id := s.next_subscriber_id + 1 }) := by
  intro a r' hr'
  simp only [afind_aset] at hr'
  split at hr'
  · have hempty := Option.some.inj hr'
    refine ⟨fun y hy => ?_, fun z hz => ?_, fun u hu => ?_⟩
    · rw [← hempty] at hy
      simp at hy
    · rw [← hempty] at hz
      simp at hz
    · rw [← hempty] at hu
      simp at hu
  · exact hfi a r' hr'

theorem removeMmeUeS1apIdAssociation_FieldIdxOk {s : CorrState} (hfi : FieldIdxOk s)
    (v : Nat) : FieldIdxOk (removeMmeUeS1apIdAssociation s v) := by
  simp only [removeMmeUeS1apIdAssociation]
  split
  · next sid heq =>
    split
    · next hsid =>
      split
      · next r0 hr0 =>
        intro a r' hr'
        simp only [afind_aset] at hr'
        refine ⟨fun y hy => ?_, fun z hz => ?_, fun u hu => ?_⟩
        · show afind (aerase s.mme_ue_s1ap_id_to_subscriber_id v) y = some a
          split at hr'
          · rw [← Option.some.inj hr'] at hy
            simp at hy
          · next ha =>
            have hay := (hfi a r' hr').1 y hy
            by_cases hyv : y = v
            · subst hyv
              rw [heq] at hay
              exact absurd (Option.some.inj hay).symm ha
            · rw [afind_aerase_of_ne _ hyv]
              exact hay
        · show afind s.enb_ue_s1ap_id_to_subscriber_id z = some a
          split at hr'
          · next ha =>
            rw [← Option.some.inj hr'] at hz
            rw [ha]
            exact (hfi sid r0 hr0).2.1 z hz
          · exact (hfi a r' hr').2.1 z hz
        · show afind s.teid_to_subscriber_id u = some a
          split at hr'
          · next ha =>
            rw [← Option.some.inj hr'] at hu
            rw [ha]
            exact (hfi sid r0 hr0).2.2 u hu
          · exact (hfi a r' hr').2.2 u hu
      · next hrnone =>
        intro a r' hr'
        refine ⟨fun y hy => ?_, fun z hz => ?_, fun u hu => ?_⟩
        · show afind (aerase s.mme_ue_s1ap_id_to_subscriber_id v) y = some a
          have hay := (hfi a r' hr').1 y hy
          by_cases hyv : y = v
          · subst hyv
            rw [heq] at hay
            have ha : a = sid := (Option.some.inj hay).symm
            subst ha
            rw [hrnone] at hr'
            exact Option.noConfusion hr'
          · rw [afind_aerase_of_ne _ hyv]
            exact hay
        · exact (hfi a r' hr').2.1 z hz
        · exact (hfi a r' hr').2.2 u hu
    · exact hfi
  · exact hfi

theorem removeEnbUeS1apIdAssociation_FieldIdxOk {s : CorrState} (hfi : FieldIdxOk s)
    (v : Nat) : FieldIdxOk (removeEnbUeS1apIdAssociation s v) := by
  simp only [removeEnbUeS1apIdAssociation]
  split
  · next sid heq =>
    split
    · next hsid =>
      split
      · next r0 hr0 =>
        intro a r' hr'
        simp only [afind_aset] at hr'
        refine ⟨fun y hy => ?_, fun z hz => ?_, fun u hu => ?_⟩
        · show afind s.mme_ue_s1ap_id_to_subscriber_id y = some a
          split at hr'
          · next ha =>
            rw [← Option.some.inj hr'] at hy
            rw [ha]
            exact (hfi sid r0 hr0).1 y hy
          · exact (hfi a r' hr').1 y hy
        · show afind (aerase s.enb_ue_s1ap_id_to_subscriber_id v) z = some a
          split at hr'
          · rw [← Option.some.inj hr'] at hz
            simp at hz
          · next ha =>
            have haz := (hfi a r' hr').2.1 z hz
            by_cases hzv : z = v
            · subst hzv
              rw [heq] at haz
              exact absurd (Option.some.inj haz).symm ha
            · rw [afind_aerase_of_ne _ hzv]
              exact haz
        · show afind s.teid_to_subscriber_id u = some a
          split at hr'
          · next ha =>
            rw [← Option.some.inj hr'] at hu
            rw [ha]
            exact (hfi sid r0 hr0).2.2 u hu
          · exact (hfi a r' hr').2.2 u hu
      · next hrnone =>
        intro a r' hr'
        refine ⟨fun y hy => ?_, fun z hz => ?_, fun u hu => ?_⟩
        · exact (hfi a r' hr').1 y hy
        · show afind (aerase s.enb_ue_s1ap_id_to_subscriber_id v) z = some a
          have haz := (hfi a r' hr').2.1 z hz
          by_cases hzv : z = v
          · subst hzv
            rw [heq] at haz
            have ha : a = sid := (Option.some.inj haz).symm
            subst ha
            rw [hrnone] at hr'
            exact Option.noConfusion hr'
          · rw [afind_aerase_of_ne _ hzv]
            exact haz
        · exact (hfi a r' hr').2.2 u hu
    · exact hfi
  · exact hfi

theorem removeTeidAssociation_FieldIdxOk {s : CorrState} (hfi : FieldIdxOk s)
    (v : Nat) : FieldIdxOk (removeTeidAssociation s v) := by
  simp only [removeTeidAssociation]
  split
  · next sid heq =>
    split
    · next hsid =>
      split
      · next r0 hr0 =>
        intro a r' hr'
        simp only [afind_aset] at hr'
        refine ⟨fun y hy => ?_, fun z hz => ?_, fun u hu => ?_⟩
        · show afind s.mme_ue_s1ap_id_to_subscriber_id y = some a
          split at hr'
          · next ha =>
            rw [← Option.some.inj hr'] at hy
            rw [ha]
            exact (hfi sid r0 hr0).1 y hy
          · exact (hfi a r' hr').1 y hy
        · show afind s.enb_ue_s1ap_id_to_subscriber_id z = some a
          split at hr'
          · next ha =>
            rw [← Option.some.inj hr'] at hz
            rw [ha]
            exact (hfi sid r0 hr0).2.1 z hz
          · exact (hfi a r' hr').2.1 z hz
        · show afind (aerase s.teid_to_subscriber_id v) u = some a
          split at hr'
          · next ha =>
            rw [← Option.some.inj hr'] at hu
            rw [afind_aerase_of_ne _ (ne_of_mem_tremove hu), ha]
            exact (hfi sid r0 hr0).2.2 u (mem_of_mem_tremove hu)
          · next ha =>
            have hau := (hfi a r' hr').2.2 u hu
            by_cases huv : u = v
            · subst huv
              rw [heq] at hau
              exact absurd (Option.some.inj hau).symm ha
            · rw [afind_aerase_of_ne _ huv]
              exact hau
      · next hrnone =>
        intro a r' hr'
        refine ⟨fun y hy => ?_, fun z hz => ?_, fun u hu => ?_⟩
        · exact (hfi a r' hr').1 y hy
        · exact (hfi a r' hr').2.1 z hz
        · show afind (aerase s.teid_to_subscriber_id v) u = some a
          have hau := (hfi a r' hr').2.2 u hu
          by_cases huv : u = v
          · subst huv
            rw [heq] at hau
            have ha : a = sid := (Option.some.inj hau).symm
            subst ha
            rw [hrnone] at hr'
            exact Option.noConfusion hr'
          · rw [afind_aerase_of_ne _ huv]
            exact hau
    · exact hfi
  · exact hfi

theorem removeImsiAssociation_FieldIdxOk {s : CorrState} (hfi : FieldIdxOk s)
    (x : String) : FieldIdxOk (removeImsiAssociation s x) := by
  simp only [removeImsiAssociation]
  split
  · next sid heq =>
    split
    · next hsid =>
      split
      · next r0 hr0 =>
        intro a r' hr'
        simp only [afind_aset] at hr'
        refine ⟨fun y hy => ?_, fun z hz => ?_, fun u hu => ?_⟩
        · show afind s.mme_ue_s1ap_id_to_subscriber_id y = some a
          split at hr'
          · next ha =>
            rw [← Option.some.inj hr'] at hy
            rw [ha]
            exact (hfi sid r0 hr0).1 y hy
          · exact (hfi a r' hr').1 y hy
        · show afind s.enb_ue_s1ap_id_to_subscriber_id z = some a
          split at hr'
          · next ha =>
            rw [← Option.some.inj hr'] at hz
            rw [ha]
            exact (hfi sid r0 hr0).2.1 z hz
          · exact (hfi a r' hr').2.1 z hz
        · show afind s.teid_to_subscriber_id u = some a
          split at hr'
          · next ha =>
            rw [← Option.some.inj hr'] at hu
            rw [ha]
            exact (hfi sid r0 hr0).2.2 u hu
          · exact (hfi a r' hr').2.2 u hu
      · next hrnone =>
        intro a r' hr'
        exact hfi a r' hr'
    · exact hfi
  · exact hfi

theorem removeTmsiAssociation_FieldIdxOk {s : CorrState} (hfi : FieldIdxOk s)
    (x : String) : FieldIdxOk (removeTmsiAssociation s x) := by
  simp only [removeTmsiAssociation]
  split
  · next sid heq =>
    split
    · next hsid =>
      split
      · next r0 hr0 =>
        intro a r' hr'
        simp only [afind_aset] at hr'
        refine ⟨fun y hy => ?_, fun z hz => ?_, fun u hu => ?_⟩
        · show afind s.mme_ue_s1ap_id_to_subscriber_id y = some a
          split at hr'
          · next ha =>
            rw [← Option.some.inj hr'] at hy
            rw [ha]
            exact (hfi sid r0 hr0).1 y hy
          · exact (hfi a r' hr').1 y hy
        · show afind s.enb_ue_s1ap_id_to_subscriber_id z = some a
          split at hr'
          · next ha =>
            rw [← Option.some.inj hr'] at hz
            rw [ha]
            exact (hfi sid r0 hr0).2.1 z hz
          · exact (hfi a r' hr').2.1 z hz
        · show afind s.teid_to_subscriber_id u = some a
          split at hr'
          · next ha =>
            rw [← Option.some.inj hr'] at hu
            rw [ha]
            exact (hfi sid r0 hr0).2.2 u hu
          · exact (hfi a r' hr').2.2 u hu
      · next hrnone =>
        intro a r' hr'
        exact hfi a r' hr'
    · exact hfi
  · exact hfi

theorem removeImeisvAssociation_FieldIdxOk {s : CorrState} (hfi : FieldIdxOk s)
    (x : String) : FieldIdxOk (removeImeisvAssociation s x) := by
  simp only [removeImeisvAssociation]
  split
  · next sid heq =>
    split
    · next hsid =>
      split
      · next r0 hr0 =>
        intro a r' hr'
        simp only [afind_aset] at hr'
        refine ⟨fun y hy => ?_, fun z hz => ?_, fun u hu => ?_⟩
        · show afind s.mme_ue_s1ap_id_to_subscriber_id y = some a
          split at hr'
          · next ha =>
            rw [← Option.some.inj hr'] at hy
            rw [ha]
            exact (hfi sid r0 hr0).1 y hy
          · exact (hfi a r' hr').1 y hy
        · show afind s.enb_ue_s1ap_id_to_subscriber_id z = some a
          split at hr'
          · next ha =>
            rw [← Option.some.inj hr'] at hz
            rw [ha]
            exact (hfi sid r0 hr0).2.1 z hz
          · exact (hfi a r' hr').2.1 z hz
        · show afind s.teid_to_subscriber_id u = some a
          split at hr'
          · next ha =>
            rw [← Option.some.inj hr'] at hu
            rw [ha]
            exact (hfi sid r0 hr0).2.2 u hu
          · exact (hfi a r' hr').2.2 u hu
      · next hrnone =>
        intro a r' hr'
        exact hfi a r' hr'
    · exact hfi
  · exact hfi

theorem optStep0_both {A : Type} (o : Option A) (f : CorrState → A → CorrState)
    {t : CorrState}
    (hf : ∀ x, (WFids (f t x) ∧ FieldIdxOk (f t x)) ∧
      (f t x).next_subscriber_id = t.next_subscriber_id)
    (hw : WFids t ∧ FieldIdxOk t) :
    (WFids (o.elim t fun x => f t x) ∧ FieldIdxOk (o.elim t fun x => f t x)) ∧
    (o.elim t fun x => f t x).next_subscriber_id = t.next_subscriber_id := by
  cases o with
  | none => exact ⟨hw, rfl⟩
  | some x => exact hf x

theorem create_base_WF {s : CorrState} (hwf : WFids s) :
    WFids ({ s with
      subscriber_records := aset s.subscriber_records s.next_subscriber_id ({})
      next_subscriber_id := s.next_subscriber_id + 1 }) := by
  obtain ⟨h1, h2, h3, h4, h5, h6, h7, h8⟩ := hwf
  exact ⟨Nat.succ_pos _,
    keys_aset (keys_mono h2 (Nat.le_succ _)) ⟨h1, Nat.lt_succ_self _⟩ _,
    IdxBounded_mono h3 (Nat.le_succ _), IdxBounded_mono h4 (Nat.le_succ _),
    IdxBounded_mono h5 (Nat.le_succ _), IdxBounded_mono h6 (Nat.le_succ _),
    IdxBounded_mono h7 (Nat.le_succ _), IdxBounded_mono h8 (Nat.le_succ _)⟩

theorem gocChain_both (imsi tmsi : Option String) (enb mme teid : Option Nat)
    (imeisv : Option String) {t : CorrState} {g : Nat}
    (hw : WFids t ∧ FieldIdxOk t) (hg : 0 < g ∧ g < t.next_subscriber_id) :
    WFids (gocChain t g imsi tmsi enb mme teid imeisv) ∧
    FieldIdxOk (gocChain t g imsi tmsi enb mme teid imeisv) := by
  obtain ⟨p2, n2⟩ := optStep0_both imsi (fun a x => associateImsi a g g x)
    (fun x => ⟨⟨associateImsi_WF hw.1 hg hg x, associateImsi_FieldIdxOk hw.2 g g x⟩,
      (associateImsi_proj t g g x).2.2.2.2.2⟩) hw
  obtain ⟨p3, n3⟩ := optStep0_both tmsi (fun a x => associateTmsi a g g x)
    (fun x => ⟨⟨associateTmsi_WF p2.1 (n2.symm ▸ hg) (n2.symm ▸ hg) x,
      associateTmsi_FieldIdxOk p2.2 g g x⟩,
      (associateTmsi_proj _ g g x).2.2.2.2.2⟩) p2
  obtain ⟨p4, n4⟩ := optStep0_both enb (fun a v => associateEnbUeS1apId a g g v)
    (fun v => ⟨⟨associateEnbUeS1apId_WF p3.1 (n3.symm ▸ (n2.symm ▸ hg))
        (n3.symm ▸ (n2.symm ▸ hg)) v,
      associateEnbUeS1apId_FieldIdxOk p3.2 g v⟩,
      (associateEnbUeS1apId_proj _ g g v).2.2.2.2.2⟩) p3
  obtain ⟨p5, n5⟩ := optStep0_both mme (fun a v => associateMmeUeS1apId a g g v)
    (fun v => ⟨⟨associateMmeUeS1apId_WF p4.1
        (n4.symm ▸ (n3.symm ▸ (n2.symm ▸ hg)))
        (n4.symm ▸ (n3.symm ▸ (n2.symm ▸ hg))) v,
      associateMmeUeS1apId_FieldIdxOk p4.2 g v⟩,
      (associateMmeUeS1apId_proj _ g g v).2.2.2.2.2⟩) p4
  obtain ⟨p6, n6⟩ := optStep0_both teid (fun a v => associateTeid a g g v)
    (fun v => ⟨⟨associateTeid_WF p5.1
        (n5.symm ▸ (n4.symm ▸ (n3.symm ▸ (n2.symm ▸ hg))))
        (n5.symm ▸ (n4.symm ▸ (n3.symm ▸ (n2.symm ▸ hg)))) v,
      associateTeid_FieldIdxOk p5.2 g v (Nat.pos_iff_ne_zero.mp hg.1)
        (records_zero_none p5.1)⟩,
      (associateTeid_proj _ g g v).2.2.2.2.2⟩) p5
  obtain ⟨p7, n7⟩ := optStep0_both imeisv (fun a x => associateImeisv a g g x)
    (fun x => ⟨⟨associateImeisv_WF p6.1
        (n6.symm ▸ (n5.symm ▸ (n4.symm ▸ (n3.symm ▸ (n2.symm ▸ hg)))))
        (n6.symm ▸ (n5.symm ▸ (n4.symm ▸ (n3.symm ▸ (n2.symm ▸ hg))))) x,
      associateImeisv_FieldIdxOk p6.2 g g x⟩,
      (associateImeisv_proj _ g g x).2.2.2.2.2⟩) p6
  simp only [gocChain]
  exact p7

theorem getOrCreateSubscriber_fio (s : CorrState) (imsi tmsi : Option String)
    (enb mme teid : Option Nat) (imeisv : Option String)
    (hwf : WFids s) (hfi : FieldIdxOk s) :
    WFids (getOrCreateSubscriber s imsi tmsi enb mme teid imeisv).1 ∧
    FieldIdxOk (getOrCreateSubscriber s imsi tmsi enb mme teid imeisv).1 := by
  by_cases h0 : gocMatch s imsi tmsi enb mme teid imeisv = 0
  · rw [goc_eq_create s imsi tmsi enb mme teid imeisv h0]
    exact gocChain_both imsi tmsi enb mme teid imeisv
      ⟨create_base_WF hwf, FieldIdxOk_create_base hfi⟩ ⟨hwf.1, Nat.lt_succ_self _⟩
  · have hb := (gocMatch_bound hwf imsi tmsi enb mme teid imeisv).resolve_left h0
    rw [goc_eq_found s imsi tmsi enb mme teid imeisv rfl h0]
    have hnM :=
      (materialize_proj s (gocMatch s imsi tmsi enb mme teid imeisv)).2.2.2.2.2.2
    exact gocChain_both imsi tmsi enb mme teid imeisv
      ⟨materialize_WF hwf hb, materialize_FieldIdxOk hfi _⟩ (hnM.symm ▸ hb)

theorem foldlTeid_both {g : Nat} :
    ∀ (l : List Nat) (t : CorrState), WFids t ∧ FieldIdxOk t →
      (0 < g ∧ g < t.next_subscriber_id) →
      (WFids (l.foldl (fun st v => associateTeid st g g v) t) ∧
        FieldIdxOk (l.foldl (fun st v => associateTeid st g g v) t))
  | [], _, hw, _ => hw
  | v :: l, t, hw, hg => by
    simp only [List.foldl]
    exact foldlTeid_both l (associateTeid t g g v)
      ⟨associateTeid_WF hw.1 hg hg v,
        associateTeid_FieldIdxOk hw.2 g v (Nat.pos_iff_ne_zero.mp hg.1)
          (records_zero_none hw.1)⟩
      (((associateTeid_proj t g g v).2.2.2.2.2).symm ▸ hg)

theorem assocIds_both (mme enb : Option Nat) (teids : List Nat) {t : CorrState}
    {g : Nat} (hw : WFids t ∧ FieldIdxOk t) (hg : 0 < g ∧ g < t.next_subscriber_id) :
    WFids (assocIds t g g mme enb teids) ∧ FieldIdxOk (assocIds t g g mme enb teids) := by
  obtain ⟨pa, na⟩ := optStep0_both mme (fun a y => associateMmeUeS1apId a g g y)
    (fun y => ⟨⟨associateMmeUeS1apId_WF hw.1 hg hg y,
      associateMmeUeS1apId_FieldIdxOk hw.2 g y⟩,
      (associateMmeUeS1apId_proj t g g y).2.2.2.2.2⟩) hw
  obtain ⟨pb, nb⟩ := optStep0_both enb (fun a z => associateEnbUeS1apId a g g z)
    (fun z => ⟨⟨associateEnbUeS1apId_WF pa.1 (na.symm ▸ hg) (na.symm ▸ hg) z,
      associateEnbUeS1apId_FieldIdxOk pa.2 g z⟩,
      (associateEnbUeS1apId_proj _ g g z).2.2.2.2.2⟩) pa
  have hc := foldlTeid_both teids _ pb (nb.symm ▸ (na.symm ▸ hg))
  simp only [assocIds]
  exact hc

theorem releaseStep_fio (f : Frame) {t : CorrState} (hw : WFids t ∧ FieldIdxOk t) :
    WFids (releaseStep t f) ∧ FieldIdxOk (releaseStep t f) := by
  obtain ⟨pr, nr⟩ := optStep0_both f.mme_id
    (fun a y => removeMmeUeS1apIdAssociation a y)
    (fun y => ⟨⟨removeMmeUeS1apIdAssociation_WF hw.1 y,
      removeMmeUeS1apIdAssociation_FieldIdxOk hw.2 y⟩,
      (removeMmeUeS1apIdAssociation_proj t y).2.2.2.2.2⟩) hw
  obtain ⟨pe, ne2⟩ := optStep0_both f.enb_id
    (fun a z => removeEnbUeS1apIdAssociation a z)
    (fun z => ⟨⟨removeEnbUeS1apIdAssociation_WF pr.1 z,
      removeEnbUeS1apIdAssociation_FieldIdxOk pr.2 z⟩,
      (removeEnbUeS1apIdAssociation_proj _ z).2.2.2.2.2⟩) pr
  simp only [releaseStep]
  split
  · exact pe
  · exact hw

theorem gocChain_imsi_idx (t : CorrState) (g : Nat) (x : String)
    (tmsi : Option String) (enb mme teid : Option Nat) (imeisv : Option String)
    (hg : g ≠ 0) :
    afind (gocChain t g (some x) tmsi enb mme teid imeisv).imsi_to_subscriber_id x =
      some g := by
  simp only [gocChain]
  cases tmsi <;> cases enb <;> cases mme <;> cases teid <;> cases imeisv <;>
    simp only [Option.elim] <;>
    (repeat first
      | rw [(associateTmsi_proj _ _ _ _).1]
      | rw [(associateEnbUeS1apId_proj _ _ _ _).1]
      | rw [(associateMmeUeS1apId_proj _ _ _ _).1]
      | rw [(associateTeid_proj _ _ _ _).1]
      | rw [(associateImeisv_proj _ _ _ _).1]) <;>
    exact associateImsi_idx_self _ _ _ _ hg

theorem gocChain_tmsi_idx (t : CorrState) (g : Nat) (x : String)
    (enb mme teid : Option Nat) (imeisv : Option String) :
    afind (gocChain t g none (some x) enb mme teid imeisv).tmsi_to_subscriber_id x =
      some g := by
  simp only [gocChain]
  cases enb <;> cases mme <;> cases teid <;> cases imeisv <;>
    simp only [Option.elim] <;>
    (repeat first
      | rw [(associateEnbUeS1apId_proj _ _ _ _).2.1]
      | rw [(associateMmeUeS1apId_proj _ _ _ _).2.1]
      | rw [(associateTeid_proj _ _ _ _).2.1]
      | rw [(associateImeisv_proj _ _ _ _).2.1]) <;>
    exact associateTmsi_idx_self _ _ _ _

theorem gocChain_imeisv_idx (t : CorrState) (g : Nat) (enb mme teid : Option Nat)
    (x : String) :
    afind (gocChain t g none none enb mme teid
      (some x)).imeisv_to_subscriber_id x = some g := by
  simp only [gocChain]
  exact associateImeisv_idx_self _ _ _ x

theorem gocChain_mme_idx (t : CorrState) (g : Nat) (enb : Option Nat) (y : Nat)
    (teid : Option Nat) :
    afind (gocChain t g none none enb (some y) teid
      none).mme_ue_s1ap_id_to_subscriber_id y = some g := by
  simp only [gocChain]
  cases enb <;> cases teid <;>
    simp only [Option.elim] <;>
    (repeat rw [(associateTeid_proj _ _ _ _).2.2.2.1]) <;>
    exact associateMmeUeS1apId_idx_self _ _ _ y

theorem gocChain_enb_idx (t : CorrState) (g : Nat) (z : Nat) (teid : Option Nat) :
    afind (gocChain t g none none (some z) none teid
      none).enb_ue_s1ap_id_to_subscriber_id z = some g := by
  simp only [gocChain]
  cases teid <;>
    simp only [Option.elim] <;>
    (repeat rw [(associateTeid_proj _ _ _ _).2.2.1]) <;>
    exact associateEnbUeS1apId_idx_self _ _ _ z

theorem chain_recompute_eq (t : CorrState) (g : Nat)
    (imsiN tmsiN imeisvN : Option String) (mme enb : Option Nat) (hg : g ≠ 0)
    (hpres : imsiN.isSome ∨ tmsiN.isSome ∨ imeisvN.isSome ∨ mme.isSome ∨ enb.isSome) :
    recomputeSubscriberId (gocChain t g imsiN tmsiN enb mme none imeisvN)
      imsiN tmsiN imeisvN mme enb = g := by
  rw [recomputeSubscriberId_eq]
  cases imsiN with
  | some x =>
    have hx := gocChain_imsi_idx t g x tmsiN enb mme none imeisvN hg
    simp [lookupOr0, pick, hx, hg]
  | none =>
    cases tmsiN with
    | some x =>
      have hx := gocChain_tmsi_idx t g x enb mme none imeisvN
      simp [lookupOr0, pick, hx, hg]
    | none =>
      cases imeisvN with
      | some x =>
        have hx := gocChain_imeisv_idx t g enb mme none x
        simp [lookupOr0, pick, hx, hg]
      | none =>
        cases mme with
        | some y =>
          have hx := gocChain_mme_idx t g enb y none
          simp [lookupOr0, pick, hx, hg]
        | none =>
          cases enb with
          | some z =>
            have hx := gocChain_enb_idx t g z none
            simp [lookupOr0, pick, hx, hg]
          | none => simp at hpres

theorem goc_recompute_eq (s : CorrState) (imsiN tmsiN imeisvN : Option String)
    (mme enb : Option Nat) (hwf : WFids s)
    (hpres : imsiN.isSome ∨ tmsiN.isSome ∨ imeisvN.isSome ∨ mme.isSome ∨ enb.isSome) :
    recomputeSubscriberId (getOrCreateSubscriber s imsiN tmsiN enb mme none imeisvN).1
      imsiN tmsiN imeisvN mme enb =
      (getOrCreateSubscriber s imsiN tmsiN enb mme none imeisvN).2 := by
  by_cases h0 : gocMatch s imsiN tmsiN enb mme none imeisvN = 0
  · rw [goc_eq_create s imsiN tmsiN enb mme none imeisvN h0]
    exact chain_recompute_eq _ _ imsiN tmsiN imeisvN mme enb
      (Nat.pos_iff_ne_zero.mp hwf.1) hpres
  · have hb := (gocMatch_bound hwf imsiN tmsiN enb mme none imeisvN).resolve_left h0
    rw [goc_eq_found s imsiN tmsiN enb mme none imeisvN rfl h0]
    exact chain_recompute_eq _ _ imsiN tmsiN imeisvN mme enb
      (Nat.pos_iff_ne_zero.mp hb.1) hpres

theorem processS1apFrame_fio (s : CorrState) (f : Frame) (ts : ℚ)
    (hwf : WFids s) (hfi : FieldIdxOk s) :
    WFids (processS1apFrame s f ts).1 ∧ FieldIdxOk (processS1apFrame s f ts).1 := by
  rw [processS1apFrame_eq]
  set iN := f.imsis.head?.map normalizeImsi with hiN
  set tN := f.tmsis.head?.map normalizeTmsi with htN
  set vN := f.imeisvs.head?.map normalizeImeisv with hvN
  set G := getOrCreateSubscriber s iN tN f.enb_id f.mme_id none vN with hG
  set SID := recomputeSubscriberId G.1 iN tN vN f.mme_id f.enb_id with hSID
  split
  · next hcond =>
    obtain ⟨wG, nG, bG, kG⟩ :=
      getOrCreateSubscriber_WF s iN tN f.enb_id f.mme_id none vN hwf
    have fG := (getOrCreateSubscriber_fio s iN tN f.enb_id f.mme_id none vN hwf hfi).2
    have hsid : SID = G.2 := by
      rw [hSID, hG]
      exact goc_recompute_eq s iN tN vN f.mme_id f.enb_id hwf hcond
    rw [hsid, if_pos (Nat.pos_iff_ne_zero.mp bG.1)]
    have hA := assocIds_both f.mme_id f.enb_id f.teids ⟨wG, fG⟩ bG
    have hAn := (assocIds_pres f.mme_id f.enb_id f.teids wG bG bG).2.1
    have hU : WFids (updateSeenTimestamps
        (assocIds G.1 G.2 G.2 f.mme_id f.enb_id f.teids) G.2 ts) ∧
        FieldIdxOk (updateSeenTimestamps
        (assocIds G.1 G.2 G.2 f.mme_id f.enb_id f.teids) G.2 ts) :=
      ⟨updateSeenTimestamps_WF hA.1 (hAn.symm ▸ bG) ts,
        updateSeenTimestamps_FieldIdxOk hA.2 G.2 ts⟩
    exact releaseStep_fio f hU
  · exact ⟨hwf, hfi⟩

theorem applyCorrOp_fio (op : CorrOp) (s : CorrState) (hwf : WFids s)
    (hfi : FieldIdxOk s) : WFids (applyCorrOp op s) ∧ FieldIdxOk (applyCorrOp op s) := by
  cases op with
  | getOrCreate imsi tmsi enb mme teid imeisv =>
    exact ⟨(getOrCreateSubscriber_WF s imsi tmsi enb mme teid imeisv hwf).1,
      (getOrCreateSubscriber_fio s imsi tmsi enb mme teid imeisv hwf hfi).2⟩
  | assocImsi i x =>
    simp only [applyCorrOp]
    split
    · next h =>
      have hb := key_bound_of_isSome hwf h
      exact ⟨associateImsi_WF hwf hb hb x, associateImsi_FieldIdxOk hfi i i x⟩
    · exact ⟨hwf, hfi⟩
  | assocTmsi i x =>
    simp only [applyCorrOp]
    split
    · next h =>
      have hb := key_bound_of_isSome hwf h
      exact ⟨associateTmsi_WF hwf hb hb x, associateTmsi_FieldIdxOk hfi i i x⟩
    · exact ⟨hwf, hfi⟩
  | assocImeisv i x =>
    simp only [applyCorrOp]
    split
    · next h =>
      have hb := key_bound_of_isSome hwf h
      exact ⟨associateImeisv_WF hwf hb hb x, associateImeisv_FieldIdxOk hfi i i x⟩
    · exact ⟨hwf, hfi⟩
  | assocEnb i v =>
    simp only [applyCorrOp]
    split
    · next h =>
      have hb := key_bound_of_isSome hwf h
      exact ⟨associateEnbUeS1apId_WF hwf hb hb v, associateEnbUeS1apId_FieldIdxOk hfi i v⟩
    · exact ⟨hwf, hfi⟩
  | assocMme i v =>
    simp only [applyCorrOp]
    split
    · next h =>
      have hb := key_bound_of_isSome hwf h
      exact ⟨associateMmeUeS1apId_WF hwf hb hb v, associateMmeUeS1apId_FieldIdxOk hfi i v⟩
    · exact ⟨hwf, hfi⟩
  | assocTeid i v =>
    simp only [applyCorrOp]
    split
    · next h =>
      have hb := key_bound_of_isSome hwf h
      exact ⟨associateTeid_WF hwf hb hb v,
        associateTeid_FieldIdxOk hfi i v (Nat.pos_iff_ne_zero.mp hb.1)
          (records_zero_none hwf)⟩
    · exact ⟨hwf, hfi⟩
  | removeImsi x =>
    exact ⟨removeImsiAssociation_WF hwf x, removeImsiAssociation_FieldIdxOk hfi x⟩
  | removeTmsi x =>
    exact ⟨removeTmsiAssociation_WF hwf x, removeTmsiAssociation_FieldIdxOk hfi x⟩
  | removeImeisv x =>
    exact ⟨removeImeisvAssociation_WF hwf x, removeImeisvAssociation_FieldIdxOk hfi x⟩
  | removeEnb v =>
    exact ⟨removeEnbUeS1apIdAssociation_WF hwf v,
      removeEnbUeS1apIdAssociation_FieldIdxOk hfi v⟩
  | removeMme v =>
    exact ⟨removeMmeUeS1apIdAssociation_WF hwf v,
      removeMmeUeS1apIdAssociation_FieldIdxOk hfi v⟩
  | removeTeid v =>
    exact ⟨removeTeidAssociation_WF hwf v, removeTeidAssociation_FieldIdxOk hfi v⟩
  | processFrame f ts =>
    exact processS1apFrame_fio s f ts hwf hfi

/-- C3 counterexample: the claimed six-kind field-index consistency is not an
invariant.  From the initial store, creating subscriber 1 with IMSI "111",
subscriber 2 with TMSI "aaaa", and then processing identifiers IMSI "111" +
TMSI "aaaa" (matched to record 1 through the IMSI index) repoints the TMSI
index entry "aaaa" to record 1 without clearing record 2's TMSI field —
`associateTmsi` has no conflict-clearing step — so record 2 still holds TMSI
"aaaa" while the index maps "aaaa" to 1. -/
theorem c3_counterexample :
    afind (applyCorrOps
        [CorrOp.getOrCreate (some "111") none none none none none,
         CorrOp.getOrCreate none (some "aaaa") none none none none,
         CorrOp.getOrCreate (some "111") (some "aaaa") none none none none]
        corrInit).subscriber_records 2 = some ({ tmsi := some "aaaa" }) ∧
    afind (applyCorrOps
        [CorrOp.getOrCreate (some "111") none none none none none,
         CorrOp.getOrCreate none (some "aaaa") none none none none,
         CorrOp.getOrCreate (some "111") (some "aaaa") none none none none]
        corrInit).tmsi_to_subscriber_id "aaaa" = some 1 ∧
    ¬ FieldIdxOkAll (applyCorrOps
        [CorrOp.getOrCreate (some "111") none none none none none,
         CorrOp.getOrCreate none (some "aaaa") none none none none,
         CorrOp.getOrCreate (some "111") (some "aaaa") none none none none]
        corrInit) := by
  refine ⟨by decide, by decide, fun hall => ?_⟩
  have h2 := (hall.2 2 ({ tmsi := some "aaaa" }) (by decide)).2.1 "aaaa" rfl
  have h1 : afind (applyCorrOps
      [CorrOp.getOrCreate (some "111") none none none none none,
       CorrOp.getOrCreate none (some "aaaa") none none none none,
       CorrOp.getOrCreate (some "111") (some "aaaa") none none none none]
      corrInit).tmsi_to_subscriber_id "aaaa" = some 1 := by decide
  rw [h1] at h2
  simp at h2

/-- C3 (amended): the consistency invariant the store does maintain.  Over any
sequence of store operations, id-well-formedness together with field-index
consistency for the MME-UE-S1AP-ID, eNB-UE-S1AP-ID and TEID kinds (the kinds
whose associate operations clear the previous owner's field on an index
conflict) is preserved; the IMSI/TMSI/IMEISV kinds are excluded, as
`c3_counterexample` refutes them. -/
theorem c3_amended_field_index_invariant : ∀ (ops : List CorrOp) (s : CorrState),
    WFids s → FieldIdxOk s →
    WFids (applyCorrOps ops s) ∧ FieldIdxOk (applyCorrOps ops s)
  | [], _, hwf, hfi => ⟨hwf, hfi⟩
  | op :: ops, s, hwf, hfi => by
    simp only [applyCorrOps, List.foldl]
    obtain ⟨w1, f1⟩ := applyCorrOp_fio op s hwf hfi
    exact c3_amended_field_index_invariant ops (applyCorrOp op s) w1 f1

/-- Witness for C3 (amended) on a run that creates a subscriber with IMSI,
MME and eNB ids, processes a frame and removes the MME association. -/
theorem c3_amended_field_index_invariant_witness :
    WFids (applyCorrOps
      [CorrOp.getOrCreate (some "111") none (some 9) (some 7) (some 77) none,
       CorrOp.processFrame ⟨9, S1apPduType.initiatingMessage, [], [], [],
         some 7, none, []⟩ 3,
       CorrOp.removeMme 7] corrInit) ∧
    FieldIdxOk (applyCorrOps
      [CorrOp.getOrCreate (some "111") none (some 9) (some 7) (some 77) none,
       CorrOp.processFrame ⟨9, S1apPduType.initiatingMessage, [], [], [],
         some 7, none, []⟩ 3,
       CorrOp.removeMme 7] corrInit) :=
  c3_amended_field_index_invariant
    [CorrOp.getOrCreate (some "111") none (some 9) (some 7) (some 77) none,
     CorrOp.processFrame ⟨9, S1apPduType.initiatingMessage, [], [], [],
       some 7, none, []⟩ 3,
     CorrOp.removeMme 7] corrInit
    (by unfold WFids IdxBounded corrInit; decide)
    (fun i r h => Option.noConfusion h)

end S1SEE











